import Mathlib

/-!
# Notification delivery subsystem (Dev-Codn/notificationbeb)

A shallow embedding of `src/services/notificationService.js`,
`src/services/deviceManager.js`, the handlers of
`src/controllers/notificationController.js` and the `notification:mark-read` handler of
`src/services/socketServer.js`.

* The database behind the Prisma client is an explicit `Store` value that every
  operation receives and returns.
* What the outside world decides (a store call rejecting, `emit` throwing, the
  answer of the push provider, the clock) is passed in as an explicit outcome
  record, so a statement "for every outcome" is a universally quantified theorem.
* Everything observable on a transport is appended to an effect list.
* An `async` function that can reject returns `Except`; state changes made before
  the rejection stay in the returned store.
* The per-device attempts of one fan-out touch disjoint rows (each attempt owns the
  row it created and the device it was given), so the fan-out is run in the order of
  the fetched device list; likewise the sends of `sendToMultipleUsers` are run in the
  order of the list of user ids.
* Timestamps are natural numbers. The calendar arithmetic of `Date.setDate` in the two
  cleanup jobs and the calls of other requests that land between two awaits of
  `markDeviceOffline` belong to the environment and are parameters.
-/

namespace NotificationBeb

/-! ## Data model -/

/-- Push-subscription descriptor of a device (a JSON object in the source). -/
structure PushSubscription where
  endpoint : Option String
  keys : String
deriving DecidableEq, Repr

/-- Modelled from the spec: the `abUserDevice` table (the Prisma schema is not part of
the sources); the fields are the ones `deviceManager.js` reads and writes. -/
structure Device where
  id : Nat
  userId : String
  deviceType : String
  deviceName : String
  pushSubscription : Option PushSubscription
  fcmToken : Option String
  isOnline : Bool
  webSocketId : Option String
  lastSeen : Nat
  notificationSettings : List (String × Bool)
deriving DecidableEq, Repr

/-- Modelled from the spec: the `abNotification` table (the Prisma schema is not part of
the sources); a new row starts unread with no read timestamp. -/
structure Notification where
  id : Nat
  userId : String
  type : String
  title : String
  body : String
  data : List (String × String)
  targetUrl : Option String
  priority : String
  deliveredDevices : List Nat
  isRead : Bool
  readAt : Option Nat
  createdAt : Nat
deriving DecidableEq, Repr

/-- Modelled from the spec: the `abNotificationDeliveryStatus` table (the Prisma schema
is not part of the sources). The status is the string the source writes. -/
structure DeliveryStatus where
  id : Nat
  notificationId : Nat
  deviceId : Nat
  deliveryStatus : String
  errorMessage : Option String
  deliveredAt : Option Nat
  clickedAt : Option Nat
deriving DecidableEq, Repr

/-- The database: the three tables and the next unused identifier. -/
structure Store where
  notifications : List Notification
  devices : List Device
  deliveryStatuses : List DeliveryStatus
  nextId : Nat
deriving DecidableEq, Repr

/-- What leaves the process on a transport. -/
inductive Effect where
  | emit (socketId : String) (event : String) (arg : Nat)
  | webPush (subscription : PushSubscription) (notificationId : Nat)
deriving DecidableEq, Repr

/-- The second argument of `sendNotification`. -/
structure NotificationData where
  type : String
  title : String
  body : String
  data : List (String × String)
  targetUrl : Option String
  priority : Option String
deriving DecidableEq, Repr

/-- Outcome of running an `async` function: the store it leaves, what it emitted and
either its value or the error it rejected with. -/
structure Run (α : Type) where
  store : Store
  effects : List Effect
  result : Except String α

/-- The object `sendToDevice` resolves with. -/
structure SendResult where
  success : Bool
  method : Option String
  error : Option String
deriving DecidableEq, Repr

/-- The object `sendViaWebPush` resolves with. -/
structure PushResult where
  success : Bool
  statusCode : Option Nat
  error : Option String
deriving DecidableEq, Repr

/-! ## Outcomes decided by the environment -/

/-- Answer of `webPush.sendNotification`: it resolves with a status code or rejects
with an error carrying an optional status code and a message. -/
inductive PushOutcome where
  | resolved (statusCode : Nat)
  | rejected (statusCode : Option Nat) (message : String)
deriving DecidableEq, Repr

/-- Everything the environment decides during one `sendToDevice`. -/
structure DeviceOutcome where
  createThrows : Bool
  emitThrows : Bool
  push : PushOutcome
  updateThrows : Bool
  deleteThrows : Bool
  now : Nat
deriving DecidableEq, Repr

/-- Everything the environment decides during one `sendNotification`. -/
structure SendOutcome where
  createThrows : Bool
  findThrows : Bool
  now : Nat
  device : Nat → DeviceOutcome

/-- Everything the environment decides during one `markAsRead`. -/
structure ReadOutcome where
  updateThrows : Bool
  findThrows : Bool
  emitThrows : Bool
  now : Nat
deriving DecidableEq, Repr

/-- Everything the environment decides during one `markAsClicked`. -/
structure ClickOutcome where
  updateManyThrows : Bool
  now : Nat
  read : ReadOutcome
deriving DecidableEq, Repr

/-- JavaScript truthiness of a nullable string: neither `null` nor empty. -/
def truthy (x : Option String) : Bool :=
  match x with
  | some v => v != ""
  | none => false

/-! ## The Prisma client calls used by the two services -/

/-- Modelled from the spec: `prisma.abNotification.create`; the row gets a fresh id and
the column defaults (unread, no read timestamp, created now). -/
def abNotification_create (throws : Bool) (now : Nat) (s : Store) (userId : String)
    (type title body : String) (data : List (String × String)) (targetUrl : Option String)
    (priority : String) : Except String (Notification × Store) :=
  if throws then .error "store error"
  else
    let n : Notification :=
      { id := s.nextId, userId := userId, type := type, title := title, body := body,
        data := data, targetUrl := targetUrl, priority := priority, deliveredDevices := [],
        isRead := false, readAt := none, createdAt := now }
    .ok (n, { s with notifications := s.notifications ++ [n], nextId := s.nextId + 1 })

/-- Modelled from the spec: `prisma.abNotification.update`; it rejects when no row
matches the unique selector. -/
def abNotification_update (throws : Bool) (s : Store) (sel : Notification → Bool)
    (f : Notification → Notification) : Except String (Notification × Store) :=
  if throws then .error "store error"
  else
    match s.notifications.find? sel with
    | none => .error "record to update not found"
    | some n =>
      .ok (f n, { s with notifications := s.notifications.map (fun x => if sel x then f x else x) })

/-- Modelled from the spec: `prisma.abNotificationDeliveryStatus.create`, with a fresh
id and empty optional columns. -/
def abNotificationDeliveryStatus_create (throws : Bool) (s : Store) (notificationId deviceId : Nat)
    (deliveryStatus : String) : Except String (DeliveryStatus × Store) :=
  if throws then .error "store error"
  else
    let r : DeliveryStatus :=
      { id := s.nextId, notificationId := notificationId, deviceId := deviceId,
        deliveryStatus := deliveryStatus, errorMessage := none, deliveredAt := none,
        clickedAt := none }
    .ok (r, { s with deliveryStatuses := s.deliveryStatuses ++ [r], nextId := s.nextId + 1 })

/-- Modelled from the spec: `prisma.abNotificationDeliveryStatus.update` by id; it
rejects when the id is not in the table. -/
def abNotificationDeliveryStatus_update (throws : Bool) (s : Store) (id : Nat)
    (f : DeliveryStatus → DeliveryStatus) : Except String Store :=
  if throws then .error "store error"
  else if s.deliveryStatuses.any (fun r => r.id == id) then
    .ok { s with deliveryStatuses := s.deliveryStatuses.map (fun r => if r.id = id then f r else r) }
  else .error "record to update not found"

/-- Modelled from the spec: `prisma.abNotificationDeliveryStatus.updateMany`; every
matching row is updated and the number of them returned, none matching is no error. -/
def abNotificationDeliveryStatus_updateMany (throws : Bool) (s : Store) (sel : DeliveryStatus → Bool)
    (f : DeliveryStatus → DeliveryStatus) : Except String (Nat × Store) :=
  if throws then .error "store error"
  else
    .ok ((s.deliveryStatuses.filter sel).length,
         { s with deliveryStatuses := s.deliveryStatuses.map (fun r => if sel r then f r else r) })

/-- Modelled from the spec: `prisma.abUserDevice.findMany` ordered by `lastSeen`
descending. -/
def abUserDevice_findMany (s : Store) (sel : Device → Bool) : List Device :=
  (s.devices.filter sel).insertionSort (fun a b => b.lastSeen ≤ a.lastSeen)

/-- Modelled from the spec: `prisma.abUserDevice.delete` by id, a hard delete of the
device row only; it rejects when the id is not in the table. -/
def abUserDevice_delete (throws : Bool) (s : Store) (id : Nat) : Except String Store :=
  if throws then .error "store error"
  else if s.devices.any (fun d => d.id == id) then
    .ok { s with devices := s.devices.filter (fun d => d.id != id) }
  else .error "record to delete does not exist"

/-! ## deviceManager.js -/

/-- `DeviceManager.unregisterDevice`: delete the row, rethrow a store error. -/
def unregisterDevice (throws : Bool) (s : Store) (deviceId : Nat) : Except String Store :=
  match abUserDevice_delete throws s deviceId with
  | .ok s1 => .ok s1
  | .error e => .error e

/-- `DeviceManager.getUserDevices`: the devices of the user, optionally only the online
ones, most recently seen first; a store error is rethrown. -/
def getUserDevices (throws : Bool) (s : Store) (userId : String) (onlineOnly : Bool) :
    Except String (List Device) :=
  if throws then .error "store error"
  else .ok (abUserDevice_findMany s (fun d => d.userId == userId && (!onlineOnly || d.isOnline)))

/-! ## notificationService.js -/

/-- `NotificationService.sendViaWebSocket`: false without a Socket.IO instance or when
`emit` throws, true after emitting `notification:new` to the socket id. -/
def sendViaWebSocket (socket : Bool) (emitThrows : Bool) (socketId : String)
    (notification : Notification) : Bool × List Effect :=
  if !socket then (false, [])
  else if emitThrows then (false, [])
  else (true, [Effect.emit socketId "notification:new" notification.id])

/-- `NotificationService.sendViaWebPush`: one call of the provider; a rejection is
turned into a result carrying the status code and the message of the error. -/
def sendViaWebPush (push : PushOutcome) (subscription : PushSubscription)
    (notification : Notification) : PushResult × List Effect :=
  match push with
  | .resolved code =>
    ({ success := true, statusCode := some code, error := none },
      [Effect.webPush subscription notification.id])
  | .rejected code message =>
    ({ success := false, statusCode := code, error := some message },
      [Effect.webPush subscription notification.id])

/-- `NotificationService.markAsDelivered`: a rejected update is logged, not rethrown. -/
def markAsDelivered (throws : Bool) (now : Nat) (s : Store) (deliveryStatusId : Nat) : Store :=
  match abNotificationDeliveryStatus_update throws s deliveryStatusId
      (fun r => { r with deliveryStatus := "delivered", deliveredAt := some now }) with
  | .ok s1 => s1
  | .error _ => s

/-- `NotificationService.markAsFailed`: a rejected update is logged, not rethrown. An
`undefined` message leaves the column as it is. -/
def markAsFailed (throws : Bool) (s : Store) (deliveryStatusId : Nat)
    (errorMessage : Option String) : Store :=
  match abNotificationDeliveryStatus_update throws s deliveryStatusId
      (fun r => { r with deliveryStatus := "failed",
                         errorMessage := match errorMessage with
                           | some m => some m
                           | none => r.errorMessage }) with
  | .ok s1 => s1
  | .error _ => s

/-- The `try` block of `NotificationService.sendToDevice`. -/
def sendToDeviceTry (socket : Bool) (o : DeviceOutcome) (s : Store) (device : Device)
    (notification : Notification) : Run SendResult :=
  match abNotificationDeliveryStatus_create o.createThrows s notification.id device.id "sent" with
  | .error e => ⟨s, [], .error e⟩
  | .ok (deliveryStatus, s1) =>
    let ws : Bool × List Effect :=
      if device.isOnline && truthy device.webSocketId && socket then
        sendViaWebSocket socket o.emitThrows (device.webSocketId.getD "") notification
      else (false, [])
    if ws.1 then
      ⟨markAsDelivered o.updateThrows o.now s1 deliveryStatus.id, ws.2,
        .ok { success := true, method := some "websocket", error := none }⟩
    else
      match device.pushSubscription with
      | none => ⟨s1, ws.2, .ok { success := false, method := some "none", error := none }⟩
      | some subscription =>
        let pr := sendViaWebPush o.push subscription notification
        if pr.1.success then
          ⟨markAsDelivered o.updateThrows o.now s1 deliveryStatus.id, ws.2 ++ pr.2,
            .ok { success := true, method := some "webpush", error := none }⟩
        else
          let s2 := markAsFailed o.updateThrows s1 deliveryStatus.id pr.1.error
          if pr.1.statusCode = some 410 then
            match unregisterDevice o.deleteThrows s2 device.id with
            | .error e => ⟨s2, ws.2 ++ pr.2, .error e⟩
            | .ok s3 =>
              ⟨s3, ws.2 ++ pr.2, .ok { success := false, method := some "none", error := none }⟩
          else
            ⟨s2, ws.2 ++ pr.2, .ok { success := false, method := some "none", error := none }⟩

/-- `NotificationService.sendToDevice`: the `try` block, with the `catch` turning any
error into a resolved result. -/
def sendToDevice (socket : Bool) (o : DeviceOutcome) (s : Store) (device : Device)
    (notification : Notification) : Run SendResult :=
  let r := sendToDeviceTry socket o s device notification
  match r.result with
  | .ok _ => r
  | .error e => { r with result := .ok { success := false, method := none, error := some e } }

/-- `Promise.allSettled(devices.map(device => this.sendToDevice(device, notification)))`:
every attempt is run and its settlement collected, whatever the others did. -/
def allSettled (socket : Bool) (oc : Nat → DeviceOutcome) (notification : Notification) :
    List Device → Store → Store × List Effect × List (Except String SendResult)
  | [], s => (s, [], [])
  | device :: rest, s =>
    let r := sendToDevice socket (oc device.id) s device notification
    let t := allSettled socket oc notification rest r.store
    (t.1, r.effects ++ t.2.1, r.result :: t.2.2)

/-- `NotificationService.sendNotification`. -/
def sendNotification (socket : Bool) (oc : SendOutcome) (s : Store) (userId : String)
    (notificationData : NotificationData) : Run Notification :=
  match abNotification_create oc.createThrows oc.now s userId notificationData.type
      notificationData.title notificationData.body notificationData.data
      notificationData.targetUrl (notificationData.priority.getD "normal") with
  | .error e => ⟨s, [], .error e⟩
  | .ok (notification, s1) =>
    match getUserDevices oc.findThrows s1 userId false with
    | .error e => ⟨s1, [], .error e⟩
    | .ok devices =>
      if devices.length = 0 then ⟨s1, [], .ok notification⟩
      else
        let t := allSettled socket oc.device notification devices s1
        ⟨t.1, t.2.1, .ok notification⟩

/-- `NotificationService.markAsRead`; `userId` restricts the selector only when it is
truthy. The update is unconditional: it writes the flag and the current time. -/
def markAsRead (socket : Bool) (oc : ReadOutcome) (s : Store) (notificationId : Nat)
    (userId : Option String) : Run Notification :=
  match abNotification_update oc.updateThrows s
      (fun n => n.id == notificationId && (!truthy userId || some n.userId == userId))
      (fun n => { n with isRead := true, readAt := some oc.now }) with
  | .error e => ⟨s, [], .error e⟩
  | .ok (notification, s1) =>
    if socket then
      match getUserDevices oc.findThrows s1 notification.userId true with
      | .error e => ⟨s1, [], .error e⟩
      | .ok devices =>
        let targets := devices.filter (fun d => truthy d.webSocketId)
        if oc.emitThrows && !targets.isEmpty then ⟨s1, [], .error "emit error"⟩
        else
          ⟨s1, targets.map (fun d =>
              Effect.emit (d.webSocketId.getD "") "notification:read-sync" notificationId),
            .ok notification⟩
    else ⟨s1, [], .ok notification⟩

/-- `NotificationService.markAsClicked`: every row of the pair is set to `clicked`, then
the notification is marked read; any error is logged, not rethrown. -/
def markAsClicked (socket : Bool) (oc : ClickOutcome) (s : Store) (notificationId deviceId : Nat) :
    Run Unit :=
  match abNotificationDeliveryStatus_updateMany oc.updateManyThrows s
      (fun r => r.notificationId == notificationId && r.deviceId == deviceId)
      (fun r => { r with deliveryStatus := "clicked", clickedAt := some oc.now }) with
  | .error _ => ⟨s, [], .ok ()⟩
  | .ok (_, s1) =>
    let r := markAsRead socket oc.read s1 notificationId none
    ⟨r.store, r.effects, .ok ()⟩

/-! ## Further outcomes decided by the environment -/

/-- Everything the environment decides during one `updateBadgeCount`. -/
structure BadgeOutcome where
  countThrows : Bool
  findThrows : Bool
  emitThrows : Bool
deriving DecidableEq, Repr

/-- Everything the environment decides during one `markAllAsRead`. -/
structure ReadAllOutcome where
  updateManyThrows : Bool
  now : Nat
  badge : BadgeOutcome
deriving DecidableEq, Repr

/-- Everything the environment decides during one `registerDevice`. -/
structure RegisterOutcome where
  findThrows : Bool
  updateThrows : Bool
  createThrows : Bool
  now : Nat
deriving DecidableEq, Repr

/-- Everything the environment decides during one `markDeviceOffline`. -/
structure OfflineOutcome where
  findThrows : Bool
  updateThrows : Bool
  now : Nat
deriving DecidableEq, Repr

/-- The `deviceInfo` argument of `registerDevice`. -/
structure DeviceInfo where
  deviceType : String
  deviceName : String
  pushSubscription : Option PushSubscription
  fcmToken : Option String
deriving DecidableEq, Repr

/-- The object `sendToMultipleUsers` resolves with. -/
structure BulkResult where
  successful : Nat
  failed : Nat
  results : List (Except String Notification)

/-- The status and the `success` field of the JSON body an HTTP handler answers with. -/
structure HttpResponse where
  status : Nat
  success : Bool
  message : String
deriving DecidableEq, Repr

/-! ## Further Prisma client calls -/

/-- Modelled from the spec: `prisma.abNotification.updateMany`; every matching row is
updated and the number of them returned. -/
def abNotification_updateMany (throws : Bool) (s : Store) (sel : Notification → Bool)
    (f : Notification → Notification) : Except String (Nat × Store) :=
  if throws then .error "store error"
  else
    .ok ((s.notifications.filter sel).length,
         { s with notifications := s.notifications.map (fun n => if sel n then f n else n) })

/-- Modelled from the spec: `prisma.abNotification.findMany` ordered by `createdAt`
descending, with `skip` and `take`. -/
def abNotification_findMany (s : Store) (sel : Notification → Bool) (skip take : Nat) :
    List Notification :=
  (((s.notifications.filter sel).insertionSort
    (fun a b => b.createdAt ≤ a.createdAt)).drop skip).take take

/-- Modelled from the spec: `prisma.abNotification.count`. -/
def abNotification_count (s : Store) (sel : Notification → Bool) : Nat :=
  (s.notifications.filter sel).length

/-- Modelled from the spec: `prisma.abNotification.deleteMany`; the delivery-status rows
of a deleted notification go with it (cascading notification deletion). -/
def abNotification_deleteMany (throws : Bool) (s : Store) (sel : Notification → Bool) :
    Except String (Nat × Store) :=
  if throws then .error "store error"
  else
    .ok ((s.notifications.filter sel).length,
         { s with
           notifications := s.notifications.filter (fun n => !sel n)
           deliveryStatuses := s.deliveryStatuses.filter (fun r =>
             !(s.notifications.filter sel).any (fun n => n.id == r.notificationId)) })

/-- Modelled from the spec: `prisma.abUserDevice.findFirst`, the first matching row in
table order. -/
def abUserDevice_findFirst (throws : Bool) (s : Store) (sel : Device → Bool) :
    Except String (Option Device) :=
  if throws then .error "store error" else .ok (s.devices.find? sel)

/-- Modelled from the spec: `prisma.abUserDevice.update` by id; it rejects when the id
is not in the table. -/
def abUserDevice_update (throws : Bool) (s : Store) (id : Nat) (f : Device → Device) :
    Except String (Device × Store) :=
  if throws then .error "store error"
  else
    match s.devices.find? (fun d => d.id == id) with
    | none => .error "record to update not found"
    | some d =>
      .ok (f d, { s with devices := s.devices.map (fun x => if x.id = id then f x else x) })

/-- Modelled from the spec: `prisma.abUserDevice.create`; the row gets a fresh id, no
socket id and empty notification settings. -/
def abUserDevice_create (throws : Bool) (s : Store) (userId deviceType deviceName : String)
    (pushSubscription : Option PushSubscription) (fcmToken : Option String) (isOnline : Bool)
    (lastSeen : Nat) : Except String (Device × Store) :=
  if throws then .error "store error"
  else
    let d : Device :=
      { id := s.nextId, userId := userId, deviceType := deviceType, deviceName := deviceName,
        pushSubscription := pushSubscription, fcmToken := fcmToken, isOnline := isOnline,
        webSocketId := none, lastSeen := lastSeen, notificationSettings := [] }
    .ok (d, { s with devices := s.devices ++ [d], nextId := s.nextId + 1 })

/-- Modelled from the spec: `prisma.abUserDevice.deleteMany`, a hard delete of the
matching device rows only. -/
def abUserDevice_deleteMany (throws : Bool) (s : Store) (sel : Device → Bool) :
    Except String (Nat × Store) :=
  if throws then .error "store error"
  else
    .ok ((s.devices.filter sel).length, { s with devices := s.devices.filter (fun d => !sel d) })

/-! ## deviceManager.js, continued -/

/-- `DeviceManager.registerDevice`: with a truthy endpoint the first device of the user
with that endpoint is looked up and updated; otherwise, or when none is found, a new
device is created. Both paths set `isOnline` and `lastSeen`. -/
def registerDevice (oc : RegisterOutcome) (s : Store) (userId : String)
    (deviceInfo : DeviceInfo) : Run Device :=
  let endpoint : Option String :=
    match deviceInfo.pushSubscription with
    | some sub => sub.endpoint
    | none => none
  let found : Except String (Option Device) :=
    if truthy endpoint then
      abUserDevice_findFirst oc.findThrows s (fun d =>
        d.userId == userId &&
          (match d.pushSubscription with
            | some sub => sub.endpoint == endpoint
            | none => false))
    else .ok none
  match found with
  | .error e => ⟨s, [], .error e⟩
  | .ok (some existingDevice) =>
    match abUserDevice_update oc.updateThrows s existingDevice.id
        (fun d => { d with deviceType := deviceInfo.deviceType,
                           deviceName := deviceInfo.deviceName,
                           pushSubscription := deviceInfo.pushSubscription,
                           fcmToken := deviceInfo.fcmToken,
                           isOnline := true, lastSeen := oc.now }) with
    | .error e => ⟨s, [], .error e⟩
    | .ok (updatedDevice, s1) => ⟨s1, [], .ok updatedDevice⟩
  | .ok none =>
    match abUserDevice_create oc.createThrows s userId deviceInfo.deviceType
        deviceInfo.deviceName deviceInfo.pushSubscription deviceInfo.fcmToken true oc.now with
    | .error e => ⟨s, [], .error e⟩
    | .ok (newDevice, s1) => ⟨s1, [], .ok newDevice⟩

/-- `DeviceManager.updateDeviceStatus`: the socket id is written only when the argument
is not `null`. -/
def updateDeviceStatus (throws : Bool) (now : Nat) (s : Store) (deviceId : Nat)
    (isOnline : Bool) (webSocketId : Option String) : Run Device :=
  match abUserDevice_update throws s deviceId
      (fun d => { d with isOnline := isOnline, lastSeen := now,
                         webSocketId := match webSocketId with
                           | some w => some w
                           | none => d.webSocketId }) with
  | .error e => ⟨s, [], .error e⟩
  | .ok (device, s1) => ⟨s1, [], .ok device⟩

/-- `DeviceManager.markDeviceOffline` as the two awaited store calls it is made of. The
lookup `findFirst({ where: { webSocketId } })` reads the store `s`; `between` is what the
calls of other requests do to the store while the lookup is awaited; the update
`update({ where: { id: device.id } })` is keyed by the device id alone and is applied to
the store they leave. The device found by the lookup (or `null`) is returned. -/
def markDeviceOfflineBetween (oc : OfflineOutcome) (between : Store → Store) (s : Store)
    (webSocketId : String) : Run (Option Device) :=
  match abUserDevice_findFirst oc.findThrows s (fun d => d.webSocketId == some webSocketId) with
  | .error e => ⟨s, [], .error e⟩
  | .ok none => ⟨s, [], .ok none⟩
  | .ok (some device) =>
    match abUserDevice_update oc.updateThrows (between s) device.id
        (fun d => { d with isOnline := false, webSocketId := none, lastSeen := oc.now }) with
    | .error e => ⟨between s, [], .error e⟩
    | .ok (_, s1) => ⟨s1, [], .ok (some device)⟩

/-- `DeviceManager.markDeviceOffline` in a run where no other call touches the store
between its lookup and its update. -/
def markDeviceOffline (oc : OfflineOutcome) (s : Store) (webSocketId : String) :
    Run (Option Device) :=
  markDeviceOfflineBetween oc (fun s0 => s0) s webSocketId

/-- `DeviceManager.removeInactiveDevices`: delete the devices last seen before the
cutoff and return how many there were. The cutoff is the date the runtime computes with
`cutoffDate.setDate(cutoffDate.getDate() - daysInactive)` from the current date: local
calendar arithmetic, passed in as `setDate`, whose answer is the timestamp of the new
date or nothing when the date is invalid, in which case the query is rejected. -/
def removeInactiveDevices (throws : Bool) (setDate : Nat → Int → Option Int) (now : Nat)
    (s : Store) (daysInactive : Int) : Run Nat :=
  match setDate now daysInactive with
  | none => ⟨s, [], .error "invalid date"⟩
  | some cutoffDate =>
    match abUserDevice_deleteMany throws s
        (fun d => decide ((d.lastSeen : Int) < cutoffDate)) with
    | .error e => ⟨s, [], .error e⟩
    | .ok (count, s1) => ⟨s1, [], .ok count⟩

/-! ## notificationService.js, continued -/

/-- The sends of `sendToMultipleUsers`, one per user id, each with the outcome the
environment decides for it; every settlement is collected. -/
def sendEach (socket : Bool) (notificationData : NotificationData) :
    List (String × SendOutcome) → Store → Store × List Effect × List (Except String Notification)
  | [], s => (s, [], [])
  | (userId, oc) :: rest, s =>
    let r := sendNotification socket oc s userId notificationData
    let t := sendEach socket notificationData rest r.store
    (t.1, r.effects ++ t.2.1, r.result :: t.2.2)

/-- `NotificationService.sendToMultipleUsers`: `Promise.allSettled` over one
`sendNotification` per user id, then the number of fulfilled and of rejected ones. -/
def sendToMultipleUsers (socket : Bool) (s : Store) (calls : List (String × SendOutcome))
    (notificationData : NotificationData) : Run BulkResult :=
  let t := sendEach socket notificationData calls s
  let successful := (t.2.2.filter (fun r => r.toBool)).length
  let failed := (t.2.2.filter (fun r => !r.toBool)).length
  ⟨t.1, t.2.1, .ok { successful := successful, failed := failed, results := t.2.2 }⟩

/-- `NotificationService.getUnreadNotifications`. -/
def getUnreadNotifications (throws : Bool) (s : Store) (userId : String) (limit : Nat) :
    Except String (List Notification) :=
  if throws then .error "store error"
  else .ok (abNotification_findMany s (fun n => n.userId == userId && !n.isRead) 0 limit)

/-- `NotificationService.getUnreadCount`. -/
def getUnreadCount (throws : Bool) (s : Store) (userId : String) : Except String Nat :=
  if throws then .error "store error"
  else .ok (abNotification_count s (fun n => n.userId == userId && !n.isRead))

/-- `NotificationService.updateBadgeCount`: the unread count is emitted to every online
device of the user with a truthy socket id; an error is logged and nothing is returned. -/
def updateBadgeCount (socket : Bool) (oc : BadgeOutcome) (s : Store) (userId : String) :
    Run (Option Nat) :=
  match getUnreadCount oc.countThrows s userId with
  | .error _ => ⟨s, [], .ok none⟩
  | .ok count =>
    match getUserDevices oc.findThrows s userId true with
    | .error _ => ⟨s, [], .ok none⟩
    | .ok devices =>
      let targets := devices.filter (fun d => truthy d.webSocketId && socket)
      if oc.emitThrows && !targets.isEmpty then ⟨s, [], .ok none⟩
      else
        ⟨s, targets.map (fun d =>
            Effect.emit (d.webSocketId.getD "") "notification:badge-update" count),
          .ok (some count)⟩

/-- `NotificationService.markAllAsRead`: the unread notifications of the user are set
read with the current time, the badge count is pushed, the number of updated rows is
returned. -/
def markAllAsRead (socket : Bool) (oc : ReadAllOutcome) (s : Store) (userId : String) :
    Run Nat :=
  match abNotification_updateMany oc.updateManyThrows s
      (fun n => n.userId == userId && !n.isRead)
      (fun n => { n with isRead := true, readAt := some oc.now }) with
  | .error e => ⟨s, [], .error e⟩
  | .ok (count, s1) =>
    let b := updateBadgeCount socket oc.badge s1 userId
    ⟨b.store, b.effects, .ok count⟩

/-- `NotificationService.cleanupOldNotifications`: delete the read notifications created
before the cutoff and return how many there were. The cutoff is computed by the runtime
as in `removeInactiveDevices`; an invalid date makes the query reject. -/
def cleanupOldNotifications (throws : Bool) (setDate : Nat → Int → Option Int) (now : Nat)
    (s : Store) (daysOld : Int) : Run Nat :=
  match setDate now daysOld with
  | none => ⟨s, [], .error "invalid date"⟩
  | some cutoffDate =>
    match abNotification_deleteMany throws s
        (fun n => decide ((n.createdAt : Int) < cutoffDate) && n.isRead) with
    | .error e => ⟨s, [], .error e⟩
    | .ok (count, s1) => ⟨s1, [], .ok count⟩

/-! ## notificationController.js -/

/-- The handler `unsubscribeDevice` (and, with the id taken from the path, `deleteDevice`):
400 without a device id, 500 when `unregisterDevice` rejects, 200 otherwise. -/
def unsubscribeDevice (throws : Bool) (s : Store) (deviceId : Option Nat) :
    Store × HttpResponse :=
  match deviceId with
  | none => (s, { status := 400, success := false, message := "Device ID is required" })
  | some id =>
    match unregisterDevice throws s id with
    | .ok s1 =>
      (s1, { status := 200, success := true, message := "Device unregistered successfully" })
    | .error _ =>
      (s, { status := 500, success := false, message := "Failed to unregister device" })

/-! ## deviceManager.js, the remaining calls -/

/-- `DeviceManager.getDeviceBySocketId`: the first device stored with the socket id. -/
def getDeviceBySocketId (throws : Bool) (s : Store) (webSocketId : String) :
    Except String (Option Device) :=
  match abUserDevice_findFirst throws s (fun d => d.webSocketId == some webSocketId) with
  | .ok device => .ok device
  | .error e => .error e

/-- `DeviceManager.updateNotificationSettings`. -/
def updateNotificationSettings (throws : Bool) (s : Store) (deviceId : Nat)
    (settings : List (String × Bool)) : Run Device :=
  match abUserDevice_update throws s deviceId
      (fun d => { d with notificationSettings := settings }) with
  | .error e => ⟨s, [], .error e⟩
  | .ok (device, s1) => ⟨s1, [], .ok device⟩

/-- `DeviceManager.getNotificationSettings`: the settings of the device, the empty
object when there is no such device. -/
def getNotificationSettings (throws : Bool) (s : Store) (deviceId : Nat) :
    Except String (List (String × Bool)) :=
  if throws then .error "store error"
  else
    match s.devices.find? (fun d => d.id == deviceId) with
    | some device => .ok device.notificationSettings
    | none => .ok []

/-! ## notificationService.js, the remaining calls -/

/-- `NotificationService.getNotificationHistory`: the notifications of the user, of one
type when a truthy type is given, newest first, with offset and limit. -/
def getNotificationHistory (throws : Bool) (s : Store) (userId : String) (limit offset : Nat)
    (type : Option String) : Except String (List Notification) :=
  if throws then .error "store error"
  else
    .ok (abNotification_findMany s
      (fun n => n.userId == userId && (!truthy type || some n.type == type)) offset limit)

/-- `NotificationService.sendTestNotification`. -/
def sendTestNotification (socket : Bool) (oc : SendOutcome) (s : Store) (userId : String) :
    Run Notification :=
  sendNotification socket oc s userId
    { type := "system_test", title := "🧪 Test Notification",
      body := "This is a test notification from the Water Supply system!",
      data := [("test", "true"), ("timestamp", toString oc.now)],
      targetUrl := some "/dashboard", priority := some "normal" }

/-- A JSON value, as far as the push payload needs it. -/
inductive JsonValue where
  | null
  | bool (b : Bool)
  | num (n : Nat)
  | str (s : String)
deriving DecidableEq, Repr

/-- Setting a key of a JavaScript object: a key that is there keeps its place and takes
the new value, a new key is appended. -/
def objectSet (o : List (String × JsonValue)) (k : String) (v : JsonValue) :
    List (String × JsonValue) :=
  if o.any (fun p => p.1 == k) then o.map (fun p => if p.1 == k then (k, v) else p)
  else o ++ [(k, v)]

/-- An object literal: the entries are set from left to right, so of two entries with
the same key the later one gives the value. -/
def objectOf (entries : List (String × JsonValue)) : List (String × JsonValue) :=
  entries.foldl (fun o p => objectSet o p.1 p.2) []

/-- Reading a key of a JavaScript object. -/
def objectGet (o : List (String × JsonValue)) (k : String) : Option JsonValue :=
  (o.find? (fun p => p.1 == k)).map (fun p => p.2)

/-- The payload `sendViaWebPush` serialises for the provider. -/
structure PushPayload where
  title : String
  body : String
  icon : String
  badge : String
  tag : Nat
  requireInteraction : Bool
  data : List (String × JsonValue)
  actions : List (String × String)
deriving DecidableEq, Repr

/-- The object literal of `sendViaWebPush`. Its `data` lists `notificationId`, `type` and
`targetUrl` first and spreads `notification.data` after them; an absent target URL is
written as `null`. -/
def buildPushPayload (notification : Notification) : PushPayload :=
  { title := notification.title
    body := notification.body
    icon := "/icon-192x192.png"
    badge := "/badge-72x72.png"
    tag := notification.id
    requireInteraction := notification.priority == "urgent"
    data := objectOf
      ([("notificationId", JsonValue.num notification.id),
        ("type", JsonValue.str notification.type),
        ("targetUrl", match notification.targetUrl with
          | some u => JsonValue.str u
          | none => JsonValue.null)]
        ++ notification.data.map (fun p => (p.1, JsonValue.str p.2)))
    actions := [("view", "View"), ("dismiss", "Dismiss")] }

/-! ## notificationController.js, all handlers -/

/-- The fields of `req.body`, `req.query` and `req.params` the handlers read; an absent
field is `none`, `limit` and `offset` are already parsed. -/
structure Request where
  userId : Option String
  deviceId : Option Nat
  notificationId : Option Nat
  deviceInfo : Option DeviceInfo
  settings : Option (List (String × Bool))
  limit : Option Nat
  offset : Option Nat
  type : Option String
deriving DecidableEq, Repr

/-- Everything the environment decides during one HTTP request. -/
structure HandlerOutcome where
  register : RegisterOutcome
  deleteThrows : Bool
  queryThrows : Bool
  read : ReadOutcome
  readAll : ReadAllOutcome
  send : SendOutcome
  settingsThrows : Bool
  vapidPublicKey : Option String

/-- Outcome of one HTTP request: the store it leaves, what it emitted, the service
operations it invoked and the response. -/
structure HandlerRun where
  store : Store
  effects : List Effect
  calls : List String
  response : HttpResponse
deriving DecidableEq, Repr

namespace Controller

/-- The handler `subscribeDevice`. -/
def subscribeDevice (_socket : Bool) (env : HandlerOutcome) (s : Store) (req : Request) :
    HandlerRun :=
  match truthy req.userId, req.userId, req.deviceInfo with
  | true, some userId, some deviceInfo =>
    let r := registerDevice env.register s userId deviceInfo
    match r.result with
    | .ok _ =>
      ⟨r.store, r.effects, ["deviceManager.registerDevice"],
        { status := 200, success := true, message := "Device registered successfully" }⟩
    | .error _ =>
      ⟨r.store, r.effects, ["deviceManager.registerDevice"],
        { status := 500, success := false, message := "Failed to register device" }⟩
  | _, _, _ =>
    ⟨s, [], [],
      { status := 400, success := false, message := "User ID and device info are required" }⟩

/-- The handler `unsubscribeDevice`. -/
def unsubscribeDevice (_socket : Bool) (env : HandlerOutcome) (s : Store) (req : Request) :
    HandlerRun :=
  match req.deviceId with
  | none =>
    ⟨s, [], [], { status := 400, success := false, message := "Device ID is required" }⟩
  | some deviceId =>
    match unregisterDevice env.deleteThrows s deviceId with
    | .ok s1 =>
      ⟨s1, [], ["deviceManager.unregisterDevice"],
        { status := 200, success := true, message := "Device unregistered successfully" }⟩
    | .error _ =>
      ⟨s, [], ["deviceManager.unregisterDevice"],
        { status := 500, success := false, message := "Failed to unregister device" }⟩

/-- The handler `getPendingNotifications`. -/
def getPendingNotifications (_socket : Bool) (env : HandlerOutcome) (s : Store)
    (req : Request) : HandlerRun :=
  match truthy req.userId, req.userId with
  | true, some userId =>
    match getUnreadNotifications env.queryThrows s userId (req.limit.getD 50) with
    | .ok _ =>
      ⟨s, [], ["notificationService.getUnreadNotifications"],
        { status := 200, success := true, message := "" }⟩
    | .error _ =>
      ⟨s, [], ["notificationService.getUnreadNotifications"],
        { status := 500, success := false, message := "Failed to get notifications" }⟩
  | _, _ =>
    ⟨s, [], [], { status := 400, success := false, message := "User ID is required" }⟩

/-- The handler `markAsRead`; the user id is passed on as it came. -/
def markAsRead (socket : Bool) (env : HandlerOutcome) (s : Store) (req : Request) :
    HandlerRun :=
  match req.notificationId with
  | none =>
    ⟨s, [], [], { status := 400, success := false, message := "Notification ID is required" }⟩
  | some notificationId =>
    let r := NotificationBeb.markAsRead socket env.read s notificationId req.userId
    match r.result with
    | .ok _ =>
      ⟨r.store, r.effects, ["notificationService.markAsRead"],
        { status := 200, success := true, message := "Notification marked as read" }⟩
    | .error _ =>
      ⟨r.store, r.effects, ["notificationService.markAsRead"],
        { status := 500, success := false, message := "Failed to mark as read" }⟩

/-- The handler `markAllAsRead`. -/
def markAllAsRead (socket : Bool) (env : HandlerOutcome) (s : Store) (req : Request) :
    HandlerRun :=
  match truthy req.userId, req.userId with
  | true, some userId =>
    let r := NotificationBeb.markAllAsRead socket env.readAll s userId
    match r.result with
    | .ok _ =>
      ⟨r.store, r.effects, ["notificationService.markAllAsRead"],
        { status := 200, success := true, message := "All notifications marked as read" }⟩
    | .error _ =>
      ⟨r.store, r.effects, ["notificationService.markAllAsRead"],
        { status := 500, success := false, message := "Failed to mark all as read" }⟩
  | _, _ =>
    ⟨s, [], [], { status := 400, success := false, message := "User ID is required" }⟩

/-- The handler `getHistory`. -/
def getHistory (_socket : Bool) (env : HandlerOutcome) (s : Store) (req : Request) :
    HandlerRun :=
  match truthy req.userId, req.userId with
  | true, some userId =>
    match getNotificationHistory env.queryThrows s userId (req.limit.getD 50)
        (req.offset.getD 0) req.type with
    | .ok _ =>
      ⟨s, [], ["notificationService.getNotificationHistory"],
        { status := 200, success := true, message := "" }⟩
    | .error _ =>
      ⟨s, [], ["notificationService.getNotificationHistory"],
        { status := 500, success := false, message := "Failed to get history" }⟩
  | _, _ =>
    ⟨s, [], [], { status := 400, success := false, message := "User ID is required" }⟩

/-- The handler `getUnreadCount`. -/
def getUnreadCount (_socket : Bool) (env : HandlerOutcome) (s : Store) (req : Request) :
    HandlerRun :=
  match truthy req.userId, req.userId with
  | true, some userId =>
    match NotificationBeb.getUnreadCount env.queryThrows s userId with
    | .ok _ =>
      ⟨s, [], ["notificationService.getUnreadCount"],
        { status := 200, success := true, message := "" }⟩
    | .error _ =>
      ⟨s, [], ["notificationService.getUnreadCount"],
        { status := 500, success := false, message := "Failed to get count" }⟩
  | _, _ =>
    ⟨s, [], [], { status := 400, success := false, message := "User ID is required" }⟩

/-- The handler `sendTestNotification`. -/
def sendTestNotification (socket : Bool) (env : HandlerOutcome) (s : Store) (req : Request) :
    HandlerRun :=
  match truthy req.userId, req.userId with
  | true, some userId =>
    let r := NotificationBeb.sendTestNotification socket env.send s userId
    match r.result with
    | .ok _ =>
      ⟨r.store, r.effects, ["notificationService.sendTestNotification"],
        { status := 200, success := true, message := "Test notification sent" }⟩
    | .error _ =>
      ⟨r.store, r.effects, ["notificationService.sendTestNotification"],
        { status := 500, success := false, message := "Failed to send test notification" }⟩
  | _, _ =>
    ⟨s, [], [], { status := 400, success := false, message := "User ID is required" }⟩

/-- The handler `getUserDevices`. -/
def getUserDevices (_socket : Bool) (env : HandlerOutcome) (s : Store) (req : Request) :
    HandlerRun :=
  match truthy req.userId, req.userId with
  | true, some userId =>
    match NotificationBeb.getUserDevices env.queryThrows s userId false with
    | .ok _ =>
      ⟨s, [], ["deviceManager.getUserDevices"],
        { status := 200, success := true, message := "" }⟩
    | .error _ =>
      ⟨s, [], ["deviceManager.getUserDevices"],
        { status := 500, success := false, message := "Failed to get devices" }⟩
  | _, _ =>
    ⟨s, [], [], { status := 400, success := false, message := "User ID is required" }⟩

/-- The handler `deleteDevice`, with the device id of the path. -/
def deleteDevice (_socket : Bool) (env : HandlerOutcome) (s : Store) (req : Request) :
    HandlerRun :=
  match req.deviceId with
  | none =>
    ⟨s, [], [], { status := 400, success := false, message := "Device ID is required" }⟩
  | some deviceId =>
    match unregisterDevice env.deleteThrows s deviceId with
    | .ok s1 =>
      ⟨s1, [], ["deviceManager.unregisterDevice"],
        { status := 200, success := true, message := "Device deleted successfully" }⟩
    | .error _ =>
      ⟨s, [], ["deviceManager.unregisterDevice"],
        { status := 500, success := false, message := "Failed to delete device" }⟩

/-- The handler `getNotificationSettings`. -/
def getNotificationSettings (_socket : Bool) (env : HandlerOutcome) (s : Store)
    (req : Request) : HandlerRun :=
  match req.deviceId with
  | none =>
    ⟨s, [], [], { status := 400, success := false, message := "Device ID is required" }⟩
  | some deviceId =>
    match NotificationBeb.getNotificationSettings env.queryThrows s deviceId with
    | .ok _ =>
      ⟨s, [], ["deviceManager.getNotificationSettings"],
        { status := 200, success := true, message := "" }⟩
    | .error _ =>
      ⟨s, [], ["deviceManager.getNotificationSettings"],
        { status := 500, success := false, message := "Failed to get settings" }⟩

/-- The handler `updateNotificationSettings`. -/
def updateNotificationSettings (_socket : Bool) (env : HandlerOutcome) (s : Store)
    (req : Request) : HandlerRun :=
  match req.deviceId, req.settings with
  | some deviceId, some settings =>
    let r := NotificationBeb.updateNotificationSettings env.settingsThrows s deviceId settings
    match r.result with
    | .ok _ =>
      ⟨r.store, r.effects, ["deviceManager.updateNotificationSettings"],
        { status := 200, success := true, message := "Settings updated successfully" }⟩
    | .error _ =>
      ⟨r.store, r.effects, ["deviceManager.updateNotificationSettings"],
        { status := 500, success := false, message := "Failed to update settings" }⟩
  | _, _ =>
    ⟨s, [], [],
      { status := 400, success := false, message := "Device ID and settings are required" }⟩

/-- The handler `getVapidPublicKey`: it needs no identifier. -/
def getVapidPublicKey (_socket : Bool) (env : HandlerOutcome) (s : Store) (_req : Request) :
    HandlerRun :=
  if truthy env.vapidPublicKey then
    ⟨s, [], [], { status := 200, success := true, message := "" }⟩
  else
    ⟨s, [], [],
      { status := 500, success := false, message := "VAPID public key not configured" }⟩

end Controller

/-- The handlers `routes/notifications.js` mounts. -/
inductive Handler where
  | subscribe
  | unsubscribe
  | devices
  | deleteDevice
  | pending
  | markRead
  | markAllRead
  | history
  | unreadCount
  | getSettings
  | putSettings
  | test
  | vapidPublicKey
deriving DecidableEq, Repr

/-- The router: the handler mounted for each route. -/
def handle (socket : Bool) (env : HandlerOutcome) (s : Store) (req : Request) :
    Handler → HandlerRun
  | .subscribe => Controller.subscribeDevice socket env s req
  | .unsubscribe => Controller.unsubscribeDevice socket env s req
  | .devices => Controller.getUserDevices socket env s req
  | .deleteDevice => Controller.deleteDevice socket env s req
  | .pending => Controller.getPendingNotifications socket env s req
  | .markRead => Controller.markAsRead socket env s req
  | .markAllRead => Controller.markAllAsRead socket env s req
  | .history => Controller.getHistory socket env s req
  | .unreadCount => Controller.getUnreadCount socket env s req
  | .getSettings => Controller.getNotificationSettings socket env s req
  | .putSettings => Controller.updateNotificationSettings socket env s req
  | .test => Controller.sendTestNotification socket env s req
  | .vapidPublicKey => Controller.getVapidPublicKey socket env s req

/-! ## Vocabulary of the statements -/

/-- Every delivery-status id in the table was handed out before `nextId`: the id the
next `create` hands out is new. -/
def Store.Fresh (s : Store) : Prop := ∀ r ∈ s.deliveryStatuses, r.id < s.nextId

instance (s : Store) : Decidable s.Fresh := by unfold Store.Fresh; infer_instance

/-- A store as the database keeps it: ids handed out so far are below `nextId`, a
delivery-status row refers to a notification id handed out so far, and a device id is
a primary key. -/
def Store.WF (s : Store) : Prop :=
  (∀ r ∈ s.deliveryStatuses, r.id < s.nextId ∧ r.notificationId < s.nextId) ∧
  (s.devices.map (fun d => d.id)).Nodup

instance (s : Store) : Decidable s.WF := by unfold Store.WF; infer_instance

/-- The row `sendToDevice` creates first. -/
def newRow (s : Store) (n : Notification) (d : Device) : DeliveryStatus :=
  { id := s.nextId, notificationId := n.id, deviceId := d.id, deliveryStatus := "sent",
    errorMessage := none, deliveredAt := none, clickedAt := none }

/-- The store after one delivery-status row was created. -/
def Store.withRow (s : Store) (r : DeliveryStatus) : Store :=
  { s with deliveryStatuses := s.deliveryStatuses ++ [r], nextId := s.nextId + 1 }

/-- The notification row `sendNotification` persists. -/
def persisted (now : Nat) (s : Store) (userId : String) (nd : NotificationData) : Notification :=
  { id := s.nextId, userId := userId, type := nd.type, title := nd.title, body := nd.body,
    data := nd.data, targetUrl := nd.targetUrl, priority := nd.priority.getD "normal",
    deliveredDevices := [], isRead := false, readAt := none, createdAt := now }

/-- The store after one notification row was created. -/
def Store.withNotification (s : Store) (n : Notification) : Store :=
  { s with notifications := s.notifications ++ [n], nextId := s.nextId + 1 }

/-- The realtime send of `sendToDevice` happened and returned true: the device is
online with a truthy socket id, the service has a Socket.IO instance and `emit` did
not throw. -/
def realtimeSent (socket : Bool) (o : DeviceOutcome) (d : Device) : Bool :=
  d.isOnline && truthy d.webSocketId && socket && !o.emitThrows

/-- The effect is a call of the push provider. -/
def Effect.isWebPush : Effect → Bool
  | .webPush _ _ => true
  | .emit _ _ _ => false

/-- The rows of one (notification, device) pair. -/
def Store.rowsOfPair (s : Store) (notificationId deviceId : Nat) : List DeliveryStatus :=
  s.deliveryStatuses.filter (fun r => r.notificationId == notificationId && r.deviceId == deviceId)

/-- The rows of one notification. -/
def Store.rowsOf (s : Store) (notificationId : Nat) : List DeliveryStatus :=
  s.deliveryStatuses.filter (fun r => r.notificationId == notificationId)

/-- One call of the service, with the outcomes the environment decides for it. -/
inductive Op where
  | send (oc : SendOutcome) (userId : String) (nd : NotificationData)
  | delivered (throws : Bool) (now : Nat) (deliveryStatusId : Nat)
  | failed (throws : Bool) (deliveryStatusId : Nat) (errorMessage : Option String)
  | clicked (oc : ClickOutcome) (notificationId deviceId : Nat)

/-- The store after one call: `sendNotification`, `markAsDelivered`, `markAsFailed` or
`markAsClicked`. -/
def Op.apply (socket : Bool) (s : Store) : Op → Store
  | .send oc userId nd => (sendNotification socket oc s userId nd).store
  | .delivered throws now id => markAsDelivered throws now s id
  | .failed throws id msg => markAsFailed throws s id msg
  | .clicked oc nid did => (markAsClicked socket oc s nid did).store

/-- The store after a sequence of calls. -/
def runOps (socket : Bool) (s : Store) (ops : List Op) : Store :=
  ops.foldl (Op.apply socket) s

/-- The call names the row: a status update by the id of the row, or a click on its
(notification, device) pair. -/
def Op.addresses (r : DeliveryStatus) : Op → Bool
  | .send _ _ _ => false
  | .delivered _ _ id => id == r.id
  | .failed _ id _ => id == r.id
  | .clicked _ nid did => nid == r.notificationId && did == r.deviceId

/-! ## Concrete data -/

/-- Device A of the scenario: live on connection `c1`, no push subscription. -/
def deviceA : Device :=
  { id := 1, userId := "u1", deviceType := "web", deviceName := "A", pushSubscription := none,
    fcmToken := none, isOnline := true, webSocketId := some "c1", lastSeen := 20,
    notificationSettings := [] }

/-- Device B of the scenario: push only. -/
def deviceB : Device :=
  { id := 2, userId := "u1", deviceType := "mobile", deviceName := "B",
    pushSubscription := some { endpoint := some "https://push.example/b", keys := "kb" },
    fcmToken := none, isOnline := false, webSocketId := none, lastSeen := 10,
    notificationSettings := [] }

/-- A device with neither a connection nor a subscription. -/
def deviceC : Device :=
  { id := 3, userId := "u1", deviceType := "desktop", deviceName := "C", pushSubscription := none,
    fcmToken := none, isOnline := false, webSocketId := none, lastSeen := 5,
    notificationSettings := [] }

/-- A store with the three devices of user `u1` and nothing else. -/
def store0 : Store :=
  { notifications := [], devices := [deviceA, deviceB, deviceC], deliveryStatuses := [],
    nextId := 4 }

/-- The payload of the scenario. -/
def payload0 : NotificationData :=
  { type := "order_assigned", title := "New Order", body := "Order 17 was assigned to you",
    data := [], targetUrl := some "/orders/17", priority := none }

/-- The environment in which nothing fails and the provider accepts the push. -/
def calm : DeviceOutcome :=
  { createThrows := false, emitThrows := false, push := .resolved 201, updateThrows := false,
    deleteThrows := false, now := 50 }

/-- The provider answers 410 Gone. -/
def gone : DeviceOutcome :=
  { calm with push := .rejected (some 410) "push subscription has unsubscribed or expired" }

/-- The provider answers 503. -/
def busy : DeviceOutcome := { calm with push := .rejected (some 503) "service unavailable" }

/-- A send in which nothing fails. -/
def calmSend : SendOutcome :=
  { createThrows := false, findThrows := false, now := 40, device := fun _ => calm }

/-- A send in which the provider answers 410 Gone for every push. -/
def goneSend : SendOutcome := { calmSend with device := fun _ => gone }

/-- A send in which the provider answers 503 for every push. -/
def busySend : SendOutcome := { calmSend with device := fun _ => busy }

/-- The notification persisted by the scenario's send. -/
def notification0 : Notification := persisted 40 store0 "u1" payload0

/-- A `markAsRead` in which nothing fails, at the given time. -/
def calmRead (now : Nat) : ReadOutcome :=
  { updateThrows := false, findThrows := false, emitThrows := false, now := now }

/-- A `markAsClicked` in which nothing fails. -/
def calmClick : ClickOutcome := { updateManyThrows := false, now := 60, read := calmRead 60 }

/-- A send in which the delivery-status create of device 1 is rejected by the store and the
provider answers 410 Gone for every push. -/
def stormSend : SendOutcome :=
  { calmSend with device := fun id => if id = 1 then { calm with createThrows := true } else gone }

/-- The store after the scenario's send when the provider answers 503: the row of
device A is `delivered`, the row of device B is `failed`, the row of device C is `sent`. -/
def failedStore : Store := (sendNotification true busySend store0 "u1" payload0).store

/-- The row of device B in `failedStore`. -/
def failedRow : DeliveryStatus :=
  { id := 6, notificationId := 4, deviceId := 2, deliveryStatus := "failed",
    errorMessage := some "service unavailable", deliveredAt := none, clickedAt := none }

/-- The store after the scenario's send when nothing fails; notification 4 is unread. -/
def sentStore : Store := (sendNotification true calmSend store0 "u1" payload0).store

/-! ## Vocabulary and concrete data of the registry and read-state statements -/

/-- Every notification id in the table was handed out before `nextId`. -/
def Store.NotificationsFresh (s : Store) : Prop := ∀ n ∈ s.notifications, n.id < s.nextId

instance (s : Store) : Decidable s.NotificationsFresh := by
  unfold Store.NotificationsFresh; infer_instance

/-- One call of the service that can touch a notification, with the outcomes the
environment decides for it. -/
inductive ServiceOp where
  | send (oc : SendOutcome) (userId : String) (nd : NotificationData)
  | read (oc : ReadOutcome) (notificationId : Nat) (userId : Option String)
  | readAll (oc : ReadAllOutcome) (userId : String)
  | clicked (oc : ClickOutcome) (notificationId deviceId : Nat)
  | delivered (throws : Bool) (now : Nat) (deliveryStatusId : Nat)
  | failed (throws : Bool) (deliveryStatusId : Nat) (errorMessage : Option String)

/-- The store after one call: `sendNotification`, `markAsRead`, `markAllAsRead`,
`markAsClicked`, `markAsDelivered` or `markAsFailed`. -/
def ServiceOp.apply (socket : Bool) (s : Store) : ServiceOp → Store
  | .send oc userId nd => (sendNotification socket oc s userId nd).store
  | .read oc nid userId => (markAsRead socket oc s nid userId).store
  | .readAll oc userId => (markAllAsRead socket oc s userId).store
  | .clicked oc nid did => (markAsClicked socket oc s nid did).store
  | .delivered throws now id => markAsDelivered throws now s id
  | .failed throws id msg => markAsFailed throws s id msg

/-- The store after a sequence of calls. -/
def runService (socket : Bool) (s : Store) (ops : List ServiceOp) : Store :=
  ops.foldl (ServiceOp.apply socket) s

/-- The endpoint of a push subscription, if there is a subscription and it has one. -/
def endpointOf (sub : Option PushSubscription) : Option String :=
  match sub with
  | some p => p.endpoint
  | none => none

/-- The selector of the lookup in `registerDevice`: a device of the user whose
subscription has the endpoint. -/
def sameEndpoint (userId : String) (endpoint : Option String) (d : Device) : Bool :=
  d.userId == userId &&
    (match d.pushSubscription with
      | some sub => sub.endpoint == endpoint
      | none => false)

/-- The selector of `cleanupOldNotifications`: created before the cutoff and read. -/
def oldAndRead (cutoffDate : Int) (n : Notification) : Bool :=
  decide ((n.createdAt : Int) < cutoffDate) && n.isRead

/-- The selector of `removeInactiveDevices`: last seen before the cutoff. -/
def inactive (cutoffDate : Int) (d : Device) : Bool :=
  decide ((d.lastSeen : Int) < cutoffDate)

/-- A runtime whose local time has no clock changes, asked for a number of days within
the range of `Date`: a day is 86 400 000 ms. -/
def plainDays (now : Nat) (days : Int) : Option Int :=
  if -100000000 ≤ days ∧ days ≤ 100000000 then some ((now : Int) - days * 86400000) else none

/-- A `markAllAsRead` in which nothing fails, at the given time. -/
def calmReadAll (now : Nat) : ReadAllOutcome :=
  { updateManyThrows := false, now := now,
    badge := { countThrows := false, findThrows := false, emitThrows := false } }

/-- A `registerDevice` in which nothing fails. -/
def calmRegister : RegisterOutcome :=
  { findThrows := false, updateThrows := false, createThrows := false, now := 70 }

/-- A `markDeviceOffline` in which nothing fails. -/
def calmOffline : OfflineOutcome := { findThrows := false, updateThrows := false, now := 80 }

/-- A re-registration from the browser of device B. -/
def infoB : DeviceInfo :=
  { deviceType := "mobile", deviceName := "B again",
    pushSubscription := some { endpoint := some "https://push.example/b", keys := "kb2" },
    fcmToken := none }

/-- A registration without a push subscription. -/
def infoPlain : DeviceInfo :=
  { deviceType := "web", deviceName := "tab", pushSubscription := none, fcmToken := none }

/-- A device flagged online whose stored socket id belongs to a connection that is gone,
with a push subscription to fall back to. -/
def deviceStale : Device :=
  { id := 9, userId := "u1", deviceType := "web", deviceName := "stale",
    pushSubscription := some { endpoint := some "https://push.example/s", keys := "ks" },
    fcmToken := none, isOnline := true, webSocketId := some "c-stale", lastSeen := 30,
    notificationSettings := [] }

/-- The store after notification 4 of `sentStore` was marked read at time 100. -/
def readStore : Store := (markAsRead true (calmRead 100) sentStore 4 none).store

/-- The read notification 4 of `readStore`. -/
def readNotification : Notification :=
  { notification0 with isRead := true, readAt := some 100 }

/-- A send whose notification create is rejected by the store. -/
def brokenSend : SendOutcome := { calmSend with createThrows := true }

/-- A send whose device fetch is rejected by the store. -/
def blindSend : SendOutcome := { calmSend with findThrows := true }

/-! ## socketServer.js, the `notification:mark-read` handler -/

/-- The handler of `notification:mark-read` on a socket: without a user on the socket an
`error` goes back to the socket; otherwise `markAsRead` is called with the user of the
socket and, only if that resolves, `notification:read-sync` is broadcast to the room of
the user; if it rejects an `error` goes back to the socket. -/
def onMarkRead (oc : ReadOutcome) (s : Store) (socketId : String)
    (socketUserId : Option String) (notificationId : Nat) : Store × List Effect :=
  match truthy socketUserId, socketUserId with
  | true, some userId =>
    let r := markAsRead true oc s notificationId (some userId)
    match r.result with
    | .ok _ =>
      (r.store, r.effects ++
        [Effect.emit ("user:" ++ userId) "notification:read-sync" notificationId])
    | .error _ => (r.store, r.effects ++ [Effect.emit socketId "error" 0])
  | _, _ => (s, [Effect.emit socketId "error" 0])

/-! ## Vocabulary and concrete data of the handler, payload and liveness statements -/

/-- The identifiers a request can carry. -/
inductive Field where
  | userId
  | deviceId
  | notificationId
  | deviceInfo
  | settings
deriving DecidableEq, Repr

/-- The request carries the identifier: a non-empty user id, an id, an object. -/
def Request.has (req : Request) : Field → Bool
  | .userId => truthy req.userId
  | .deviceId => req.deviceId.isSome
  | .notificationId => req.notificationId.isSome
  | .deviceInfo => req.deviceInfo.isSome
  | .settings => req.settings.isSome

/-- The identifiers the operation behind each route cannot do without: the user for the
per-user queries and commands, the device for the per-device ones, the notification for
mark-read, plus the device info to register and the settings to store. -/
def Handler.required : Handler → List Field
  | .subscribe => [.userId, .deviceInfo]
  | .unsubscribe => [.deviceId]
  | .devices => [.userId]
  | .deleteDevice => [.deviceId]
  | .pending => [.userId]
  | .markRead => [.notificationId]
  | .markAllRead => [.userId]
  | .history => [.userId]
  | .unreadCount => [.userId]
  | .getSettings => [.deviceId]
  | .putSettings => [.deviceId, .settings]
  | .test => [.userId]
  | .vapidPublicKey => []

/-- The effect is a `notification:read-sync` event. -/
def Effect.isReadSync : Effect → Bool
  | .emit _ event _ => event == "notification:read-sync"
  | .webPush _ _ => false

/-- A request that carries nothing. -/
def emptyRequest : Request :=
  { userId := none, deviceId := none, notificationId := none, deviceInfo := none,
    settings := none, limit := none, offset := none, type := none }

/-- An HTTP request in which nothing fails. -/
def calmEnv : HandlerOutcome :=
  { register := calmRegister, deleteThrows := false, queryThrows := false,
    read := calmRead 100, readAll := calmReadAll 100, send := calmSend,
    settingsThrows := false, vapidPublicKey := some "BPk" }

/-- An `updateBadgeCount` in which nothing fails. -/
def calmBadge : BadgeOutcome := { countThrows := false, findThrows := false, emitThrows := false }

/-- The environment in which the store rejects the status update and nothing else fails. -/
def deaf : DeviceOutcome := { calm with updateThrows := true }

/-- The store after one connection `c9` authenticated first for device 1 and then for
device 2: both devices are stored with socket id `c9`. -/
def sharedStore : Store :=
  (updateDeviceStatus false 60
    (updateDeviceStatus false 60 store0 1 true (some "c9")).store 2 true (some "c9")).store

/-- A notification whose data has keys named like the fixed keys of the push payload. -/
def clashing : Notification :=
  { notification0 with
    data := [("type", "promo"), ("notificationId", "999"), ("targetUrl", "/elsewhere")] }

/-- The environment in which the store rejects the create of the delivery-status row and
nothing else fails. -/
def rowless : DeviceOutcome := { calm with createThrows := true }

/-- The provider answers 410 Gone and the store rejects the delete of the device. -/
def goneKept : DeviceOutcome := { gone with deleteThrows := true }

/-- A send in which every push is answered 410 Gone and every device delete is rejected. -/
def goneKeptSend : SendOutcome := { calmSend with device := fun _ => goneKept }

/-- A send in which the store rejects the create of every delivery-status row. -/
def rowlessSend : SendOutcome := { calmSend with device := fun _ => rowless }

/-- A `markAsClicked` whose `updateMany` is rejected by the store. -/
def deafClick : ClickOutcome := { calmClick with updateManyThrows := true }

/-- A `markAsClicked` whose `updateMany` is accepted and whose notification update is
rejected by the store. -/
def halfClick : ClickOutcome :=
  { calmClick with read := { calmRead 60 with updateThrows := true } }

/-- An `updateBadgeCount` whose count query is rejected by the store. -/
def blindBadge : BadgeOutcome := { calmBadge with countThrows := true }

/-- The `authenticate` of device 1 on the new connection `c2`, as the call that lands
between the two awaits of a `markDeviceOffline`. -/
def reauthenticate (s : Store) : Store :=
  (updateDeviceStatus false 60 s 1 true (some "c2")).store

/-! ## Lemmas about the store calls and the per-device attempt -/

theorem map_update_fresh (s : Store) (h : s.Fresh) (f : DeliveryStatus → DeliveryStatus) :
    s.deliveryStatuses.map (fun r => if r.id = s.nextId then f r else r) = s.deliveryStatuses := by
  have : ∀ r ∈ s.deliveryStatuses, (if r.id = s.nextId then f r else r) = r := by
    intro r hr
    have := h r hr
    rw [if_neg (by omega)]
  calc s.deliveryStatuses.map (fun r => if r.id = s.nextId then f r else r)
      = s.deliveryStatuses.map id := List.map_congr_left this
    _ = s.deliveryStatuses := List.map_id _

theorem update_own (s : Store) (h : s.Fresh) (r0 : DeliveryStatus) (hr : r0.id = s.nextId)
    (f : DeliveryStatus → DeliveryStatus) :
    abNotificationDeliveryStatus_update false (s.withRow r0) s.nextId f
      = .ok (s.withRow (f r0)) := by
  simp [abNotificationDeliveryStatus_update, Store.withRow, hr, map_update_fresh s h f]

theorem markAsDelivered_own (s : Store) (h : s.Fresh) (r0 : DeliveryStatus) (hr : r0.id = s.nextId)
    (throws : Bool) (now : Nat) :
    markAsDelivered throws now (s.withRow r0) s.nextId
      = s.withRow (if throws then r0 else
          { r0 with deliveryStatus := "delivered", deliveredAt := some now }) := by
  cases throws
  · simp [markAsDelivered, update_own s h r0 hr]
  · simp [markAsDelivered, abNotificationDeliveryStatus_update]

theorem markAsFailed_own (s : Store) (h : s.Fresh) (r0 : DeliveryStatus) (hr : r0.id = s.nextId)
    (throws : Bool) (msg : String) :
    markAsFailed throws (s.withRow r0) s.nextId (some msg)
      = s.withRow (if throws then r0 else
          { r0 with deliveryStatus := "failed", errorMessage := some msg }) := by
  cases throws
  · simp [markAsFailed, update_own s h r0 hr]
  · simp [markAsFailed, abNotificationDeliveryStatus_update]

theorem create_ok (s : Store) (n : Notification) (d : Device) :
    abNotificationDeliveryStatus_create false s n.id d.id "sent"
      = .ok (newRow s n d, s.withRow (newRow s n d)) := by
  simp [abNotificationDeliveryStatus_create, newRow, Store.withRow]

theorem ws_eq (socket : Bool) (o : DeviceOutcome) (d : Device) (n : Notification) :
    (if d.isOnline && truthy d.webSocketId && socket then
        sendViaWebSocket socket o.emitThrows (d.webSocketId.getD "") n
      else (false, []))
    = (realtimeSent socket o d,
        if realtimeSent socket o d then
          [Effect.emit (d.webSocketId.getD "") "notification:new" n.id] else []) := by
  unfold realtimeSent sendViaWebSocket
  cases d.isOnline <;> cases truthy d.webSocketId <;> cases socket <;> cases o.emitThrows <;> rfl

theorem sendToDeviceTry_create_throws (socket : Bool) (o : DeviceOutcome) (s : Store) (d : Device)
    (n : Notification) (hc : o.createThrows = true) :
    sendToDeviceTry socket o s d n = ⟨s, [], .error "store error"⟩ := by
  simp [sendToDeviceTry, abNotificationDeliveryStatus_create, hc]

theorem sendToDeviceTry_websocket (socket : Bool) (o : DeviceOutcome) (s : Store) (d : Device)
    (n : Notification) (hc : o.createThrows = false) (hw : realtimeSent socket o d = true) :
    sendToDeviceTry socket o s d n =
      ⟨markAsDelivered o.updateThrows o.now (s.withRow (newRow s n d)) s.nextId,
       [Effect.emit (d.webSocketId.getD "") "notification:new" n.id],
       .ok { success := true, method := some "websocket", error := none }⟩ := by
  simp only [sendToDeviceTry, hc, create_ok, ws_eq, hw]
  simp [newRow]

theorem sendToDeviceTry_no_channel (socket : Bool) (o : DeviceOutcome) (s : Store) (d : Device)
    (n : Notification) (hc : o.createThrows = false) (hw : realtimeSent socket o d = false)
    (hp : d.pushSubscription = none) :
    sendToDeviceTry socket o s d n =
      ⟨s.withRow (newRow s n d), [],
       .ok { success := false, method := some "none", error := none }⟩ := by
  simp only [sendToDeviceTry, hc, create_ok, ws_eq, hw, hp]
  simp

theorem sendToDeviceTry_push_ok (socket : Bool) (o : DeviceOutcome) (s : Store) (d : Device)
    (n : Notification) (sub : PushSubscription) (code : Nat)
    (hc : o.createThrows = false) (hw : realtimeSent socket o d = false)
    (hp : d.pushSubscription = some sub) (ho : o.push = .resolved code) :
    sendToDeviceTry socket o s d n =
      ⟨markAsDelivered o.updateThrows o.now (s.withRow (newRow s n d)) s.nextId,
       [Effect.webPush sub n.id],
       .ok { success := true, method := some "webpush", error := none }⟩ := by
  simp only [sendToDeviceTry, hc, create_ok, ws_eq, hw, hp, ho, sendViaWebPush]
  simp [newRow]

theorem sendToDeviceTry_push_failed (socket : Bool) (o : DeviceOutcome) (s : Store) (d : Device)
    (n : Notification) (sub : PushSubscription) (code : Option Nat) (msg : String)
    (hc : o.createThrows = false) (hw : realtimeSent socket o d = false)
    (hp : d.pushSubscription = some sub) (ho : o.push = .rejected code msg)
    (h410 : code ≠ some 410) :
    sendToDeviceTry socket o s d n =
      ⟨markAsFailed o.updateThrows (s.withRow (newRow s n d)) s.nextId (some msg),
       [Effect.webPush sub n.id],
       .ok { success := false, method := some "none", error := none }⟩ := by
  simp only [sendToDeviceTry, hc, create_ok, ws_eq, hw, hp, ho, sendViaWebPush]
  simp [newRow, h410]

theorem sendToDeviceTry_push_gone (socket : Bool) (o : DeviceOutcome) (s : Store) (d : Device)
    (n : Notification) (sub : PushSubscription) (msg : String)
    (hc : o.createThrows = false) (hw : realtimeSent socket o d = false)
    (hp : d.pushSubscription = some sub) (ho : o.push = .rejected (some 410) msg) :
    sendToDeviceTry socket o s d n =
      match unregisterDevice o.deleteThrows
          (markAsFailed o.updateThrows (s.withRow (newRow s n d)) s.nextId (some msg)) d.id with
      | .error e =>
        ⟨markAsFailed o.updateThrows (s.withRow (newRow s n d)) s.nextId (some msg),
          [Effect.webPush sub n.id], .error e⟩
      | .ok s3 =>
        ⟨s3, [Effect.webPush sub n.id],
          .ok { success := false, method := some "none", error := none }⟩ := by
  simp only [sendToDeviceTry, hc, create_ok, ws_eq, hw, hp, ho, sendViaWebPush]
  simp [newRow]
theorem unregisterDevice_store (throws : Bool) (s s3 : Store) (id : Nat)
    (h : unregisterDevice throws s id = .ok s3) :
    s3 = { s with devices := s.devices.filter (fun d => d.id != id) } := by
  unfold unregisterDevice abUserDevice_delete at h
  cases throws
  · cases ha : s.devices.any (fun d => d.id == id) <;> simp_all
  · simp at h

theorem sendToDevice_spec (socket : Bool) (o : DeviceOutcome) (s : Store) (d : Device)
    (n : Notification) (h : s.Fresh) (hc : o.createThrows = false) :
    ∃ r : DeliveryStatus,
      (sendToDevice socket o s d n).store.deliveryStatuses = s.deliveryStatuses ++ [r] ∧
      (sendToDevice socket o s d n).store.nextId = s.nextId + 1 ∧
      (sendToDevice socket o s d n).store.notifications = s.notifications ∧
      (sendToDevice socket o s d n).store.devices.Sublist s.devices ∧
      r.id = s.nextId ∧ r.notificationId = n.id ∧ r.deviceId = d.id ∧
      r.deliveryStatus ∈ ["sent", "delivered", "failed"] := by
  have hD := markAsDelivered_own s h (newRow s n d) rfl o.updateThrows o.now
  cases hw : realtimeSent socket o d
  · cases hp : d.pushSubscription with
    | none =>
      refine ⟨newRow s n d, ?_⟩
      simp [sendToDevice, sendToDeviceTry_no_channel socket o s d n hc hw hp, Store.withRow, newRow]
    | some sub =>
      cases ho : o.push with
      | resolved code =>
        refine ⟨if o.updateThrows = true then newRow s n d else
          { newRow s n d with deliveryStatus := "delivered", deliveredAt := some o.now }, ?_⟩
        simp only [sendToDevice, sendToDeviceTry_push_ok socket o s d n sub code hc hw hp ho, hD]
        cases o.updateThrows <;> simp [Store.withRow, newRow]
      | rejected code msg =>
        have hF := markAsFailed_own s h (newRow s n d) rfl o.updateThrows msg
        by_cases h410 : code = some 410
        · subst h410
          have hg := sendToDeviceTry_push_gone socket o s d n sub msg hc hw hp ho
          rw [hF] at hg
          cases hu : unregisterDevice o.deleteThrows
              (s.withRow (if o.updateThrows = true then newRow s n d else
                { newRow s n d with deliveryStatus := "failed", errorMessage := some msg })) d.id with
          | error e =>
            rw [hu] at hg
            refine ⟨if o.updateThrows = true then newRow s n d else
              { newRow s n d with deliveryStatus := "failed", errorMessage := some msg }, ?_⟩
            simp only [sendToDevice, hg]
            cases o.updateThrows <;> simp [Store.withRow, newRow]
          | ok s3 =>
            rw [hu] at hg
            have h3 := unregisterDevice_store _ _ _ _ hu
            subst h3
            refine ⟨if o.updateThrows = true then newRow s n d else
              { newRow s n d with deliveryStatus := "failed", errorMessage := some msg }, ?_⟩
            simp only [sendToDevice, hg]
            cases o.updateThrows <;> simp [Store.withRow, newRow]
        · refine ⟨if o.updateThrows = true then newRow s n d else
              { newRow s n d with deliveryStatus := "failed", errorMessage := some msg }, ?_⟩
          simp only [sendToDevice,
            sendToDeviceTry_push_failed socket o s d n sub code msg hc hw hp ho h410, hF]
          cases o.updateThrows <;> simp [Store.withRow, newRow]
  · refine ⟨if o.updateThrows = true then newRow s n d else
      { newRow s n d with deliveryStatus := "delivered", deliveredAt := some o.now }, ?_⟩
    simp only [sendToDevice, sendToDeviceTry_websocket socket o s d n hc hw, hD]
    cases o.updateThrows <;> simp [Store.withRow, newRow]
theorem sendToDevice_create_throws (socket : Bool) (o : DeviceOutcome) (s : Store) (d : Device)
    (n : Notification) (hc : o.createThrows = true) :
    sendToDevice socket o s d n =
      ⟨s, [], .ok { success := false, method := none, error := some "store error" }⟩ := by
  simp [sendToDevice, sendToDeviceTry_create_throws socket o s d n hc]

theorem sendToDevice_frame (socket : Bool) (o : DeviceOutcome) (s : Store) (d : Device)
    (n : Notification) (h : s.Fresh) :
    ∃ rows : List DeliveryStatus,
      (sendToDevice socket o s d n).store.deliveryStatuses = s.deliveryStatuses ++ rows ∧
      rows.map (fun r => r.deviceId) = (if o.createThrows then [] else [d.id]) ∧
      (∀ r ∈ rows, r.notificationId = n.id ∧ r.deviceId = d.id ∧
        r.deliveryStatus ∈ ["sent", "delivered", "failed"]) ∧
      (sendToDevice socket o s d n).store.Fresh ∧
      (sendToDevice socket o s d n).store.notifications = s.notifications ∧
      (sendToDevice socket o s d n).store.devices.Sublist s.devices := by
  cases hc : o.createThrows
  · obtain ⟨r, h1, h2, h3, h4, h5, h6, h7, h8⟩ := sendToDevice_spec socket o s d n h hc
    refine ⟨[r], h1, by simp [h7], ?_, ?_, h3, h4⟩
    · intro x hx
      simp only [List.mem_singleton] at hx
      subst hx
      exact ⟨h6, h7, h8⟩
    · intro x hx
      rw [h1] at hx
      rw [h2]
      rcases List.mem_append.mp hx with hx | hx
      · have := h x hx
        omega
      · simp only [List.mem_singleton] at hx
        subst hx
        omega
  · refine ⟨[], ?_⟩
    simp [sendToDevice_create_throws socket o s d n hc, h]

theorem allSettled_spec (socket : Bool) (oc : Nat → DeviceOutcome) (n : Notification) :
    ∀ (devs : List Device) (s : Store), s.Fresh →
    ∃ rows : List DeliveryStatus,
      (allSettled socket oc n devs s).1.deliveryStatuses = s.deliveryStatuses ++ rows ∧
      rows.map (fun r => r.deviceId) =
        (devs.filter (fun d => !(oc d.id).createThrows)).map (fun d => d.id) ∧
      (∀ r ∈ rows, r.notificationId = n.id ∧
        r.deliveryStatus ∈ ["sent", "delivered", "failed"]) ∧
      (allSettled socket oc n devs s).1.Fresh ∧
      (allSettled socket oc n devs s).1.notifications = s.notifications ∧
      (allSettled socket oc n devs s).1.devices.Sublist s.devices := by
  intro devs
  induction devs with
  | nil =>
    intro s h
    exact ⟨[], by simp [allSettled], by simp, by simp, by simpa [allSettled] using h,
      by simp [allSettled], by simp [allSettled]⟩
  | cons d rest ih =>
    intro s h
    obtain ⟨r1, a1, a2, a3, a4, a5, a6⟩ := sendToDevice_frame socket (oc d.id) s d n h
    obtain ⟨r2, b1, b2, b3, b4, b5, b6⟩ := ih _ a4
    refine ⟨r1 ++ r2, ?_, ?_, ?_, ?_, ?_, ?_⟩
    · simp only [allSettled]
      rw [b1, a1, List.append_assoc]
    · rw [List.map_append, a2, b2]
      cases hc : (oc d.id).createThrows <;> simp [List.filter_cons, hc]
    · intro x hx
      rcases List.mem_append.mp hx with hx | hx
      · exact ⟨(a3 x hx).1, (a3 x hx).2.2⟩
      · exact b3 x hx
    · simpa only [allSettled] using b4
    · simp only [allSettled]
      rw [b5, a5]
    · simp only [allSettled]
      exact b6.trans a6
theorem filter_pair_eq_nil (rows : List DeliveryStatus) (nid did : Nat)
    (h : ∀ r ∈ rows, ¬ (r.notificationId = nid ∧ r.deviceId = did)) :
    rows.filter (fun r => r.notificationId == nid && r.deviceId == did) = [] := by
  rw [List.filter_eq_nil_iff]
  intro r hr
  simpa using h r hr

theorem filter_pair_eq_self (rows : List DeliveryStatus) (nid did : Nat)
    (h : ∀ r ∈ rows, r.notificationId = nid ∧ r.deviceId = did) :
    rows.filter (fun r => r.notificationId == nid && r.deviceId == did) = rows := by
  rw [List.filter_eq_self]
  intro r hr
  simpa using h r hr

theorem allSettled_own (socket : Bool) (oc : Nat → DeviceOutcome) (n : Notification) (d : Device) :
    ∀ (devs : List Device) (s : Store), s.Fresh → d ∈ devs →
      (devs.map (fun x => x.id)).Nodup →
      (∀ r ∈ s.deliveryStatuses, ¬ (r.notificationId = n.id ∧ r.deviceId = d.id)) →
      ∃ s1 : Store, s1.Fresh ∧ s1.devices.Sublist s.devices ∧
        s1.notifications = s.notifications ∧
        (allSettled socket oc n devs s).1.deliveryStatuses.filter
            (fun r => r.notificationId == n.id && r.deviceId == d.id)
          = (sendToDevice socket (oc d.id) s1 d n).store.deliveryStatuses.drop
              s1.deliveryStatuses.length ∧
        (allSettled socket oc n devs s).1.devices.Sublist
          (sendToDevice socket (oc d.id) s1 d n).store.devices := by
  intro devs
  induction devs with
  | nil => intro s _ hd; simp at hd
  | cons e rest ih =>
    intro s h hd hnd hno
    obtain ⟨r1, a1, a2, a3, a4, a5, a6⟩ := sendToDevice_frame socket (oc e.id) s e n h
    obtain ⟨r2, b1, b2, b3, b4, b5, b6⟩ := allSettled_spec socket oc n rest _ a4
    rw [List.map_cons, List.nodup_cons] at hnd
    by_cases hde : d = e
    · subst hde
      refine ⟨s, h, List.Sublist.refl _, rfl, ?_, ?_⟩
      · simp only [allSettled]
        rw [b1, a1, List.filter_append, List.filter_append, List.drop_left,
          filter_pair_eq_nil _ _ _ hno, filter_pair_eq_self r1 _ _ (fun r hr => ⟨(a3 r hr).1, (a3 r hr).2.1⟩),
          filter_pair_eq_nil r2, List.nil_append, List.append_nil]
        intro r hr hpair
        have hm : r.deviceId ∈ r2.map (fun r => r.deviceId) := List.mem_map_of_mem _ hr
        rw [b2] at hm
        obtain ⟨x, hx, hxe⟩ := List.mem_map.mp hm
        apply hnd.1
        rw [← hpair.2, ← hxe]
        exact List.mem_map_of_mem _ (List.mem_of_mem_filter hx)
      · simpa only [allSettled] using b6
    · have hdr : d ∈ rest := by
        rcases List.mem_cons.mp hd with hd | hd
        · exact absurd hd hde
        · exact hd
      have hid : e.id ≠ d.id := by
        intro heq
        apply hnd.1
        rw [heq]
        exact List.mem_map_of_mem _ hdr
      have hno1 : ∀ r ∈ (sendToDevice socket (oc e.id) s e n).store.deliveryStatuses,
          ¬ (r.notificationId = n.id ∧ r.deviceId = d.id) := by
        intro r hr
        rw [a1] at hr
        rcases List.mem_append.mp hr with hr | hr
        · exact hno r hr
        · intro hpair
          exact hid ((a3 r hr).2.1.symm.trans hpair.2)
      obtain ⟨s1, c1, c2, c3, c4, c5⟩ := ih _ a4 hdr hnd.2 hno1
      exact ⟨s1, c1, c2.trans a6, c3.trans a5, by simpa only [allSettled] using c4,
        by simpa only [allSettled] using c5⟩

/-! ## The send path -/

theorem markAsDelivered_devices (throws : Bool) (now : Nat) (s : Store) (id : Nat) :
    (markAsDelivered throws now s id).devices = s.devices ∧
    (markAsDelivered throws now s id).notifications = s.notifications ∧
    (markAsDelivered throws now s id).nextId = s.nextId := by
  unfold markAsDelivered abNotificationDeliveryStatus_update
  cases throws <;> cases s.deliveryStatuses.any (fun r => r.id == id) <;> simp

theorem markAsFailed_devices (throws : Bool) (s : Store) (id : Nat) (msg : Option String) :
    (markAsFailed throws s id msg).devices = s.devices ∧
    (markAsFailed throws s id msg).notifications = s.notifications ∧
    (markAsFailed throws s id msg).nextId = s.nextId := by
  unfold markAsFailed abNotificationDeliveryStatus_update
  cases throws <;> cases s.deliveryStatuses.any (fun r => r.id == id) <;> simp

theorem sendNotification_ok (socket : Bool) (oc : SendOutcome) (s : Store) (userId : String)
    (nd : NotificationData) (devs : List Device) (hc : oc.createThrows = false)
    (hf : oc.findThrows = false) (hd : getUserDevices false s userId false = .ok devs) :
    sendNotification socket oc s userId nd =
      ⟨(allSettled socket oc.device (persisted oc.now s userId nd) devs
          (s.withNotification (persisted oc.now s userId nd))).1,
       (allSettled socket oc.device (persisted oc.now s userId nd) devs
          (s.withNotification (persisted oc.now s userId nd))).2.1,
       .ok (persisted oc.now s userId nd)⟩ := by
  have hd1 : getUserDevices oc.findThrows
      { s with notifications := s.notifications ++ [persisted oc.now s userId nd],
               nextId := s.nextId + 1 } userId false = .ok devs := by
    rw [hf, ← hd]
    rfl
  simp only [sendNotification, abNotification_create, hc]
  simp only [persisted, Store.withNotification] at hd1 ⊢
  simp only [Bool.false_eq_true, if_false, hd1]
  cases devs with
  | nil => simp [allSettled]
  | cons d rest => simp

theorem sendToDevice_websocket (socket : Bool) (o : DeviceOutcome) (s : Store) (d : Device)
    (n : Notification) (hs : s.Fresh) (hc : o.createThrows = false)
    (hw : realtimeSent socket o d = true) :
    sendToDevice socket o s d n =
      ⟨s.withRow (if o.updateThrows then newRow s n d else
          { newRow s n d with deliveryStatus := "delivered", deliveredAt := some o.now }),
       [Effect.emit (d.webSocketId.getD "") "notification:new" n.id],
       .ok { success := true, method := some "websocket", error := none }⟩ := by
  have hD := markAsDelivered_own s hs (newRow s n d) rfl o.updateThrows o.now
  simp only [sendToDevice, sendToDeviceTry_websocket socket o s d n hc hw, hD]

theorem sendToDevice_push_resolved (socket : Bool) (o : DeviceOutcome) (s : Store) (d : Device)
    (n : Notification) (sub : PushSubscription) (code : Nat) (hs : s.Fresh)
    (hc : o.createThrows = false) (hw : realtimeSent socket o d = false)
    (hp : d.pushSubscription = some sub) (ho : o.push = .resolved code) :
    sendToDevice socket o s d n =
      ⟨s.withRow (if o.updateThrows then newRow s n d else
          { newRow s n d with deliveryStatus := "delivered", deliveredAt := some o.now }),
       [Effect.webPush sub n.id],
       .ok { success := true, method := some "webpush", error := none }⟩ := by
  have hD := markAsDelivered_own s hs (newRow s n d) rfl o.updateThrows o.now
  simp only [sendToDevice, sendToDeviceTry_push_ok socket o s d n sub code hc hw hp ho, hD]

theorem filter_ne_of_any_false (devs : List Device) (id : Nat)
    (h : devs.any (fun d => d.id == id) = false) :
    devs.filter (fun x => x.id != id) = devs := by
  rw [List.filter_eq_self]
  intro x hx
  have := List.any_eq_false.mp h x hx
  simpa using this

theorem unregisterDevice_cases (throws : Bool) (s : Store) (id : Nat) :
    (match unregisterDevice throws s id with
      | .ok s3 => s3
      | .error _ => s) =
      { s with devices := if throws then s.devices else s.devices.filter (fun x => x.id != id) } := by
  unfold unregisterDevice abUserDevice_delete
  cases throws
  · cases ha : s.devices.any (fun d => d.id == id)
    · simp [filter_ne_of_any_false _ _ ha]
    · simp
  · simp

theorem sendToDevice_push_rejected (socket : Bool) (o : DeviceOutcome) (s : Store) (d : Device)
    (n : Notification) (sub : PushSubscription) (code : Option Nat) (msg : String)
    (hs : s.Fresh) (hc : o.createThrows = false) (hw : realtimeSent socket o d = false)
    (hp : d.pushSubscription = some sub) (ho : o.push = .rejected code msg) :
    (sendToDevice socket o s d n).store.deliveryStatuses =
        s.deliveryStatuses ++
          [if o.updateThrows then newRow s n d
            else { newRow s n d with deliveryStatus := "failed", errorMessage := some msg }] ∧
      (sendToDevice socket o s d n).effects = [Effect.webPush sub n.id] ∧
      (sendToDevice socket o s d n).store.devices =
        (if code = some 410 ∧ o.deleteThrows = false
          then s.devices.filter (fun x => x.id != d.id) else s.devices) := by
  have hF := markAsFailed_own s hs (newRow s n d) rfl o.updateThrows msg
  by_cases h410 : code = some 410
  · subst h410
    have hg := sendToDeviceTry_push_gone socket o s d n sub msg hc hw hp ho
    rw [hF] at hg
    have hst : (sendToDevice socket o s d n).store =
        (match unregisterDevice o.deleteThrows
            (s.withRow (if o.updateThrows = true then newRow s n d else
              { newRow s n d with deliveryStatus := "failed", errorMessage := some msg })) d.id with
          | .ok s3 => s3
          | .error _ => s.withRow (if o.updateThrows = true then newRow s n d else
              { newRow s n d with deliveryStatus := "failed", errorMessage := some msg })) ∧
        (sendToDevice socket o s d n).effects = [Effect.webPush sub n.id] := by
      simp only [sendToDevice, hg]
      cases unregisterDevice o.deleteThrows
        (s.withRow (if o.updateThrows = true then newRow s n d else
          { newRow s n d with deliveryStatus := "failed", errorMessage := some msg })) d.id <;>
        exact ⟨rfl, rfl⟩
    rw [unregisterDevice_cases] at hst
    rw [hst.1, hst.2]
    refine ⟨by simp [Store.withRow], rfl, ?_⟩
    cases o.deleteThrows <;> simp [Store.withRow]
  · simp only [sendToDevice,
      sendToDeviceTry_push_failed socket o s d n sub code msg hc hw hp ho h410, hF]
    refine ⟨by simp [Store.withRow], trivial, ?_⟩
    simp [h410, (markAsFailed_devices _ _ _ _).1, Store.withRow]

theorem sendToDevice_devices (socket : Bool) (o : DeviceOutcome) (s : Store) (d : Device)
    (n : Notification) (hs : s.Fresh) :
    (sendToDevice socket o s d n).store.devices = s.devices ∨
      (o.createThrows = false ∧ o.deleteThrows = false ∧
        (sendToDevice socket o s d n).store.devices = s.devices.filter (fun x => x.id != d.id)) := by
  cases hc : o.createThrows
  · cases hw : realtimeSent socket o d
    · cases hp : d.pushSubscription with
      | none =>
        left
        simp [sendToDevice, sendToDeviceTry_no_channel socket o s d n hc hw hp, Store.withRow]
      | some sub =>
        cases ho : o.push with
        | resolved code =>
          left
          rw [sendToDevice_push_resolved socket o s d n sub code hs hc hw hp ho]
          simp [Store.withRow]
        | rejected code msg =>
          have h := (sendToDevice_push_rejected socket o s d n sub code msg hs hc hw hp ho).2.2
          by_cases hcond : code = some 410 ∧ o.deleteThrows = false
          · right
            rw [if_pos hcond] at h
            exact ⟨rfl, hcond.2, h⟩
          · left
            rw [if_neg hcond] at h
            exact h
    · left
      rw [sendToDevice_websocket socket o s d n hs hc hw]
      simp [Store.withRow]
  · left
    rw [sendToDevice_create_throws socket o s d n hc]

theorem allSettled_keeps (socket : Bool) (oc : Nat → DeviceOutcome) (n : Notification)
    (x : Device) (hx : (oc x.id).createThrows = true ∨ (oc x.id).deleteThrows = true) :
    ∀ (devs : List Device) (s : Store), s.Fresh → x ∈ s.devices →
      x ∈ (allSettled socket oc n devs s).1.devices := by
  intro devs
  induction devs with
  | nil => intro s _ h; simpa [allSettled] using h
  | cons e rest ih =>
    intro s hs h
    obtain ⟨-, -, -, -, a4, -, -⟩ := sendToDevice_frame socket (oc e.id) s e n hs
    have hk : x ∈ (sendToDevice socket (oc e.id) s e n).store.devices := by
      rcases sendToDevice_devices socket (oc e.id) s e n hs with h1 | ⟨h0, h1, h2⟩
      · rw [h1]; exact h
      · rw [h2, List.mem_filter]
        refine ⟨h, ?_⟩
        have hne : x.id ≠ e.id := by
          intro heq
          rw [heq, h0, h1] at hx
          rcases hx with hx | hx <;> exact Bool.noConfusion hx
        simpa using hne
    simpa only [allSettled] using ih _ a4 hk

/-- C4 (as amended): for a device that is online with a truthy socket id, on a service that
has its Socket.IO instance and whose `emit` does not throw: `sendToDevice` makes no push call,
whatever the push subscription of the device is. When the store accepted the create of the
row, it emits `notification:new` once and resolves with success through `websocket`, and the
one new row is `delivered` with the delivered timestamp when the store accepts the status
update and is still `sent` without a timestamp when the store rejects it. When the store
rejected the create of the row, nothing is sent, there is no row and the result is a failure. -/
theorem C4_realtime_success_without_push (o : DeviceOutcome) (s : Store) (d : Device)
    (n : Notification) (hs : s.Fresh) (hon : d.isOnline = true)
    (hws : truthy d.webSocketId = true) (hemit : o.emitThrows = false) :
    (∀ e ∈ (sendToDevice true o s d n).effects, e.isWebPush = false) ∧
      (o.createThrows = false →
        (sendToDevice true o s d n).store.deliveryStatuses =
          s.deliveryStatuses ++
            [if o.updateThrows then
                { id := s.nextId, notificationId := n.id, deviceId := d.id,
                  deliveryStatus := "sent", errorMessage := none,
                  deliveredAt := none, clickedAt := none }
              else
                { id := s.nextId, notificationId := n.id, deviceId := d.id,
                  deliveryStatus := "delivered", errorMessage := none,
                  deliveredAt := some o.now, clickedAt := none }] ∧
        (sendToDevice true o s d n).effects =
          [Effect.emit (d.webSocketId.getD "") "notification:new" n.id] ∧
        (sendToDevice true o s d n).result =
          .ok { success := true, method := some "websocket", error := none }) ∧
      (o.createThrows = true →
        (sendToDevice true o s d n).store.deliveryStatuses = s.deliveryStatuses ∧
        (sendToDevice true o s d n).effects = [] ∧
        (sendToDevice true o s d n).result =
          .ok { success := false, method := none, error := some "store error" }) := by
  have hw : realtimeSent true o d = true := by simp [realtimeSent, hon, hws, hemit]
  cases hc : o.createThrows
  · rw [sendToDevice_websocket true o s d n hs hc hw]
    refine ⟨by simp [Effect.isWebPush], fun _ => ?_, fun h => Bool.noConfusion h⟩
    cases o.updateThrows <;> simp [Store.withRow, newRow]
  · rw [sendToDevice_create_throws true o s d n hc]
    exact ⟨by simp, fun h => Bool.noConfusion h, fun _ => ⟨rfl, rfl, rfl⟩⟩

/-- C5 (as amended): for a device whose realtime send did not happen or did not succeed and
that has a push subscription, `sendToDevice` calls the push provider exactly once when the
store accepted the create of the row, and not at all when it rejected it (no row exists then).
After the push, when the provider resolved the new row is `delivered` with a timestamp, and
when it rejected the new row is `failed` carrying the message of the provider, if the store
accepts the status update; if the store rejects the status update the row is still `sent`. -/
theorem C5_push_fallback_once_per_created_row (socket : Bool) (o : DeviceOutcome) (s : Store)
    (d : Device) (n : Notification) (sub : PushSubscription) (hs : s.Fresh)
    (hw : realtimeSent socket o d = false) (hp : d.pushSubscription = some sub) :
    (sendToDevice socket o s d n).effects.filter Effect.isWebPush =
        (if o.createThrows then [] else [Effect.webPush sub n.id]) ∧
      (o.createThrows = true →
        (sendToDevice socket o s d n).store.deliveryStatuses = s.deliveryStatuses) ∧
      (o.createThrows = false → ∀ code, o.push = .resolved code →
        (sendToDevice socket o s d n).store.deliveryStatuses =
          s.deliveryStatuses ++
            [if o.updateThrows then
                { id := s.nextId, notificationId := n.id, deviceId := d.id,
                  deliveryStatus := "sent", errorMessage := none,
                  deliveredAt := none, clickedAt := none }
              else
                { id := s.nextId, notificationId := n.id, deviceId := d.id,
                  deliveryStatus := "delivered", errorMessage := none,
                  deliveredAt := some o.now, clickedAt := none }]) ∧
      (o.createThrows = false → ∀ code msg, o.push = .rejected code msg →
        (sendToDevice socket o s d n).store.deliveryStatuses =
          s.deliveryStatuses ++
            [if o.updateThrows then
                { id := s.nextId, notificationId := n.id, deviceId := d.id,
                  deliveryStatus := "sent", errorMessage := none,
                  deliveredAt := none, clickedAt := none }
              else
                { id := s.nextId, notificationId := n.id, deviceId := d.id,
                  deliveryStatus := "failed", errorMessage := some msg,
                  deliveredAt := none, clickedAt := none }]) := by
  cases hc : o.createThrows
  · refine ⟨?_, fun h => Bool.noConfusion h, ?_, ?_⟩
    · cases ho : o.push with
      | resolved code =>
        rw [sendToDevice_push_resolved socket o s d n sub code hs hc hw hp ho]
        simp [Effect.isWebPush]
      | rejected code msg =>
        rw [(sendToDevice_push_rejected socket o s d n sub code msg hs hc hw hp ho).2.1]
        simp [Effect.isWebPush]
    · intro _ code ho
      rw [sendToDevice_push_resolved socket o s d n sub code hs hc hw hp ho]
      cases o.updateThrows <;> simp [Store.withRow, newRow]
    · intro _ code msg ho
      rw [(sendToDevice_push_rejected socket o s d n sub code msg hs hc hw hp ho).1]
      cases o.updateThrows <;> simp [newRow]
  · rw [sendToDevice_create_throws socket o s d n hc]
    simp

/-- C7: when the provider rejects the push with a status code other than 410, or with none,
`sendToDevice` leaves the device table as it was, so `getUserDevices` returns what it returned
before for every user and filter, and the push provider was called at most once. -/
theorem C7_other_failures_leave_registry (socket : Bool) (o : DeviceOutcome) (s : Store)
    (d : Device) (n : Notification) (code : Option Nat) (msg : String)
    (ho : o.push = .rejected code msg) (h410 : code ≠ some 410) :
    (sendToDevice socket o s d n).store.devices = s.devices ∧
      (∀ userId onlineOnly,
        getUserDevices false (sendToDevice socket o s d n).store userId onlineOnly =
          getUserDevices false s userId onlineOnly) ∧
      ((sendToDevice socket o s d n).effects.filter Effect.isWebPush).length ≤ 1 := by
  have key : (sendToDevice socket o s d n).store.devices = s.devices ∧
      ((sendToDevice socket o s d n).effects.filter Effect.isWebPush).length ≤ 1 := by
    cases hc : o.createThrows
    · cases hw : realtimeSent socket o d
      · cases hp : d.pushSubscription with
        | none =>
          simp [sendToDevice, sendToDeviceTry_no_channel socket o s d n hc hw hp, Store.withRow]
        | some sub =>
          simp only [sendToDevice,
            sendToDeviceTry_push_failed socket o s d n sub code msg hc hw hp ho h410]
          simp [(markAsFailed_devices _ _ _ _).1, Store.withRow, Effect.isWebPush]
      · simp only [sendToDevice, sendToDeviceTry_websocket socket o s d n hc hw]
        simp [(markAsDelivered_devices _ _ _ _).1, Store.withRow, Effect.isWebPush]
    · simp [sendToDevice_create_throws socket o s d n hc]
  refine ⟨key.1, ?_, key.2⟩
  intro userId onlineOnly
  simp only [getUserDevices, abUserDevice_findMany, key.1]

theorem getUserDevices_ok (s : Store) (userId : String) (onlineOnly : Bool) (devs : List Device)
    (hd : getUserDevices false s userId onlineOnly = .ok devs) :
    devs.Perm (s.devices.filter (fun d => d.userId == userId && (!onlineOnly || d.isOnline))) := by
  simp only [getUserDevices, abUserDevice_findMany, Bool.false_eq_true, if_false,
    Except.ok.injEq] at hd
  rw [← hd]
  exact List.perm_insertionSort _ _

theorem getUserDevices_nodup (s : Store) (userId : String) (onlineOnly : Bool)
    (devs : List Device) (hwf : s.WF)
    (hd : getUserDevices false s userId onlineOnly = .ok devs) :
    (devs.map (fun d => d.id)).Nodup := by
  have hp := getUserDevices_ok s userId onlineOnly devs hd
  rw [(hp.map _).nodup_iff]
  exact List.Nodup.sublist (List.Sublist.map _ (List.filter_sublist _)) hwf.2

theorem WF_fresh (s : Store) (hwf : s.WF) : s.Fresh :=
  fun r hr => (hwf.1 r hr).1

theorem withNotification_fresh (s : Store) (n : Notification) (hs : s.Fresh) :
    (s.withNotification n).Fresh := by
  intro r hr
  have := hs r hr
  simp only [Store.withNotification]
  omega

theorem sendToDevice_never_rejects (socket : Bool) (o : DeviceOutcome) (s : Store) (d : Device)
    (n : Notification) : ∃ v, (sendToDevice socket o s d n).result = .ok v := by
  unfold sendToDevice
  cases h : (sendToDeviceTry socket o s d n).result with
  | ok v => exact ⟨v, by simp [h]⟩
  | error e => exact ⟨{ success := false, method := none, error := some e }, by simp [h]⟩

theorem allSettled_results (socket : Bool) (oc : Nat → DeviceOutcome) (n : Notification) :
    ∀ (devs : List Device) (s : Store),
      (allSettled socket oc n devs s).2.2.length = devs.length ∧
      ∀ x ∈ (allSettled socket oc n devs s).2.2, ∃ v, x = .ok v := by
  intro devs
  induction devs with
  | nil => intro s; simp [allSettled]
  | cons d rest ih =>
    intro s
    obtain ⟨h1, h2⟩ := ih (sendToDevice socket (oc d.id) s d n).store
    refine ⟨by simp [allSettled, h1], ?_⟩
    intro x hx
    simp only [allSettled, List.mem_cons] at hx
    rcases hx with hx | hx
    · obtain ⟨v, hv⟩ := sendToDevice_never_rejects socket (oc d.id) s d n
      exact ⟨v, hx.trans hv⟩
    · exact h2 x hx

theorem rowsOf_after_fanout (s : Store) (n : Notification) (rows : List DeliveryStatus)
    (final : List DeliveryStatus) (hwf : s.WF) (hn : n.id = s.nextId)
    (hfin : final = (s.withNotification n).deliveryStatuses ++ rows)
    (hrows : ∀ r ∈ rows, r.notificationId = n.id) :
    final.filter (fun r => r.notificationId == n.id) = rows := by
  rw [hfin, List.filter_append]
  have h1 : (s.withNotification n).deliveryStatuses.filter (fun r => r.notificationId == n.id) = [] := by
    rw [List.filter_eq_nil_iff]
    intro r hr
    have := (hwf.1 r hr).2
    simp only [beq_iff_eq]
    omega
  have h2 : rows.filter (fun r => r.notificationId == n.id) = rows := by
    rw [List.filter_eq_self]
    intro r hr
    simpa using hrows r hr
  rw [h1, h2, List.nil_append]

/-- C1 (as amended): a `sendNotification` that persisted the notification and fetched the N
devices of the user resolves, and the delivery-status rows of the new notification are
exactly one per device whose delivery-status create the store accepted, in the order of the
device list: no device twice, at most N rows, and exactly N rows, one per device, when every
create was accepted. Each row has status `sent`, `delivered`, `failed` or `clicked`. -/
theorem C1_one_status_row_per_accepted_create (socket : Bool) (oc : SendOutcome) (s : Store)
    (userId : String) (nd : NotificationData) (devs : List Device) (hwf : s.WF)
    (hc : oc.createThrows = false) (hf : oc.findThrows = false)
    (hd : getUserDevices false s userId false = .ok devs) :
    ∃ n, (sendNotification socket oc s userId nd).result = .ok n ∧
      ((sendNotification socket oc s userId nd).store.rowsOf n.id).map (fun r => r.deviceId)
        = (devs.filter (fun d => !(oc.device d.id).createThrows)).map (fun d => d.id) ∧
      (((sendNotification socket oc s userId nd).store.rowsOf n.id).map
        (fun r => r.deviceId)).Nodup ∧
      ((sendNotification socket oc s userId nd).store.rowsOf n.id).length ≤ devs.length ∧
      ((∀ d ∈ devs, (oc.device d.id).createThrows = false) →
        ((sendNotification socket oc s userId nd).store.rowsOf n.id).length = devs.length ∧
        ((sendNotification socket oc s userId nd).store.rowsOf n.id).map (fun r => r.deviceId)
          = devs.map (fun d => d.id)) ∧
      (∀ d ∈ devs, (oc.device d.id).createThrows = true →
        ∀ r ∈ (sendNotification socket oc s userId nd).store.rowsOf n.id,
          r.deviceId ≠ d.id) ∧
      ∀ r ∈ (sendNotification socket oc s userId nd).store.rowsOf n.id,
        r.deliveryStatus ∈ ["sent", "delivered", "failed", "clicked"] := by
  refine ⟨persisted oc.now s userId nd, ?_⟩
  rw [sendNotification_ok socket oc s userId nd devs hc hf hd]
  obtain ⟨rows, h1, h2, h3, -, -, -⟩ := allSettled_spec socket oc.device
    (persisted oc.now s userId nd) devs _ (withNotification_fresh s _ (WF_fresh s hwf))
  have hr := rowsOf_after_fanout s (persisted oc.now s userId nd) rows _ hwf rfl h1
    (fun r hr => (h3 r hr).1)
  have hnd := getUserDevices_nodup s userId false devs hwf hd
  have hlen : rows.length =
      (devs.filter (fun d => !(oc.device d.id).createThrows)).length := by
    have := congrArg List.length h2
    simpa using this
  simp only [Store.rowsOf]
  rw [hr]
  refine ⟨trivial, h2, ?_, ?_, ?_, ?_, ?_⟩
  · rw [h2]
    exact List.Nodup.sublist (List.Sublist.map _ (List.filter_sublist _)) hnd
  · rw [hlen]
    exact List.length_filter_le _ _
  · intro hall
    have hfil : devs.filter (fun d => !(oc.device d.id).createThrows) = devs := by
      rw [List.filter_eq_self]
      intro d hdm
      simp [hall d hdm]
    rw [hfil] at h2 hlen
    exact ⟨hlen, h2⟩
  · intro d _ hcr r hr hid
    have hm : r.deviceId ∈ rows.map (fun r => r.deviceId) := List.mem_map_of_mem _ hr
    rw [h2] at hm
    obtain ⟨x, hx, hxe⟩ := List.mem_map.mp hm
    have hxc := (List.mem_filter.mp hx).2
    have hxd : x.id = d.id := hxe.trans hid
    rw [hxd, hcr] at hxc
    exact Bool.noConfusion hxc
  · intro r hr
    have := (h3 r hr).2
    simp only [List.mem_cons, List.mem_singleton, List.not_mem_nil, or_false] at this ⊢
    rcases this with h | h | h <;> simp [h]

/-- C2: whatever the environment decides for each device (the realtime send, the push, the
delivery-status write, the unregister), `sendToDevice` resolves, the fan-out collects one
resolved result per device, and a `sendNotification` whose notification was persisted and whose
device list was fetched resolves with the persisted notification; every device whose own
delivery-status create was accepted has its row, whatever happened to the other devices. -/
theorem C2_delivery_independent_per_device (socket : Bool) (oc : SendOutcome) (s : Store)
    (userId : String) (nd : NotificationData) (devs : List Device) (hwf : s.WF)
    (hc : oc.createThrows = false) (hf : oc.findThrows = false)
    (hd : getUserDevices false s userId false = .ok devs) :
    (∀ o s0 d n, ∃ v, (sendToDevice socket o s0 d n).result = .ok v) ∧
      (∀ n s0, (allSettled socket oc.device n devs s0).2.2.length = devs.length ∧
        ∀ x ∈ (allSettled socket oc.device n devs s0).2.2, ∃ v, x = .ok v) ∧
      ∃ n, (sendNotification socket oc s userId nd).result = .ok n ∧
        n ∈ (sendNotification socket oc s userId nd).store.notifications ∧
        ((sendNotification socket oc s userId nd).store.rowsOf n.id).map (fun r => r.deviceId)
          = (devs.filter (fun d => !(oc.device d.id).createThrows)).map (fun d => d.id) := by
  refine ⟨fun o s0 d n => sendToDevice_never_rejects socket o s0 d n,
    fun n s0 => allSettled_results socket oc.device n devs s0,
    persisted oc.now s userId nd, ?_⟩
  rw [sendNotification_ok socket oc s userId nd devs hc hf hd]
  obtain ⟨rows, h1, h2, h3, -, h5, -⟩ := allSettled_spec socket oc.device
    (persisted oc.now s userId nd) devs _ (withNotification_fresh s _ (WF_fresh s hwf))
  have hr := rowsOf_after_fanout s (persisted oc.now s userId nd) rows _ hwf rfl h1
    (fun r hr => (h3 r hr).1)
  simp only [Store.rowsOf]
  rw [hr, h5]
  exact ⟨trivial, by simp [Store.withNotification], h2⟩

/-- C3: for a user without devices, a `sendNotification` whose notification create and device
fetch are accepted resolves with the notification it appended to the table (owned by the user,
with the given type, title and body, unread), leaves the delivery-status table and the device
table as they were and emits nothing on either transport. -/
theorem C3_no_devices_no_rows (socket : Bool) (oc : SendOutcome) (s : Store)
    (userId : String) (nd : NotificationData)
    (hc : oc.createThrows = false) (hf : oc.findThrows = false)
    (hd : getUserDevices false s userId false = .ok []) :
    ∃ n, (sendNotification socket oc s userId nd).result = .ok n ∧
      (sendNotification socket oc s userId nd).store.notifications = s.notifications ++ [n] ∧
      n.userId = userId ∧ n.type = nd.type ∧ n.title = nd.title ∧ n.body = nd.body ∧
      n.isRead = false ∧
      (sendNotification socket oc s userId nd).store.deliveryStatuses = s.deliveryStatuses ∧
      (sendNotification socket oc s userId nd).store.devices = s.devices ∧
      (sendNotification socket oc s userId nd).effects = [] := by
  refine ⟨persisted oc.now s userId nd, ?_⟩
  rw [sendNotification_ok socket oc s userId nd [] hc hf hd]
  simp [allSettled, Store.withNotification, persisted]

theorem sendToDevice_no_channel (socket : Bool) (o : DeviceOutcome) (s : Store) (d : Device)
    (n : Notification) (hw : realtimeSent socket o d = false) (hp : d.pushSubscription = none)
    (hc : o.createThrows = false) :
    (sendToDevice socket o s d n).store.deliveryStatuses =
        s.deliveryStatuses ++
          [{ id := s.nextId, notificationId := n.id, deviceId := d.id,
             deliveryStatus := "sent", errorMessage := none,
             deliveredAt := none, clickedAt := none }] ∧
      (sendToDevice socket o s d n).effects = [] := by
  simp [sendToDevice, sendToDeviceTry_no_channel socket o s d n hc hw hp, Store.withRow, newRow]

theorem fanout_own_row (socket : Bool) (oc : SendOutcome) (s : Store) (userId : String)
    (nd : NotificationData) (devs : List Device) (d : Device) (hwf : s.WF)
    (hc : oc.createThrows = false) (hf : oc.findThrows = false)
    (hd : getUserDevices false s userId false = .ok devs) (hmem : d ∈ devs) :
    ∃ s1 : Store, s1.Fresh ∧
      (sendNotification socket oc s userId nd).result = .ok (persisted oc.now s userId nd) ∧
      (sendNotification socket oc s userId nd).store.rowsOfPair
          (persisted oc.now s userId nd).id d.id
        = (sendToDevice socket (oc.device d.id) s1 d
            (persisted oc.now s userId nd)).store.deliveryStatuses.drop
              s1.deliveryStatuses.length ∧
      (sendNotification socket oc s userId nd).store.devices.Sublist
        (sendToDevice socket (oc.device d.id) s1 d (persisted oc.now s userId nd)).store.devices := by
  have hno : ∀ r ∈ (s.withNotification (persisted oc.now s userId nd)).deliveryStatuses,
      ¬ (r.notificationId = (persisted oc.now s userId nd).id ∧ r.deviceId = d.id) := by
    intro r hr hpair
    have := (hwf.1 r hr).2
    have h2 : r.notificationId = s.nextId := hpair.1
    omega
  obtain ⟨s1, c1, -, -, c4, c5⟩ := allSettled_own socket oc.device
    (persisted oc.now s userId nd) d devs _ (withNotification_fresh s _ (WF_fresh s hwf)) hmem
    (getUserDevices_nodup s userId false devs hwf hd) hno
  refine ⟨s1, c1, ?_⟩
  rw [sendNotification_ok socket oc s userId nd devs hc hf hd]
  exact ⟨rfl, c4, c5⟩

/-- C6 (as amended): a device of the user that has a push subscription and no successful
realtime send, and whose push the provider answers with status code 410. `sendNotification`
resolves. When the store accepted the create of the row and accepts the delete of the device,
no device with that id is returned by `getUserDevices` afterwards (for any user, with or
without the online filter); when the store rejected the create (no push is attempted then) or
rejects the delete, the device is still in the table. When the create was accepted, the one
delivery-status row of that device for the new notification has status `failed` with the
message of the provider if the store accepts the status update, and is still `sent` without a
message if the store rejects it; when the create was rejected the device has no row. -/
theorem C6_gone_subscription_unregisters_if_delete_accepted (socket : Bool) (oc : SendOutcome)
    (s : Store) (userId : String) (nd : NotificationData) (devs : List Device) (d : Device)
    (sub : PushSubscription) (msg : String) (hwf : s.WF)
    (hc : oc.createThrows = false) (hf : oc.findThrows = false)
    (hd : getUserDevices false s userId false = .ok devs) (hmem : d ∈ devs)
    (hw : realtimeSent socket (oc.device d.id) d = false)
    (hp : d.pushSubscription = some sub)
    (ho : (oc.device d.id).push = .rejected (some 410) msg) :
    ∃ n, (sendNotification socket oc s userId nd).result = .ok n ∧
      ((oc.device d.id).createThrows = false → (oc.device d.id).deleteThrows = false →
        ∀ uid onlineOnly listed,
          getUserDevices false (sendNotification socket oc s userId nd).store uid onlineOnly
            = .ok listed → ∀ x ∈ listed, x.id ≠ d.id) ∧
      ((oc.device d.id).createThrows = true ∨ (oc.device d.id).deleteThrows = true →
        d ∈ (sendNotification socket oc s userId nd).store.devices) ∧
      ((oc.device d.id).createThrows = false →
        ∃ r, (sendNotification socket oc s userId nd).store.rowsOfPair n.id d.id = [r] ∧
          r.deliveryStatus = (if (oc.device d.id).updateThrows then "sent" else "failed") ∧
          r.errorMessage = (if (oc.device d.id).updateThrows then none else some msg)) ∧
      ((oc.device d.id).createThrows = true →
        (sendNotification socket oc s userId nd).store.rowsOfPair n.id d.id = []) := by
  obtain ⟨s1, h1, h2, h3, h4⟩ := fanout_own_row socket oc s userId nd devs d hwf hc hf hd hmem
  refine ⟨persisted oc.now s userId nd, h2, ?_, ?_, ?_, ?_⟩
  · intro hcr hdel uid onlineOnly listed hl x hx
    have g3 := (sendToDevice_push_rejected socket (oc.device d.id) s1 d
      (persisted oc.now s userId nd) sub (some 410) msg h1 hcr hw hp ho).2.2
    have hperm := getUserDevices_ok _ uid onlineOnly listed hl
    have hx1 := List.mem_of_mem_filter (hperm.subset hx)
    have hx2 := h4.subset hx1
    rw [g3, if_pos ⟨rfl, hdel⟩, List.mem_filter] at hx2
    simpa using hx2.2
  · intro hkeep
    have hds : d ∈ s.devices :=
      List.mem_of_mem_filter ((getUserDevices_ok s userId false devs hd).subset hmem)
    rw [sendNotification_ok socket oc s userId nd devs hc hf hd]
    exact allSettled_keeps socket oc.device (persisted oc.now s userId nd) d hkeep devs _
      (withNotification_fresh s _ (WF_fresh s hwf)) (by simpa [Store.withNotification] using hds)
  · intro hcr
    have g1 := (sendToDevice_push_rejected socket (oc.device d.id) s1 d
      (persisted oc.now s userId nd) sub (some 410) msg h1 hcr hw hp ho).1
    rw [h3, g1, List.drop_left]
    cases (oc.device d.id).updateThrows
    · exact ⟨_, rfl, rfl, rfl⟩
    · exact ⟨_, rfl, rfl, rfl⟩
  · intro hcr
    rw [h3, sendToDevice_create_throws socket (oc.device d.id) s1 d _ hcr]
    simp

/-- C8 (as amended): a device of the user that has no live connection (offline or without a
socket id) and no push subscription. `sendNotification` resolves; when the store accepted the
create of the row of that device, its one delivery-status row for the new notification has
status `sent`, no delivered timestamp, no error detail and no clicked timestamp; when the store
rejected the create there is no row for the device. In both cases its attempt emitted nothing
on either transport and made no further write. -/
theorem C8_no_channel_row_stays_sent_if_created (socket : Bool) (oc : SendOutcome) (s : Store)
    (userId : String) (nd : NotificationData) (devs : List Device) (d : Device) (hwf : s.WF)
    (hc : oc.createThrows = false) (hf : oc.findThrows = false)
    (hd : getUserDevices false s userId false = .ok devs) (hmem : d ∈ devs)
    (hlive : (d.isOnline && truthy d.webSocketId) = false)
    (hp : d.pushSubscription = none) :
    ∃ n, (sendNotification socket oc s userId nd).result = .ok n ∧
      ((oc.device d.id).createThrows = false →
        ∃ r, (sendNotification socket oc s userId nd).store.rowsOfPair n.id d.id = [r] ∧
          r.deliveryStatus = "sent" ∧ r.deliveredAt = none ∧ r.errorMessage = none ∧
          r.clickedAt = none) ∧
      ((oc.device d.id).createThrows = true →
        (sendNotification socket oc s userId nd).store.rowsOfPair n.id d.id = []) ∧
      ∀ s0,
        (sendToDevice socket (oc.device d.id) s0 d n).store.deliveryStatuses =
          (if (oc.device d.id).createThrows then s0.deliveryStatuses
            else s0.deliveryStatuses ++
              [{ id := s0.nextId, notificationId := n.id, deviceId := d.id,
                 deliveryStatus := "sent", errorMessage := none,
                 deliveredAt := none, clickedAt := none }]) ∧
        (sendToDevice socket (oc.device d.id) s0 d n).effects = [] := by
  have hw : realtimeSent socket (oc.device d.id) d = false := by
    simp only [realtimeSent, hlive, Bool.false_and]
  obtain ⟨s1, h1, h2, h3, -⟩ := fanout_own_row socket oc s userId nd devs d hwf hc hf hd hmem
  refine ⟨persisted oc.now s userId nd, h2, ?_, ?_, ?_⟩
  · intro hcr
    have g := sendToDevice_no_channel socket (oc.device d.id) s1 d
      (persisted oc.now s userId nd) hw hp hcr
    rw [h3, g.1, List.drop_left]
    exact ⟨_, rfl, rfl, rfl, rfl, rfl⟩
  · intro hcr
    rw [h3, sendToDevice_create_throws socket (oc.device d.id) s1 d _ hcr]
    simp
  · intro s0
    cases hcr : (oc.device d.id).createThrows
    · simpa using sendToDevice_no_channel socket (oc.device d.id) s0 d _ hw hp hcr
    · rw [sendToDevice_create_throws socket (oc.device d.id) s0 d _ hcr]
      simp

/-! ## The status updates -/

theorem update_statuses (throws : Bool) (s : Store) (id : Nat)
    (f : DeliveryStatus → DeliveryStatus) :
    (match abNotificationDeliveryStatus_update throws s id f with
      | .ok s1 => s1
      | .error _ => s).deliveryStatuses =
      (if throws then s.deliveryStatuses
        else s.deliveryStatuses.map (fun x => if x.id = id then f x else x)) ∧
    (match abNotificationDeliveryStatus_update throws s id f with
      | .ok s1 => s1
      | .error _ => s).nextId = s.nextId := by
  unfold abNotificationDeliveryStatus_update
  cases throws
  · cases ha : s.deliveryStatuses.any (fun r => r.id == id)
    · simp only [Bool.false_eq_true, if_false, and_true]
      symm
      calc s.deliveryStatuses.map (fun x => if x.id = id then f x else x)
          = s.deliveryStatuses.map (fun x => x) := by
            apply List.map_congr_left
            intro x hx
            have := List.any_eq_false.mp ha x hx
            simp only [beq_iff_eq] at this
            simp [this]
        _ = s.deliveryStatuses := List.map_id _
    · simp
  · simp

theorem markAsDelivered_statuses (throws : Bool) (now : Nat) (s : Store) (id : Nat) :
    (markAsDelivered throws now s id).deliveryStatuses =
      (if throws then s.deliveryStatuses
        else s.deliveryStatuses.map (fun x => if x.id = id then
          { x with deliveryStatus := "delivered", deliveredAt := some now } else x)) ∧
    (markAsDelivered throws now s id).nextId = s.nextId :=
  update_statuses throws s id _

theorem markAsFailed_statuses (throws : Bool) (s : Store) (id : Nat) (msg : Option String) :
    (markAsFailed throws s id msg).deliveryStatuses =
      (if throws then s.deliveryStatuses
        else s.deliveryStatuses.map (fun x => if x.id = id then
          { x with deliveryStatus := "failed",
                   errorMessage := match msg with
                     | some m => some m
                     | none => x.errorMessage } else x)) ∧
    (markAsFailed throws s id msg).nextId = s.nextId :=
  update_statuses throws s id _

theorem markAsRead_statuses (socket : Bool) (oc : ReadOutcome) (s : Store) (nid : Nat)
    (uid : Option String) :
    (markAsRead socket oc s nid uid).store.deliveryStatuses = s.deliveryStatuses ∧
    (markAsRead socket oc s nid uid).store.nextId = s.nextId ∧
    (markAsRead socket oc s nid uid).store.devices = s.devices := by
  unfold markAsRead
  cases h : abNotification_update oc.updateThrows s
      (fun n => n.id == nid && (!truthy uid || some n.userId == uid))
      (fun n => { n with isRead := true, readAt := some oc.now }) with
  | error e => simp
  | ok p =>
    obtain ⟨n, s1⟩ := p
    have hs1 : s1.deliveryStatuses = s.deliveryStatuses ∧ s1.nextId = s.nextId ∧
        s1.devices = s.devices := by
      unfold abNotification_update at h
      split at h
      · simp at h
      · split at h
        · simp at h
        · simp only [Except.ok.injEq, Prod.mk.injEq] at h
          rw [← h.2]
          simp
    simp only
    split
    · split
      · exact hs1
      · split <;> exact hs1
    · exact hs1

theorem markAsClicked_statuses (socket : Bool) (oc : ClickOutcome) (s : Store) (nid did : Nat) :
    (markAsClicked socket oc s nid did).store.deliveryStatuses =
      (if oc.updateManyThrows then s.deliveryStatuses
        else s.deliveryStatuses.map (fun x =>
          if (x.notificationId == nid && x.deviceId == did) = true then
            { x with deliveryStatus := "clicked", clickedAt := some oc.now } else x)) ∧
    (markAsClicked socket oc s nid did).store.nextId = s.nextId := by
  unfold markAsClicked abNotificationDeliveryStatus_updateMany
  cases oc.updateManyThrows
  · simp only [Bool.false_eq_true, if_false]
    exact ⟨(markAsRead_statuses socket oc.read _ nid none).1,
      (markAsRead_statuses socket oc.read _ nid none).2.1⟩
  · simp

theorem map_frame (rows : List DeliveryStatus) (r : DeliveryStatus) (p : DeliveryStatus → Prop)
    [DecidablePred p] (f : DeliveryStatus → DeliveryStatus) (hr : r ∈ rows) (hp : ¬ p r) :
    r ∈ rows.map (fun x => if p x then f x else x) := by
  refine List.mem_map.mpr ⟨r, hr, ?_⟩
  simp [hp]

theorem map_fresh (rows : List DeliveryStatus) (k : Nat) (p : DeliveryStatus → Prop)
    [DecidablePred p] (f : DeliveryStatus → DeliveryStatus) (hf : ∀ x, (f x).id = x.id)
    (h : ∀ r ∈ rows, r.id < k) :
    ∀ r ∈ rows.map (fun x => if p x then f x else x), r.id < k := by
  intro r hr
  obtain ⟨x, hx, rfl⟩ := List.mem_map.mp hr
  by_cases hpx : p x
  · simp only [hpx, if_true, hf]
    exact h x hx
  · simp only [hpx, if_false]
    exact h x hx

theorem sendNotification_frame (socket : Bool) (oc : SendOutcome) (s : Store) (userId : String)
    (nd : NotificationData) (hs : s.Fresh) :
    (∃ rows, (sendNotification socket oc s userId nd).store.deliveryStatuses =
      s.deliveryStatuses ++ rows) ∧
    (sendNotification socket oc s userId nd).store.Fresh := by
  cases hc : oc.createThrows
  · cases hf : oc.findThrows
    · have hd : getUserDevices false s userId false = .ok (abUserDevice_findMany s
          (fun d => d.userId == userId && (!false || d.isOnline))) := rfl
      rw [sendNotification_ok socket oc s userId nd _ hc hf hd]
      obtain ⟨rows, h1, -, -, h4, -, -⟩ := allSettled_spec socket oc.device
        (persisted oc.now s userId nd) (abUserDevice_findMany s
          (fun d => d.userId == userId && (!false || d.isOnline))) _
        (withNotification_fresh s (persisted oc.now s userId nd) hs)
      exact ⟨⟨rows, h1⟩, h4⟩
    · have h : (sendNotification socket oc s userId nd).store =
          s.withNotification (persisted oc.now s userId nd) := by
        simp [sendNotification, abNotification_create, getUserDevices, hc, hf,
          Store.withNotification, persisted]
      rw [h]
      exact ⟨⟨[], by simp [Store.withNotification]⟩, withNotification_fresh s _ hs⟩
  · have h : (sendNotification socket oc s userId nd).store = s := by
      simp [sendNotification, abNotification_create, hc]
    rw [h]
    exact ⟨⟨[], by simp⟩, hs⟩

theorem op_frame (socket : Bool) (s : Store) (op : Op) (r : DeliveryStatus) (hs : s.Fresh)
    (hr : r ∈ s.deliveryStatuses) (ha : op.addresses r = false) :
    r ∈ (op.apply socket s).deliveryStatuses ∧ (op.apply socket s).Fresh := by
  cases op with
  | send oc userId nd =>
    obtain ⟨⟨rows, h1⟩, h2⟩ := sendNotification_frame socket oc s userId nd hs
    refine ⟨?_, h2⟩
    simp only [Op.apply]
    rw [h1]
    exact List.mem_append_left _ hr
  | delivered throws now id =>
    have h := markAsDelivered_statuses throws now s id
    simp only [Op.addresses, beq_eq_false_iff_ne, ne_eq] at ha
    simp only [Op.apply, Store.Fresh]
    rw [h.1, h.2]
    cases throws
    · exact ⟨map_frame _ r (fun x => x.id = id) _ hr (fun e => ha e.symm),
        map_fresh _ _ (fun x => x.id = id) _ (fun _ => rfl) hs⟩
    · exact ⟨hr, hs⟩
  | failed throws id msg =>
    have h := markAsFailed_statuses throws s id msg
    simp only [Op.addresses, beq_eq_false_iff_ne, ne_eq] at ha
    simp only [Op.apply, Store.Fresh]
    rw [h.1, h.2]
    cases throws
    · exact ⟨map_frame _ r (fun x => x.id = id) _ hr (fun e => ha e.symm),
        map_fresh _ _ (fun x => x.id = id) _ (fun _ => rfl) hs⟩
    · exact ⟨hr, hs⟩
  | clicked oc nid did =>
    have h := markAsClicked_statuses socket oc s nid did
    simp only [Op.addresses] at ha
    simp only [Op.apply, Store.Fresh]
    rw [h.1, h.2]
    cases oc.updateManyThrows
    · refine ⟨map_frame _ r (fun x => (x.notificationId == nid && x.deviceId == did) = true) _ hr
        ?_, map_fresh _ _ (fun x => (x.notificationId == nid && x.deviceId == did) = true) _
        (fun _ => rfl) hs⟩
      intro e
      simp only [Bool.and_eq_true, beq_iff_eq] at e
      simp [e.1, e.2] at ha
    · exact ⟨hr, hs⟩

/-- C9 (as amended): the mark operations do not look at the current status.
`markAsClicked` sets every row of the pair to `clicked` and `markAsDelivered` sets the row with
the id to `delivered`, whatever the status was. What every sequence of `sendNotification`,
`markAsDelivered`, `markAsFailed` and `markAsClicked` keeps is a row that none of the calls
addresses (no status update by its id, no click on its pair): it is in the table afterwards
exactly as it was, so a `failed` or `clicked` row stays `failed` or `clicked`. -/
theorem C9_unaddressed_row_is_kept (socket : Bool) (ops : List Op) (s : Store)
    (r : DeliveryStatus) (hs : s.Fresh) (hr : r ∈ s.deliveryStatuses)
    (hops : ∀ op ∈ ops, op.addresses r = false) :
    r ∈ (runOps socket s ops).deliveryStatuses ∧
      (∀ oc nid did, oc.updateManyThrows = false →
        (markAsClicked socket oc s nid did).store.deliveryStatuses =
          s.deliveryStatuses.map (fun x =>
            if (x.notificationId == nid && x.deviceId == did) = true then
              { x with deliveryStatus := "clicked", clickedAt := some oc.now } else x)) ∧
      (∀ now id,
        (markAsDelivered false now s id).deliveryStatuses =
          s.deliveryStatuses.map (fun x =>
            if x.id = id then
              { x with deliveryStatus := "delivered", deliveredAt := some now } else x)) := by
  refine ⟨?_, ?_, ?_⟩
  · induction ops generalizing s with
    | nil => exact hr
    | cons op rest ih =>
      have h := op_frame socket s op r hs hr (hops op (List.mem_cons_self _ _))
      simp only [runOps, List.foldl_cons]
      exact ih (op.apply socket s) h.2 h.1 (fun o ho => hops o (List.mem_cons_of_mem _ ho))
  · intro oc nid did hoc
    have h := (markAsClicked_statuses socket oc s nid did).1
    rw [hoc] at h
    simpa using h
  · intro now id
    have h := (markAsDelivered_statuses false now s id).1
    simpa using h

/-! ## The claims at the concrete scenario -/

/-- C1, the claim as stated fails: user `u1` has three devices; in a send in which the store
rejects the create of the row of device A, `sendNotification` resolves with notification 4 and
there are two rows for it, for devices B and C; device A has none. -/
theorem C1_counterexample_rejected_create_leaves_device_without_row :
    getUserDevices false store0 "u1" false = .ok [deviceA, deviceB, deviceC] ∧
    (sendNotification true stormSend store0 "u1" payload0).result.toOption.map (fun n => n.id)
      = some 4 ∧
    ((sendNotification true stormSend store0 "u1" payload0).store.rowsOf 4).map
      (fun r => r.deviceId) = [2, 3] ∧
    (sendNotification true stormSend store0 "u1" payload0).store.rowsOfPair 4 1 = [] :=
  ⟨rfl, by decide, by decide, by decide⟩

/-- C1 (as amended) at the scenario with the create of device A rejected: two rows for three
devices. -/
theorem C1_witness :
    store0.WF ∧ getUserDevices false store0 "u1" false = .ok [deviceA, deviceB, deviceC] ∧
    ∃ n, (sendNotification true stormSend store0 "u1" payload0).result = .ok n ∧
      ((sendNotification true stormSend store0 "u1" payload0).store.rowsOf n.id).map
          (fun r => r.deviceId)
        = ([deviceA, deviceB, deviceC].filter
            (fun d => !(stormSend.device d.id).createThrows)).map (fun d => d.id) ∧
      (((sendNotification true stormSend store0 "u1" payload0).store.rowsOf n.id).map
        (fun r => r.deviceId)).Nodup ∧
      ((sendNotification true stormSend store0 "u1" payload0).store.rowsOf n.id).length
        ≤ [deviceA, deviceB, deviceC].length ∧
      ((∀ d ∈ [deviceA, deviceB, deviceC], (stormSend.device d.id).createThrows = false) →
        ((sendNotification true stormSend store0 "u1" payload0).store.rowsOf n.id).length
          = [deviceA, deviceB, deviceC].length ∧
        ((sendNotification true stormSend store0 "u1" payload0).store.rowsOf n.id).map
            (fun r => r.deviceId) = [deviceA, deviceB, deviceC].map (fun d => d.id)) ∧
      (∀ d ∈ [deviceA, deviceB, deviceC], (stormSend.device d.id).createThrows = true →
        ∀ r ∈ (sendNotification true stormSend store0 "u1" payload0).store.rowsOf n.id,
          r.deviceId ≠ d.id) ∧
      ∀ r ∈ (sendNotification true stormSend store0 "u1" payload0).store.rowsOf n.id,
        r.deliveryStatus ∈ ["sent", "delivered", "failed", "clicked"] :=
  ⟨by decide, rfl,
    C1_one_status_row_per_accepted_create true stormSend store0 "u1" payload0
      [deviceA, deviceB, deviceC] (by decide) rfl rfl rfl⟩

/-- C2 at the scenario with the create of device A rejected and every push answered 410. -/
theorem C2_witness :
    store0.WF ∧ getUserDevices false store0 "u1" false = .ok [deviceA, deviceB, deviceC] ∧
    ((∀ o s0 d n, ∃ v, (sendToDevice true o s0 d n).result = .ok v) ∧
      (∀ n s0,
        (allSettled true stormSend.device n [deviceA, deviceB, deviceC] s0).2.2.length
          = [deviceA, deviceB, deviceC].length ∧
        ∀ x ∈ (allSettled true stormSend.device n [deviceA, deviceB, deviceC] s0).2.2,
          ∃ v, x = .ok v) ∧
      ∃ n, (sendNotification true stormSend store0 "u1" payload0).result = .ok n ∧
        n ∈ (sendNotification true stormSend store0 "u1" payload0).store.notifications ∧
        ((sendNotification true stormSend store0 "u1" payload0).store.rowsOf n.id).map
            (fun r => r.deviceId)
          = ([deviceA, deviceB, deviceC].filter
              (fun d => !(stormSend.device d.id).createThrows)).map (fun d => d.id)) :=
  ⟨by decide, rfl,
    C2_delivery_independent_per_device true stormSend store0 "u1" payload0
      [deviceA, deviceB, deviceC] (by decide) rfl rfl rfl⟩

/-- C3 for a user without devices. -/
theorem C3_witness :
    getUserDevices false store0 "u2" false = .ok [] ∧
    ∃ n, (sendNotification true calmSend store0 "u2" payload0).result = .ok n ∧
      (sendNotification true calmSend store0 "u2" payload0).store.notifications
        = store0.notifications ++ [n] ∧
      n.userId = "u2" ∧ n.type = payload0.type ∧ n.title = payload0.title ∧
      n.body = payload0.body ∧ n.isRead = false ∧
      (sendNotification true calmSend store0 "u2" payload0).store.deliveryStatuses
        = store0.deliveryStatuses ∧
      (sendNotification true calmSend store0 "u2" payload0).store.devices = store0.devices ∧
      (sendNotification true calmSend store0 "u2" payload0).effects = [] :=
  ⟨rfl, C3_no_devices_no_rows true calmSend store0 "u2" payload0 rfl rfl rfl⟩

/-- C4, the claim as stated fails: device A is live on `c1` and the realtime send succeeds,
but the store rejects the status update: `sendToDevice` resolves with success through
`websocket` and the row of device A is still `sent` without a delivered timestamp. -/
theorem C4_counterexample_rejected_update_leaves_row_sent :
    deviceA.isOnline = true ∧ deviceA.webSocketId = some "c1" ∧
    (sendToDevice true deaf store0 deviceA notification0).effects
      = [Effect.emit "c1" "notification:new" 4] ∧
    (sendToDevice true deaf store0 deviceA notification0).result.toOption
      = some { success := true, method := some "websocket", error := none } ∧
    (sendToDevice true deaf store0 deviceA notification0).store.deliveryStatuses.map
      (fun r => (r.deviceId, r.deliveryStatus, r.deliveredAt)) = [(1, "sent", none)] := by
  decide

/-- C4 (as amended) for device A of the scenario, with the create and the status update
accepted. -/
theorem C4_witness :
    store0.Fresh ∧ deviceA.isOnline = true ∧ truthy deviceA.webSocketId = true ∧
    calm.emitThrows = false ∧ calm.createThrows = false ∧
    (∀ e ∈ (sendToDevice true calm store0 deviceA notification0).effects,
      e.isWebPush = false) ∧
    ((sendToDevice true calm store0 deviceA notification0).store.deliveryStatuses =
        store0.deliveryStatuses ++
          [if calm.updateThrows then
              { id := store0.nextId, notificationId := notification0.id,
                deviceId := deviceA.id, deliveryStatus := "sent", errorMessage := none,
                deliveredAt := none, clickedAt := none }
            else
              { id := store0.nextId, notificationId := notification0.id,
                deviceId := deviceA.id, deliveryStatus := "delivered", errorMessage := none,
                deliveredAt := some calm.now, clickedAt := none }] ∧
      (sendToDevice true calm store0 deviceA notification0).effects =
        [Effect.emit (deviceA.webSocketId.getD "") "notification:new" notification0.id] ∧
      (sendToDevice true calm store0 deviceA notification0).result =
        .ok { success := true, method := some "websocket", error := none }) :=
  ⟨by decide, rfl, by decide, rfl, rfl,
    (C4_realtime_success_without_push calm store0 deviceA notification0
      (by decide) rfl (by decide) rfl).1,
    (C4_realtime_success_without_push calm store0 deviceA notification0
      (by decide) rfl (by decide) rfl).2.1 rfl⟩

/-- C5, the claim as stated fails: device B is offline and has a push subscription. When the
store rejects the create of its row, `sendToDevice` resolves without calling the push provider
and without a row; when the store rejects the status update after a push the provider
accepted, the one push was made and the row is still `sent`. -/
theorem C5_counterexample_no_push_without_row :
    realtimeSent true rowless deviceB = false ∧ deviceB.pushSubscription.isSome = true ∧
    (sendToDevice true rowless store0 deviceB notification0).effects = [] ∧
    (sendToDevice true rowless store0 deviceB notification0).store.deliveryStatuses = [] ∧
    (sendToDevice true rowless store0 deviceB notification0).result.toOption
      = some { success := false, method := none, error := some "store error" } ∧
    (sendToDevice true deaf store0 deviceB notification0).effects
      = [Effect.webPush { endpoint := some "https://push.example/b", keys := "kb" } 4] ∧
    (sendToDevice true deaf store0 deviceB notification0).store.deliveryStatuses.map
      (fun r => (r.deviceId, r.deliveryStatus, r.deliveredAt)) = [(2, "sent", none)] := by
  decide

/-- C5 (as amended) for device B of the scenario, with the provider answering 503. -/
theorem C5_witness :
    store0.Fresh ∧ realtimeSent true busy deviceB = false ∧
    deviceB.pushSubscription = some { endpoint := some "https://push.example/b", keys := "kb" } ∧
    (sendToDevice true busy store0 deviceB notification0).effects.filter Effect.isWebPush
      = [Effect.webPush { endpoint := some "https://push.example/b", keys := "kb" } 4] ∧
    (sendToDevice true busy store0 deviceB notification0).store.deliveryStatuses =
      [{ id := 4, notificationId := 4, deviceId := 2, deliveryStatus := "failed",
         errorMessage := some "service unavailable", deliveredAt := none, clickedAt := none }] :=
  ⟨by decide, rfl, rfl,
    (C5_push_fallback_once_per_created_row true busy store0 deviceB notification0
      { endpoint := some "https://push.example/b", keys := "kb" } (by decide) rfl rfl).1,
    (C5_push_fallback_once_per_created_row true busy store0 deviceB notification0
      { endpoint := some "https://push.example/b", keys := "kb" } (by decide) rfl rfl).2.2.2
      rfl (some 503) "service unavailable" rfl⟩

/-- C6, the claim as stated fails: the push to device B is answered 410 and the store rejects
the delete of the device: `sendNotification` resolves, and device B is still in the table and
still listed for user `u1`. -/
theorem C6_counterexample_rejected_delete_keeps_device :
    (goneKeptSend.device 2).push
      = .rejected (some 410) "push subscription has unsubscribed or expired" ∧
    (sendNotification true goneKeptSend store0 "u1" payload0).result.toOption.map
      (fun n => n.id) = some 4 ∧
    (sendNotification true goneKeptSend store0 "u1" payload0).store.devices.map
      (fun d => d.id) = [1, 2, 3] ∧
    deviceB ∈ ((getUserDevices false
      (sendNotification true goneKeptSend store0 "u1" payload0).store "u1" false).toOption.getD []) ∧
    (sendNotification true goneSend store0 "u1" payload0).store.devices.map
      (fun d => d.id) = [1, 3] :=
  ⟨rfl, by decide, by decide, by decide, by decide⟩

/-- C6 (as amended) for device B of the scenario, with the provider answering 410 and the
store accepting the create, the delete and the status update. -/
theorem C6_witness :
    store0.WF ∧ getUserDevices false store0 "u1" false = .ok [deviceA, deviceB, deviceC] ∧
    deviceB ∈ [deviceA, deviceB, deviceC] ∧
    realtimeSent true (goneSend.device deviceB.id) deviceB = false ∧
    (goneSend.device deviceB.id).push
      = .rejected (some 410) "push subscription has unsubscribed or expired" ∧
    ∃ n, (sendNotification true goneSend store0 "u1" payload0).result = .ok n ∧
      ((goneSend.device deviceB.id).createThrows = false →
        (goneSend.device deviceB.id).deleteThrows = false →
        ∀ uid onlineOnly listed,
          getUserDevices false (sendNotification true goneSend store0 "u1" payload0).store
            uid onlineOnly = .ok listed → ∀ x ∈ listed, x.id ≠ deviceB.id) ∧
      ((goneSend.device deviceB.id).createThrows = true ∨
          (goneSend.device deviceB.id).deleteThrows = true →
        deviceB ∈ (sendNotification true goneSend store0 "u1" payload0).store.devices) ∧
      ((goneSend.device deviceB.id).createThrows = false →
        ∃ r, (sendNotification true goneSend store0 "u1" payload0).store.rowsOfPair n.id
            deviceB.id = [r] ∧
          r.deliveryStatus
            = (if (goneSend.device deviceB.id).updateThrows then "sent" else "failed") ∧
          r.errorMessage
            = (if (goneSend.device deviceB.id).updateThrows then none
                else some "push subscription has unsubscribed or expired")) ∧
      ((goneSend.device deviceB.id).createThrows = true →
        (sendNotification true goneSend store0 "u1" payload0).store.rowsOfPair n.id
          deviceB.id = []) :=
  ⟨by decide, rfl, by decide, rfl, rfl,
    C6_gone_subscription_unregisters_if_delete_accepted true goneSend store0 "u1" payload0
      [deviceA, deviceB, deviceC] deviceB
      { endpoint := some "https://push.example/b", keys := "kb" }
      "push subscription has unsubscribed or expired" (by decide) rfl rfl rfl (by decide)
      rfl rfl rfl⟩

/-- C7 for device B of the scenario, with the provider answering 503. -/
theorem C7_witness :
    busy.push = .rejected (some 503) "service unavailable" ∧ some 503 ≠ some 410 ∧
    ((sendToDevice true busy store0 deviceB notification0).store.devices = store0.devices ∧
      (∀ userId onlineOnly,
        getUserDevices false (sendToDevice true busy store0 deviceB notification0).store
          userId onlineOnly = getUserDevices false store0 userId onlineOnly) ∧
      ((sendToDevice true busy store0 deviceB notification0).effects.filter
        Effect.isWebPush).length ≤ 1) :=
  ⟨rfl, by decide,
    C7_other_failures_leave_registry true busy store0 deviceB notification0 (some 503)
      "service unavailable" rfl (by decide)⟩

/-- C8, the claim as stated fails: device C has neither a connection nor a subscription; when
the store rejects the create of its row, `sendToDevice` and `sendNotification` resolve and
there is no row for device C. -/
theorem C8_counterexample_rejected_create_leaves_no_row :
    (deviceC.isOnline && truthy deviceC.webSocketId) = false ∧
    deviceC.pushSubscription = none ∧
    (sendToDevice true rowless store0 deviceC notification0).store.deliveryStatuses = [] ∧
    (sendNotification true rowlessSend store0 "u1" payload0).result.toOption.map
      (fun n => n.id) = some 4 ∧
    (sendNotification true rowlessSend store0 "u1" payload0).store.rowsOfPair 4 3 = [] := by
  decide

/-- C8 (as amended) for device C of the scenario, with the create accepted. -/
theorem C8_witness :
    store0.WF ∧ getUserDevices false store0 "u1" false = .ok [deviceA, deviceB, deviceC] ∧
    deviceC ∈ [deviceA, deviceB, deviceC] ∧
    (deviceC.isOnline && truthy deviceC.webSocketId) = false ∧
    deviceC.pushSubscription = none ∧
    ∃ n, (sendNotification true calmSend store0 "u1" payload0).result = .ok n ∧
      ((calmSend.device deviceC.id).createThrows = false →
        ∃ r, (sendNotification true calmSend store0 "u1" payload0).store.rowsOfPair n.id
            deviceC.id = [r] ∧
          r.deliveryStatus = "sent" ∧ r.deliveredAt = none ∧ r.errorMessage = none ∧
          r.clickedAt = none) ∧
      ((calmSend.device deviceC.id).createThrows = true →
        (sendNotification true calmSend store0 "u1" payload0).store.rowsOfPair n.id
          deviceC.id = []) ∧
      ∀ s0,
        (sendToDevice true (calmSend.device deviceC.id) s0 deviceC n).store.deliveryStatuses =
          (if (calmSend.device deviceC.id).createThrows then s0.deliveryStatuses
            else s0.deliveryStatuses ++
              [{ id := s0.nextId, notificationId := n.id, deviceId := deviceC.id,
                 deliveryStatus := "sent", errorMessage := none,
                 deliveredAt := none, clickedAt := none }]) ∧
        (sendToDevice true (calmSend.device deviceC.id) s0 deviceC n).effects = [] :=
  ⟨by decide, rfl, by decide, rfl, rfl,
    C8_no_channel_row_stays_sent_if_created true calmSend store0 "u1" payload0
      [deviceA, deviceB, deviceC] deviceC (by decide) rfl rfl rfl (by decide) rfl rfl⟩

/-- C9, the claim as stated fails: after the scenario's send with the provider answering
503 the row of device B is `failed` and the row of device C is `sent`; `markAsClicked` turns
either into `clicked`, and `markAsDelivered` on the id of the failed row turns it into
`delivered`. -/
theorem C9_counterexample_failed_row_becomes_clicked :
    (failedStore.rowsOfPair 4 2).map (fun r => r.deliveryStatus) = ["failed"] ∧
    ((runOps true failedStore [Op.clicked calmClick 4 2]).rowsOfPair 4 2).map
      (fun r => r.deliveryStatus) = ["clicked"] ∧
    (failedStore.rowsOfPair 4 3).map (fun r => r.deliveryStatus) = ["sent"] ∧
    ((runOps true failedStore [Op.clicked calmClick 4 3]).rowsOfPair 4 3).map
      (fun r => r.deliveryStatus) = ["clicked"] ∧
    ((runOps true failedStore [Op.delivered false 70 6]).rowsOfPair 4 2).map
      (fun r => r.deliveryStatus) = ["delivered"] := by
  decide

/-- C9 (as amended) at the scenario: the failed row of device B survives another send, a click
on device A and a delivered update of the row of device A. -/
theorem C9_witness :
    failedStore.Fresh ∧ failedRow ∈ failedStore.deliveryStatuses ∧
    (∀ op ∈ [Op.send calmSend "u1" payload0, Op.clicked calmClick 4 1, Op.delivered false 70 5],
      op.addresses failedRow = false) ∧
    (failedRow ∈ (runOps true failedStore
        [Op.send calmSend "u1" payload0, Op.clicked calmClick 4 1,
          Op.delivered false 70 5]).deliveryStatuses ∧
      (∀ oc nid did, oc.updateManyThrows = false →
        (markAsClicked true oc failedStore nid did).store.deliveryStatuses =
          failedStore.deliveryStatuses.map (fun x =>
            if (x.notificationId == nid && x.deviceId == did) = true then
              { x with deliveryStatus := "clicked", clickedAt := some oc.now } else x)) ∧
      (∀ now id,
        (markAsDelivered false now failedStore id).deliveryStatuses =
          failedStore.deliveryStatuses.map (fun x =>
            if x.id = id then
              { x with deliveryStatus := "delivered", deliveredAt := some now } else x))) :=
  ⟨by decide, by decide, by decide,
    C9_unaddressed_row_is_kept true
      [Op.send calmSend "u1" payload0, Op.clicked calmClick 4 1, Op.delivered false 70 5]
      failedStore failedRow (by decide) (by decide) (by decide)⟩

/-- C10, the code at the failing input: notification 4 is marked read at time 100 and again at
time 200; the second call resolves with the record, but the stored read timestamp is now 200,
not the 100 of the first call. -/
theorem C10_second_markAsRead_overwrites_readAt :
    (markAsRead true (calmRead 100) sentStore 4 none).store.notifications.map
        (fun n => (n.id, n.isRead, n.readAt)) = [(4, true, some 100)] ∧
    (markAsRead true (calmRead 200)
        (markAsRead true (calmRead 100) sentStore 4 none).store 4 none).store.notifications.map
        (fun n => (n.id, n.isRead, n.readAt)) = [(4, true, some 200)] ∧
    ((markAsRead true (calmRead 200)
        (markAsRead true (calmRead 100) sentStore 4 none).store 4 none).result.toOption.map
        (fun n => (n.id, n.isRead, n.readAt))) = some (4, true, some 200) := by
  decide

/-! ## Read state -/

theorem find_none_map_id (rows : List Notification) (sel : Notification → Bool)
    (f : Notification → Notification) (h : rows.find? sel = none) :
    rows.map (fun x => if sel x then f x else x) = rows := by
  have h2 : ∀ x ∈ rows, (if sel x = true then f x else x) = x := by
    intro x hx
    have := List.find?_eq_none.mp h x hx
    simp [this]
  calc rows.map (fun x => if sel x then f x else x) = rows.map id := List.map_congr_left h2
    _ = rows := List.map_id _

theorem markAsRead_store (socket : Bool) (oc : ReadOutcome) (s : Store) (nid : Nat)
    (uid : Option String) :
    (markAsRead socket oc s nid uid).store =
      (if oc.updateThrows then s
        else { s with notifications := s.notifications.map (fun n =>
          if (n.id == nid && (!truthy uid || some n.userId == uid)) = true then
            { n with isRead := true, readAt := some oc.now } else n) }) := by
  unfold markAsRead abNotification_update
  cases oc.updateThrows
  · simp only [Bool.false_eq_true, if_false]
    cases hf : s.notifications.find?
        (fun n => n.id == nid && (!truthy uid || some n.userId == uid)) with
    | none =>
      simp only
      rw [find_none_map_id _ _ _ hf]
    | some n =>
      simp only
      split
      · split
        · rfl
        · split <;> rfl
      · rfl
  · simp

theorem updateBadgeCount_store (socket : Bool) (oc : BadgeOutcome) (s : Store)
    (userId : String) : (updateBadgeCount socket oc s userId).store = s := by
  unfold updateBadgeCount
  split
  · rfl
  · split
    · rfl
    · simp only
      split <;> rfl

theorem markAllAsRead_store (socket : Bool) (oc : ReadAllOutcome) (s : Store)
    (userId : String) :
    (markAllAsRead socket oc s userId).store =
      (if oc.updateManyThrows then s
        else { s with notifications := s.notifications.map (fun n =>
          if (n.userId == userId && !n.isRead) = true then
            { n with isRead := true, readAt := some oc.now } else n) }) := by
  unfold markAllAsRead abNotification_updateMany
  cases oc.updateManyThrows
  · simp only [Bool.false_eq_true, if_false]
    rw [updateBadgeCount_store]
  · simp

theorem unread_after_readAll (rows : List Notification) (userId : String) (now : Nat) :
    (rows.map (fun n =>
        if (n.userId == userId && !n.isRead) = true then
          { n with isRead := true, readAt := some now } else n)).filter
      (fun n => n.userId == userId && !n.isRead) = [] := by
  rw [List.filter_eq_nil_iff]
  intro x hx
  obtain ⟨n, -, rfl⟩ := List.mem_map.mp hx
  by_cases h : (n.userId == userId && !n.isRead) = true
  · simp [h]
  · rw [if_neg h]
    exact h

/-- C12: when the store accepts the update, `markAllAsRead(userId)` resolves with the number
of notifications of the user that were unread before the call (what `getUnreadCount` returned
before), and afterwards `getUnreadCount(userId)` is 0 and `getUnreadNotifications(userId)` is
empty for every limit. -/
theorem C12_markAllAsRead_leaves_none_unread (socket : Bool) (oc : ReadAllOutcome) (s : Store)
    (userId : String) (hu : oc.updateManyThrows = false) :
    ∃ count, (markAllAsRead socket oc s userId).result = .ok count ∧
      getUnreadCount false s userId = .ok count ∧
      getUnreadCount false (markAllAsRead socket oc s userId).store userId = .ok 0 ∧
      ∀ limit,
        getUnreadNotifications false (markAllAsRead socket oc s userId).store userId limit
          = .ok [] := by
  have hs := markAllAsRead_store socket oc s userId
  rw [hu] at hs
  simp only [Bool.false_eq_true, if_false] at hs
  refine ⟨(s.notifications.filter (fun n => n.userId == userId && !n.isRead)).length, ?_, ?_,
    ?_, ?_⟩
  · simp [markAllAsRead, abNotification_updateMany, hu]
  · simp [getUnreadCount, abNotification_count]
  · rw [hs]
    simp only [getUnreadCount, abNotification_count, Bool.false_eq_true, if_false]
    rw [unread_after_readAll]
    rfl
  · intro limit
    rw [hs]
    simp only [getUnreadNotifications, abNotification_findMany, Bool.false_eq_true, if_false]
    rw [unread_after_readAll]
    simp

/-- C20 (as amended): `markAsClicked` resolves whatever the store does. When the store
accepts the `updateMany`, every row of the (notification, device) pair is `clicked` with the
clicked timestamp, there are as many rows of the pair as before and the rows of other pairs
are unchanged; when the store also accepts the update of the notification, the parent
notification is read. When the store rejects the `updateMany`, the store is left as it was
(no row clicked, the notification not marked read); when it rejects only the update of the
notification, the notifications are left as they were. -/
theorem C20_click_marks_pair_and_parent_if_accepted (socket : Bool) (oc : ClickOutcome)
    (s : Store) (nid did : Nat) :
    (markAsClicked socket oc s nid did).result = .ok () ∧
      (oc.updateManyThrows = false →
        (markAsClicked socket oc s nid did).store.deliveryStatuses =
          s.deliveryStatuses.map (fun x =>
            if (x.notificationId == nid && x.deviceId == did) = true then
              { x with deliveryStatus := "clicked", clickedAt := some oc.now } else x) ∧
        (∀ r ∈ (markAsClicked socket oc s nid did).store.rowsOfPair nid did,
          r.deliveryStatus = "clicked" ∧ r.clickedAt = some oc.now) ∧
        ((markAsClicked socket oc s nid did).store.rowsOfPair nid did).length
          = (s.rowsOfPair nid did).length ∧
        (∀ r ∈ s.deliveryStatuses, ¬ (r.notificationId = nid ∧ r.deviceId = did) →
          r ∈ (markAsClicked socket oc s nid did).store.deliveryStatuses)) ∧
      (oc.updateManyThrows = false → oc.read.updateThrows = false →
        (∀ n ∈ (markAsClicked socket oc s nid did).store.notifications, n.id = nid →
          n.isRead = true) ∧
        (∀ n ∈ s.notifications, n.id = nid →
          ∃ m ∈ (markAsClicked socket oc s nid did).store.notifications, m.id = nid)) ∧
      (oc.updateManyThrows = true → (markAsClicked socket oc s nid did).store = s) ∧
      (oc.read.updateThrows = true →
        (markAsClicked socket oc s nid did).store.notifications = s.notifications) := by
  have hres : (markAsClicked socket oc s nid did).result = .ok () := by
    unfold markAsClicked
    split <;> rfl
  have hno : oc.updateManyThrows = true → (markAsClicked socket oc s nid did).store = s := by
    intro hu
    simp [markAsClicked, abNotificationDeliveryStatus_updateMany, hu]
  have h2 : oc.updateManyThrows = false →
      (markAsClicked socket oc s nid did).store.notifications =
        (if oc.read.updateThrows then s.notifications else
          s.notifications.map (fun n =>
            if (n.id == nid) = true then { n with isRead := true, readAt := some oc.read.now }
            else n)) := by
    intro hu
    unfold markAsClicked abNotificationDeliveryStatus_updateMany
    simp only [hu, Bool.false_eq_true, if_false]
    rw [markAsRead_store]
    cases oc.read.updateThrows <;> simp [truthy]
  refine ⟨hres, ?_, ?_, hno, ?_⟩
  · intro hu
    have h1 := (markAsClicked_statuses socket oc s nid did).1
    rw [hu] at h1
    simp only [Bool.false_eq_true, if_false] at h1
    refine ⟨h1, ?_, ?_, ?_⟩
    · intro r hr1
      simp only [Store.rowsOfPair, h1] at hr1
      obtain ⟨hm, hp⟩ := List.mem_filter.mp hr1
      obtain ⟨x, -, rfl⟩ := List.mem_map.mp hm
      by_cases hx : (x.notificationId == nid && x.deviceId == did) = true
      · simp [hx]
      · rw [if_neg hx] at hp
        exact absurd hp hx
    · simp only [Store.rowsOfPair, h1, List.filter_map]
      rw [List.length_map]
      congr 1
      apply List.filter_congr
      intro x _
      by_cases hx : (x.notificationId == nid && x.deviceId == did) = true
      · simp [Function.comp, hx]
      · simp only [Function.comp, if_neg hx]
    · intro r hr1 hne
      rw [h1]
      refine List.mem_map.mpr ⟨r, hr1, ?_⟩
      have : ¬ (r.notificationId == nid && r.deviceId == did) = true := by
        simpa using hne
      rw [if_neg this]
  · intro hu hr
    have h3 := h2 hu
    rw [hr] at h3
    simp only [Bool.false_eq_true, if_false] at h3
    constructor
    · intro n hn hid
      rw [h3] at hn
      obtain ⟨x, -, rfl⟩ := List.mem_map.mp hn
      by_cases hx : (x.id == nid) = true
      · simp [hx]
      · rw [if_neg hx] at hid
        simp [hid] at hx
    · intro n hn hid
      rw [h3]
      refine ⟨_, List.mem_map_of_mem _ hn, ?_⟩
      simp [hid]
  · intro hr
    cases hu : oc.updateManyThrows
    · rw [h2 hu, hr]
      simp
    · rw [hno hu]

/-! ## Cleanup jobs and the device registry -/

/-- C18: when the runtime computes a valid cutoff date from the current date and
`daysOld` (an invalid date makes the call reject) and the store accepts the delete,
`cleanupOldNotifications(daysOld)` keeps exactly the notifications that are unread or not
created before that cutoff, in their order: a notification is removed iff it is read and
created before the cutoff, no unread one and no one created at or after the cutoff is
removed, and the returned count is the number of removed notifications. -/
theorem C18_cleanup_removes_old_read_only (setDate : Nat → Int → Option Int) (now : Nat)
    (s : Store) (daysOld : Int) (cutoff : Int) (hcut : setDate now daysOld = some cutoff) :
    ∃ count, (cleanupOldNotifications false setDate now s daysOld).result = .ok count ∧
      (cleanupOldNotifications false setDate now s daysOld).store.notifications =
        s.notifications.filter (fun n => !oldAndRead cutoff n) ∧
      count = (s.notifications.filter (oldAndRead cutoff)).length ∧
      count + (cleanupOldNotifications false setDate now s daysOld).store.notifications.length
        = s.notifications.length ∧
      (∀ n ∈ s.notifications,
        n ∈ (cleanupOldNotifications false setDate now s daysOld).store.notifications ↔
          ¬ ((n.createdAt : Int) < cutoff ∧ n.isRead = true)) ∧
      (∀ n ∈ s.notifications, n.isRead = false →
        n ∈ (cleanupOldNotifications false setDate now s daysOld).store.notifications) ∧
      (∀ n ∈ s.notifications, cutoff ≤ (n.createdAt : Int) →
        n ∈ (cleanupOldNotifications false setDate now s daysOld).store.notifications) := by
  have hst : (cleanupOldNotifications false setDate now s daysOld).store.notifications =
      s.notifications.filter (fun n => !oldAndRead cutoff n) := by
    simp [cleanupOldNotifications, hcut, abNotification_deleteMany, oldAndRead]
  have hmem : ∀ n ∈ s.notifications,
      n ∈ (cleanupOldNotifications false setDate now s daysOld).store.notifications ↔
        ¬ ((n.createdAt : Int) < cutoff ∧ n.isRead = true) := by
    intro n hn
    rw [hst, List.mem_filter]
    simp only [oldAndRead, hn, true_and, Bool.not_eq_true', Bool.and_eq_false_iff,
      decide_eq_false_iff_not, not_and, Bool.not_eq_true]
    constructor
    · rintro (h | h) h2
      · exact absurd h2 h
      · exact h
    · intro h
      by_cases h2 : (n.createdAt : Int) < cutoff
      · exact Or.inr (h h2)
      · exact Or.inl h2
  refine ⟨(s.notifications.filter (oldAndRead cutoff)).length, ?_, hst, rfl, ?_, hmem,
    ?_, ?_⟩
  · simp [cleanupOldNotifications, hcut, abNotification_deleteMany, oldAndRead]
    rfl
  · rw [hst]
    have := @List.length_eq_length_filter_add _ s.notifications (oldAndRead cutoff)
    omega
  · intro n hn hr
    exact (hmem n hn).mpr (by simp [hr])
  · intro n hn hc
    exact (hmem n hn).mpr (by intro h; omega)

/-- C19: when the runtime computes a valid cutoff date from the current date and
`daysInactive` (an invalid date makes the call reject) and the store accepts the delete,
`removeInactiveDevices(daysInactive)` keeps exactly the devices whose last-seen is not
strictly before that cutoff, unchanged and in their order, deletes the others, leaves the
other tables alone and returns the number of deleted devices. -/
theorem C19_sweep_removes_inactive_devices (setDate : Nat → Int → Option Int) (now : Nat)
    (s : Store) (daysInactive : Int) (cutoff : Int)
    (hcut : setDate now daysInactive = some cutoff) :
    ∃ count, (removeInactiveDevices false setDate now s daysInactive).result = .ok count ∧
      (removeInactiveDevices false setDate now s daysInactive).store =
        { s with devices := s.devices.filter (fun d => !inactive cutoff d) } ∧
      count = (s.devices.filter (inactive cutoff)).length ∧
      count + (removeInactiveDevices false setDate now s daysInactive).store.devices.length
        = s.devices.length ∧
      (∀ d ∈ s.devices,
        d ∈ (removeInactiveDevices false setDate now s daysInactive).store.devices ↔
          ¬ ((d.lastSeen : Int) < cutoff)) := by
  have hst : (removeInactiveDevices false setDate now s daysInactive).store =
      { s with devices := s.devices.filter (fun d => !inactive cutoff d) } := by
    simp [removeInactiveDevices, hcut, abUserDevice_deleteMany, inactive]
  refine ⟨(s.devices.filter (inactive cutoff)).length, ?_, hst, rfl, ?_, ?_⟩
  · simp [removeInactiveDevices, hcut, abUserDevice_deleteMany, inactive]
    rfl
  · rw [hst]
    have := @List.length_eq_length_filter_add _ s.devices (inactive cutoff)
    simp only
    omega
  · intro d hd
    rw [hst]
    simp only [List.mem_filter]
    simp [inactive, hd]
theorem any_id_of_mem (devs : List Device) (d : Device) (h : d ∈ devs) :
    devs.any (fun x => x.id == d.id) = true :=
  List.any_eq_true.mpr ⟨d, h, by simp⟩

theorem any_id_false (devs : List Device) (id : Nat) (h : ∀ d ∈ devs, d.id ≠ id) :
    devs.any (fun x => x.id == id) = false := by
  rw [List.any_eq_false]
  intro x hx
  simpa using h x hx

/-- C16 (as amended): `unregisterDevice(id)` of a registered id removes the devices with
that id and keeps every other device, in order and unchanged, and touches no other table; a
second call with the same id, like any call with an id that is not registered, leaves the
store as it is and rejects with the not-found error of the store, which the HTTP handler
answers with status 500. -/
theorem C16_unregister_removes_then_rejects (s : Store) (id : Nat) :
    ((∃ d ∈ s.devices, d.id = id) →
      unregisterDevice false s id
        = .ok { s with devices := s.devices.filter (fun x => x.id != id) } ∧
      (∀ x ∈ s.devices, x.id ≠ id → x ∈ s.devices.filter (fun x => x.id != id)) ∧
      (∀ x ∈ s.devices.filter (fun x => x.id != id), x ∈ s.devices ∧ x.id ≠ id) ∧
      unregisterDevice false { s with devices := s.devices.filter (fun x => x.id != id) } id
        = .error "record to delete does not exist") ∧
    ((∀ d ∈ s.devices, d.id ≠ id) →
      unregisterDevice false s id = .error "record to delete does not exist" ∧
      unsubscribeDevice false s (some id)
        = (s, { status := 500, success := false,
                message := "Failed to unregister device" })) := by
  constructor
  · rintro ⟨d, hd, rfl⟩
    refine ⟨?_, ?_, ?_, ?_⟩
    · simp [unregisterDevice, abUserDevice_delete, any_id_of_mem _ d hd]
    · intro x hx hne
      exact List.mem_filter.mpr ⟨hx, by simpa using hne⟩
    · intro x hx
      obtain ⟨h1, h2⟩ := List.mem_filter.mp hx
      exact ⟨h1, by simpa using h2⟩
    · have : (s.devices.filter (fun x => x.id != d.id)).any (fun x => x.id == d.id) = false := by
        apply any_id_false
        intro x hx
        simpa using (List.mem_filter.mp hx).2
      simp [unregisterDevice, abUserDevice_delete, this]
  · intro h
    have ha := any_id_false _ _ h
    constructor
    · simp [unregisterDevice, abUserDevice_delete, ha]
    · simp [unsubscribeDevice, unregisterDevice, abUserDevice_delete, ha]

theorem device_eq_of_id (devs : List Device) (h : (devs.map (fun d => d.id)).Nodup)
    (x y : Device) (hx : x ∈ devs) (hy : y ∈ devs) (hid : x.id = y.id) : x = y :=
  List.inj_on_of_nodup_map h hx hy hid

/-- In a run where no other call lands between the lookup and the update, with the store
accepting both and device ids unique: `markDeviceOffline(c)` changes nothing and returns no
device when no device is stored with socket id `c`; otherwise it returns the first device
stored with `c` and sets that device offline with no socket id and the current time as
last-seen; and in both cases every device stored with another socket id (a newer connection
`c2`, or none) stays in the table exactly as it was, online flag and socket id included. -/
theorem markDeviceOffline_uninterrupted (oc : OfflineOutcome) (s : Store) (c : String)
    (hnd : (s.devices.map (fun d => d.id)).Nodup)
    (hf : oc.findThrows = false) (hu : oc.updateThrows = false) :
    ((∀ d ∈ s.devices, d.webSocketId ≠ some c) →
      (markDeviceOffline oc s c).store = s ∧ (markDeviceOffline oc s c).result = .ok none) ∧
    (∀ d, s.devices.find? (fun x => x.webSocketId == some c) = some d →
      (markDeviceOffline oc s c).result = .ok (some d) ∧
      (markDeviceOffline oc s c).store =
        { s with devices := s.devices.map (fun x =>
            if x.id = d.id then
              { x with isOnline := false, webSocketId := none, lastSeen := oc.now } else x) } ∧
      { d with isOnline := false, webSocketId := none, lastSeen := oc.now }
        ∈ (markDeviceOffline oc s c).store.devices) ∧
    (∀ d ∈ s.devices, d.webSocketId ≠ some c → d ∈ (markDeviceOffline oc s c).store.devices) := by
  have hsome : ∀ d, s.devices.find? (fun x => x.webSocketId == some c) = some d →
      (markDeviceOffline oc s c).result = .ok (some d) ∧
      (markDeviceOffline oc s c).store =
        { s with devices := s.devices.map (fun x =>
            if x.id = d.id then
              { x with isOnline := false, webSocketId := none, lastSeen := oc.now } else x) } := by
    intro d hd
    have hmem : d ∈ s.devices := List.mem_of_find?_eq_some hd
    have hfind : ∃ e, s.devices.find? (fun x => x.id == d.id) = some e := by
      cases he : s.devices.find? (fun x => x.id == d.id) with
      | none =>
        have := List.find?_eq_none.mp he d hmem
        simp at this
      | some e => exact ⟨e, rfl⟩
    obtain ⟨e, he⟩ := hfind
    simp [markDeviceOffline, markDeviceOfflineBetween, abUserDevice_findFirst,
      abUserDevice_update, hf, hu, hd, he]
  have hnone : (∀ d ∈ s.devices, d.webSocketId ≠ some c) →
      (markDeviceOffline oc s c).store = s ∧ (markDeviceOffline oc s c).result = .ok none := by
    intro h
    have hn : s.devices.find? (fun x => x.webSocketId == some c) = none := by
      rw [List.find?_eq_none]
      intro x hx
      simpa using h x hx
    simp [markDeviceOffline, markDeviceOfflineBetween, abUserDevice_findFirst, hf, hn]
  refine ⟨hnone, ?_, ?_⟩
  · intro d hd
    obtain ⟨h1, h2⟩ := hsome d hd
    refine ⟨h1, h2, ?_⟩
    rw [h2]
    refine List.mem_map.mpr ⟨d, List.mem_of_find?_eq_some hd, ?_⟩
    simp
  · intro d hd hne
    cases hfd : s.devices.find? (fun x => x.webSocketId == some c) with
    | none =>
      have hall : ∀ x ∈ s.devices, x.webSocketId ≠ some c := by
        intro x hx
        simpa using List.find?_eq_none.mp hfd x hx
      rw [(hnone hall).1]
      exact hd
    | some e =>
      rw [(hsome e hfd).2]
      refine List.mem_map.mpr ⟨d, hd, ?_⟩
      have hew : e.webSocketId = some c := by
        simpa using List.find?_some hfd
      have hne2 : d.id ≠ e.id := by
        intro hid
        have := device_eq_of_id _ hnd d e hd (List.mem_of_find?_eq_some hfd) hid
        rw [this] at hne
        exact hne hew
      rw [if_neg hne2]
/-! ## Sequences of sends -/

theorem sendToDevice_notifications (socket : Bool) (o : DeviceOutcome) (s : Store) (d : Device)
    (n : Notification) :
    (sendToDevice socket o s d n).store.notifications = s.notifications ∧
      s.nextId ≤ (sendToDevice socket o s d n).store.nextId := by
  cases hc : o.createThrows
  · cases hw : realtimeSent socket o d
    · cases hp : d.pushSubscription with
      | none =>
        simp [sendToDevice, sendToDeviceTry_no_channel socket o s d n hc hw hp, Store.withRow]
      | some sub =>
        cases ho : o.push with
        | resolved code =>
          simp only [sendToDevice, sendToDeviceTry_push_ok socket o s d n sub code hc hw hp ho]
          simp [(markAsDelivered_devices _ _ _ _).2, Store.withRow]
        | rejected code msg =>
          by_cases h410 : code = some 410
          · subst h410
            have hg := sendToDeviceTry_push_gone socket o s d n sub msg hc hw hp ho
            cases hun : unregisterDevice o.deleteThrows
                (markAsFailed o.updateThrows (s.withRow (newRow s n d)) s.nextId (some msg))
                d.id with
            | error e =>
              rw [hun] at hg
              simp only [sendToDevice, hg]
              simp [(markAsFailed_devices _ _ _ _).2, Store.withRow]
            | ok s3 =>
              rw [hun] at hg
              have h3 := unregisterDevice_store _ _ _ _ hun
              subst h3
              simp only [sendToDevice, hg]
              simp [(markAsFailed_devices _ _ _ _).2, Store.withRow]
          · simp only [sendToDevice,
              sendToDeviceTry_push_failed socket o s d n sub code msg hc hw hp ho h410]
            simp [(markAsFailed_devices _ _ _ _).2, Store.withRow]
    · simp only [sendToDevice, sendToDeviceTry_websocket socket o s d n hc hw]
      simp [(markAsDelivered_devices _ _ _ _).2, Store.withRow]
  · simp [sendToDevice_create_throws socket o s d n hc]

theorem allSettled_notifications (socket : Bool) (oc : Nat → DeviceOutcome) (n : Notification) :
    ∀ (devs : List Device) (s : Store),
      (allSettled socket oc n devs s).1.notifications = s.notifications ∧
        s.nextId ≤ (allSettled socket oc n devs s).1.nextId := by
  intro devs
  induction devs with
  | nil => intro s; simp [allSettled]
  | cons d rest ih =>
    intro s
    obtain ⟨a1, a2⟩ := sendToDevice_notifications socket (oc d.id) s d n
    obtain ⟨b1, b2⟩ := ih (sendToDevice socket (oc d.id) s d n).store
    simp only [allSettled]
    exact ⟨b1.trans a1, le_trans a2 b2⟩

theorem sendNotification_notifications (socket : Bool) (oc : SendOutcome) (s : Store)
    (userId : String) (nd : NotificationData) :
    (sendNotification socket oc s userId nd).store.notifications =
        s.notifications ++ (if oc.createThrows then [] else [persisted oc.now s userId nd]) ∧
      (s.nextId + (if oc.createThrows then 0 else 1)
        ≤ (sendNotification socket oc s userId nd).store.nextId) ∧
      (sendNotification socket oc s userId nd).result.toBool
        = (!oc.createThrows && !oc.findThrows) ∧
      ∀ v, (sendNotification socket oc s userId nd).result = .ok v →
        v = persisted oc.now s userId nd := by
  cases hc : oc.createThrows
  · cases hf : oc.findThrows
    · have hd : getUserDevices false s userId false = .ok (abUserDevice_findMany s
          (fun d => d.userId == userId && (!false || d.isOnline))) := rfl
      rw [sendNotification_ok socket oc s userId nd _ hc hf hd]
      obtain ⟨h1, h2⟩ := allSettled_notifications socket oc.device
        (persisted oc.now s userId nd) (abUserDevice_findMany s
          (fun d => d.userId == userId && (!false || d.isOnline)))
        (s.withNotification (persisted oc.now s userId nd))
      refine ⟨?_, ?_, ?_, ?_⟩
      · simp only [Bool.false_eq_true, if_false]
        rw [h1]
        rfl
      · simpa [Store.withNotification] using h2
      · rfl
      · intro v hv
        simp only [Except.ok.injEq] at hv
        exact hv.symm
    · have h : sendNotification socket oc s userId nd =
          ⟨s.withNotification (persisted oc.now s userId nd), [], .error "store error"⟩ := by
        simp [sendNotification, abNotification_create, getUserDevices, hc, hf,
          Store.withNotification, persisted]
      rw [h]
      refine ⟨by simp [Store.withNotification], by simp [Store.withNotification], rfl, ?_⟩
      intro v hv
      simp at hv
  · have h : sendNotification socket oc s userId nd = ⟨s, [], .error "store error"⟩ := by
      simp [sendNotification, abNotification_create, hc]
    rw [h]
    refine ⟨by simp, by simp, rfl, ?_⟩
    intro v hv
    simp at hv

theorem sendEach_spec (socket : Bool) (nd : NotificationData) :
    ∀ (calls : List (String × SendOutcome)) (s : Store),
      (sendEach socket nd calls s).2.2.map (fun r => r.toBool)
        = calls.map (fun c => !c.2.createThrows && !c.2.findThrows) ∧
      ∃ added, (sendEach socket nd calls s).1.notifications = s.notifications ++ added ∧
        added.map (fun n => n.userId)
          = (calls.filter (fun c => !c.2.createThrows)).map (fun c => c.1) ∧
        ∀ n ∈ added, n.type = nd.type ∧ n.title = nd.title ∧ n.body = nd.body ∧
          n.isRead = false := by
  intro calls
  induction calls with
  | nil => intro s; exact ⟨by simp [sendEach], [], by simp [sendEach], by simp, by simp⟩
  | cons c rest ih =>
    intro s
    obtain ⟨userId, oc⟩ := c
    obtain ⟨a1, -, a3, -⟩ := sendNotification_notifications socket oc s userId nd
    obtain ⟨b1, added, b2, b3, b4⟩ := ih (sendNotification socket oc s userId nd).store
    refine ⟨by simp [sendEach, a3, b1], ?_⟩
    refine ⟨(if oc.createThrows then [] else [persisted oc.now s userId nd]) ++ added, ?_, ?_, ?_⟩
    · simp only [sendEach]
      rw [b2, a1, List.append_assoc]
    · cases hc : oc.createThrows
      · simp [List.filter_cons, hc, b3, persisted]
      · simp [List.filter_cons, hc, b3]
    · intro n hn
      rcases List.mem_append.mp hn with hn | hn
      · cases hc : oc.createThrows
        · simp only [hc, Bool.false_eq_true, if_false, List.mem_singleton] at hn
          subst hn
          simp [persisted]
        · simp [hc] at hn
      · exact b4 n hn

theorem count_true_add_false (l : List Bool) :
    (l.filter (fun b => b)).length + (l.filter (fun b => !b)).length = l.length := by
  induction l with
  | nil => rfl
  | cons b rest ih => cases b <;> simp [List.filter_cons] <;> omega

/-- C13: for every list of user ids and whatever the environment decides for each send,
`sendToMultipleUsers` resolves; `successful` is the number of sends that resolved (notification
create and device fetch both accepted), `failed` the number that rejected, and they add up to
the length of the list; the notifications appended to the table are one per user whose create
was accepted, in list order, each unread with the type, title and body of the payload. -/
theorem C13_bulk_send_counts_and_isolates (socket : Bool) (s : Store)
    (calls : List (String × SendOutcome)) (nd : NotificationData) :
    ∃ r, (sendToMultipleUsers socket s calls nd).result = .ok r ∧
      r.results.map (fun x => x.toBool)
        = calls.map (fun c => !c.2.createThrows && !c.2.findThrows) ∧
      r.successful = (calls.filter (fun c => !c.2.createThrows && !c.2.findThrows)).length ∧
      r.failed = (calls.filter (fun c => c.2.createThrows || c.2.findThrows)).length ∧
      r.successful + r.failed = calls.length ∧
      ∃ added,
        (sendToMultipleUsers socket s calls nd).store.notifications = s.notifications ++ added ∧
        added.map (fun n => n.userId)
          = (calls.filter (fun c => !c.2.createThrows)).map (fun c => c.1) ∧
        ∀ n ∈ added, n.type = nd.type ∧ n.title = nd.title ∧ n.body = nd.body ∧
          n.isRead = false := by
  obtain ⟨h1, h2⟩ := sendEach_spec socket nd calls s
  have hs : ((sendEach socket nd calls s).2.2.filter (fun r => r.toBool)).length
      = (calls.filter (fun c => !c.2.createThrows && !c.2.findThrows)).length := by
    have := congrArg (fun l => (l.filter (fun b => b)).length) h1
    simpa [List.filter_map, Function.comp] using this
  have e : ∀ l : List (String × SendOutcome),
      l.filter (fun x => !(fun c : String × SendOutcome =>
          !c.2.createThrows && !c.2.findThrows) x)
        = l.filter (fun c => c.2.createThrows || c.2.findThrows) := by
    intro l
    apply List.filter_congr
    intro c _
    obtain ⟨_, ⟨ct, ft, _, _⟩⟩ := c
    cases ct <;> cases ft <;> rfl
  have hf : ((sendEach socket nd calls s).2.2.filter (fun r => !r.toBool)).length
      = (calls.filter (fun c => c.2.createThrows || c.2.findThrows)).length := by
    have := congrArg (fun l => (l.filter (fun b => !b)).length) h1
    simp only [List.filter_map, List.length_map] at this
    rw [← e calls]
    exact this
  refine ⟨_, rfl, h1, hs, hf, ?_, h2⟩
  have hsum := @List.length_eq_length_filter_add _ calls
    (fun c => !c.2.createThrows && !c.2.findThrows)
  rw [e calls] at hsum
  simp only [sendToMultipleUsers]
  rw [hs, hf]
  omega
/-! ## The read flag over sequences of calls -/

theorem read_kept_map (s t : Store) (g : Notification → Notification) (nid : Nat)
    (hg : ∀ x, (g x).id = x.id ∧ (x.isRead = true → (g x).isRead = true))
    (hn : t.notifications = s.notifications.map g) (hid : t.nextId = s.nextId)
    (h1 : s.NotificationsFresh) (h2 : ∃ m ∈ s.notifications, m.id = nid)
    (h3 : ∀ m ∈ s.notifications, m.id = nid → m.isRead = true) :
    t.NotificationsFresh ∧ (∃ m ∈ t.notifications, m.id = nid) ∧
      ∀ m ∈ t.notifications, m.id = nid → m.isRead = true := by
  refine ⟨?_, ?_, ?_⟩
  · intro m hm
    rw [hn] at hm
    obtain ⟨x, hx, rfl⟩ := List.mem_map.mp hm
    rw [(hg x).1, hid]
    exact h1 x hx
  · obtain ⟨m, hm, hmid⟩ := h2
    exact ⟨g m, by rw [hn]; exact List.mem_map_of_mem _ hm, by rw [(hg m).1]; exact hmid⟩
  · intro m hm hmid
    rw [hn] at hm
    obtain ⟨x, hx, rfl⟩ := List.mem_map.mp hm
    rw [(hg x).1] at hmid
    exact (hg x).2 (h3 x hx hmid)

theorem read_kept_append (s t : Store) (added : List Notification) (nid : Nat)
    (hn : t.notifications = s.notifications ++ added)
    (hadd : ∀ x ∈ added, x.id = s.nextId) (hid : s.nextId + added.length ≤ t.nextId)
    (h1 : s.NotificationsFresh) (h2 : ∃ m ∈ s.notifications, m.id = nid)
    (h3 : ∀ m ∈ s.notifications, m.id = nid → m.isRead = true) :
    t.NotificationsFresh ∧ (∃ m ∈ t.notifications, m.id = nid) ∧
      ∀ m ∈ t.notifications, m.id = nid → m.isRead = true := by
  refine ⟨?_, ?_, ?_⟩
  · intro m hm
    rw [hn] at hm
    rcases List.mem_append.mp hm with hm | hm
    · have := h1 m hm
      omega
    · have := hadd m hm
      have hl : 0 < added.length := List.length_pos_of_mem hm
      omega
  · obtain ⟨m, hm, hmid⟩ := h2
    exact ⟨m, by rw [hn]; exact List.mem_append_left _ hm, hmid⟩
  · intro m hm hmid
    rw [hn] at hm
    rcases List.mem_append.mp hm with hm | hm
    · exact h3 m hm hmid
    · obtain ⟨x, hx, hxid⟩ := h2
      have := h1 x hx
      have := hadd m hm
      omega

theorem serviceOp_read_kept (socket : Bool) (s : Store) (op : ServiceOp) (nid : Nat)
    (h1 : s.NotificationsFresh) (h2 : ∃ m ∈ s.notifications, m.id = nid)
    (h3 : ∀ m ∈ s.notifications, m.id = nid → m.isRead = true) :
    (op.apply socket s).NotificationsFresh ∧
      (∃ m ∈ (op.apply socket s).notifications, m.id = nid) ∧
      ∀ m ∈ (op.apply socket s).notifications, m.id = nid → m.isRead = true := by
  cases op with
  | send oc userId nd =>
    obtain ⟨a1, a2, -, -⟩ := sendNotification_notifications socket oc s userId nd
    refine read_kept_append s _ _ nid a1 ?_ ?_ h1 h2 h3
    · intro x hx
      cases hc : oc.createThrows
      · simp only [hc, Bool.false_eq_true, if_false, List.mem_singleton] at hx
        rw [hx]
        rfl
      · simp [hc] at hx
    · cases hc : oc.createThrows
      · simpa [hc] using a2
      · simpa [hc] using a2
  | read oc id userId =>
    have hst := markAsRead_store socket oc s id userId
    cases hu : oc.updateThrows
    · rw [hu] at hst
      simp only [Bool.false_eq_true, if_false] at hst
      refine read_kept_map s _ _ nid ?_ (by simp only [ServiceOp.apply]; rw [hst])
        (by simp only [ServiceOp.apply]; rw [hst]) h1 h2 h3
      intro x
      split <;> simp
    · rw [hu] at hst
      simp only [if_true] at hst
      simp only [ServiceOp.apply]
      rw [hst]
      exact ⟨h1, h2, h3⟩
  | readAll oc userId =>
    have hst := markAllAsRead_store socket oc s userId
    cases hu : oc.updateManyThrows
    · rw [hu] at hst
      simp only [Bool.false_eq_true, if_false] at hst
      refine read_kept_map s _ _ nid ?_ (by simp only [ServiceOp.apply]; rw [hst])
        (by simp only [ServiceOp.apply]; rw [hst]) h1 h2 h3
      intro x
      split <;> simp
    · rw [hu] at hst
      simp only [if_true] at hst
      simp only [ServiceOp.apply]
      rw [hst]
      exact ⟨h1, h2, h3⟩
  | clicked oc id did =>
    have hst : (markAsClicked socket oc s id did).store.notifications =
          s.notifications.map (fun n =>
            if (!oc.updateManyThrows && !oc.read.updateThrows && n.id == id) = true then
              { n with isRead := true, readAt := some oc.read.now } else n) ∧
        (markAsClicked socket oc s id did).store.nextId = s.nextId := by
      refine ⟨?_, (markAsClicked_statuses socket oc s id did).2⟩
      unfold markAsClicked abNotificationDeliveryStatus_updateMany
      cases hu : oc.updateManyThrows
      · simp only [Bool.false_eq_true, if_false]
        rw [markAsRead_store]
        cases hr : oc.read.updateThrows <;> simp [truthy]
      · simp
    refine read_kept_map s _ _ nid ?_ hst.1 hst.2 h1 h2 h3
    intro x
    split <;> simp
  | delivered throws now rid =>
    obtain ⟨-, a2, a3⟩ := markAsDelivered_devices throws now s rid
    exact read_kept_map s _ (fun x => x) nid (fun x => ⟨rfl, fun h => h⟩)
      (by simp only [ServiceOp.apply]; rw [a2]; simp) a3 h1 h2 h3
  | failed throws rid msg =>
    obtain ⟨-, a2, a3⟩ := markAsFailed_devices throws s rid msg
    exact read_kept_map s _ (fun x => x) nid (fun x => ⟨rfl, fun h => h⟩)
      (by simp only [ServiceOp.apply]; rw [a2]; simp) a3 h1 h2 h3

/-- C11: in a store whose notification ids were handed out before `nextId`, a notification
that is read stays read through every sequence of `sendNotification`, `markAsRead`,
`markAllAsRead`, `markAsClicked`, `markAsDelivered` and `markAsFailed`, whatever the
environment decides for each call: its id is still in the table and every notification with
that id has the read flag set. And the notification a `sendNotification` resolves with is in
the table, unread, with no read timestamp. -/
theorem C11_read_flag_is_monotonic (socket : Bool) (ops : List ServiceOp) (s : Store)
    (n : Notification) (hs : s.NotificationsFresh) (hn : n ∈ s.notifications)
    (hr : ∀ m ∈ s.notifications, m.id = n.id → m.isRead = true) :
    (∃ m ∈ (runService socket s ops).notifications, m.id = n.id) ∧
      (∀ m ∈ (runService socket s ops).notifications, m.id = n.id → m.isRead = true) ∧
      (∀ oc s0 userId nd v, (sendNotification socket oc s0 userId nd).result = .ok v →
        v ∈ (sendNotification socket oc s0 userId nd).store.notifications ∧
        v.isRead = false ∧ v.readAt = none) := by
  have key : ∀ (ops : List ServiceOp) (s : Store), s.NotificationsFresh →
      (∃ m ∈ s.notifications, m.id = n.id) →
      (∀ m ∈ s.notifications, m.id = n.id → m.isRead = true) →
      (runService socket s ops).NotificationsFresh ∧
        (∃ m ∈ (runService socket s ops).notifications, m.id = n.id) ∧
        ∀ m ∈ (runService socket s ops).notifications, m.id = n.id → m.isRead = true := by
    intro ops
    induction ops with
    | nil => intro s h1 h2 h3; exact ⟨h1, h2, h3⟩
    | cons op rest ih =>
      intro s h1 h2 h3
      obtain ⟨a1, a2, a3⟩ := serviceOp_read_kept socket s op n.id h1 h2 h3
      simpa only [runService, List.foldl_cons] using ih (op.apply socket s) a1 a2 a3
  obtain ⟨-, k2, k3⟩ := key ops s hs ⟨n, hn, rfl⟩ hr
  refine ⟨k2, k3, ?_⟩
  intro oc s0 userId nd v hv
  obtain ⟨a1, -, a3, a4⟩ := sendNotification_notifications socket oc s0 userId nd
  have hv2 := a4 v hv
  have hc : oc.createThrows = false := by
    rw [hv] at a3
    cases hct : oc.createThrows
    · rfl
    · rw [hct] at a3
      simp [Except.toBool] at a3
  subst hv2
  refine ⟨?_, rfl, rfl⟩
  rw [a1, hc]
  simp
/-! ## Registration and the realtime send -/

theorem find_by_id_of_mem (devs : List Device) (d : Device) (h : d ∈ devs) :
    ∃ e, devs.find? (fun x => x.id == d.id) = some e ∧ e ∈ devs ∧ e.id = d.id := by
  cases he : devs.find? (fun x => x.id == d.id) with
  | none =>
    have := List.find?_eq_none.mp he d h
    simp at this
  | some e =>
    exact ⟨e, rfl, List.mem_of_find?_eq_some he, by simpa using List.find?_some he⟩

theorem registerDevice_unfold (oc : RegisterOutcome) (s : Store) (userId : String)
    (info : DeviceInfo) :
    registerDevice oc s userId info =
      match (if truthy (endpointOf info.pushSubscription) then
          abUserDevice_findFirst oc.findThrows s
            (sameEndpoint userId (endpointOf info.pushSubscription))
        else .ok none) with
      | .error e => ⟨s, [], .error e⟩
      | .ok (some existingDevice) =>
        match abUserDevice_update oc.updateThrows s existingDevice.id
            (fun d => { d with deviceType := info.deviceType, deviceName := info.deviceName,
                               pushSubscription := info.pushSubscription,
                               fcmToken := info.fcmToken,
                               isOnline := true, lastSeen := oc.now }) with
        | .error e => ⟨s, [], .error e⟩
        | .ok (updatedDevice, s1) => ⟨s1, [], .ok updatedDevice⟩
      | .ok none =>
        match abUserDevice_create oc.createThrows s userId info.deviceType
            info.deviceName info.pushSubscription info.fcmToken true oc.now with
        | .error e => ⟨s, [], .error e⟩
        | .ok (newDevice, s1) => ⟨s1, [], .ok newDevice⟩ := rfl

/-- C15 (as amended): when the store accepts the calls, `registerDevice(userId, deviceInfo)`
with a truthy endpoint that a device of the same user already has updates such a device: the
returned device has the id of a device of that user with that endpoint, it is in the table, and
the table has the same ids in the same order (so the same number of rows). Without a truthy
endpoint, or when no device of that user has the endpoint (a device of another user with the
same endpoint does not count), it appends exactly one new device with a fresh id. In both cases
the returned device is online with last-seen now. -/
theorem C15_register_upserts_within_user (oc : RegisterOutcome) (s : Store) (userId : String)
    (info : DeviceInfo) (hf : oc.findThrows = false) (hu : oc.updateThrows = false)
    (hc : oc.createThrows = false) :
    ((truthy (endpointOf info.pushSubscription) = true ∧
        ∃ d ∈ s.devices, sameEndpoint userId (endpointOf info.pushSubscription) d = true) →
      ∃ v, (registerDevice oc s userId info).result = .ok v ∧
        v.isOnline = true ∧ v.lastSeen = oc.now ∧
        v.pushSubscription = info.pushSubscription ∧
        (∃ d ∈ s.devices, d.id = v.id ∧
          sameEndpoint userId (endpointOf info.pushSubscription) d = true) ∧
        v ∈ (registerDevice oc s userId info).store.devices ∧
        (registerDevice oc s userId info).store.devices.map (fun d => d.id)
          = s.devices.map (fun d => d.id) ∧
        (registerDevice oc s userId info).store.devices.length = s.devices.length) ∧
    ((truthy (endpointOf info.pushSubscription) = false ∨
        ∀ d ∈ s.devices, sameEndpoint userId (endpointOf info.pushSubscription) d = false) →
      ∃ v, (registerDevice oc s userId info).result = .ok v ∧
        v.isOnline = true ∧ v.lastSeen = oc.now ∧ v.id = s.nextId ∧ v.userId = userId ∧
        v.pushSubscription = info.pushSubscription ∧
        (registerDevice oc s userId info).store.devices = s.devices ++ [v]) := by
  constructor
  · rintro ⟨ht, d, hd, hsel⟩
    have hfind : ∃ d0, s.devices.find? (sameEndpoint userId (endpointOf info.pushSubscription))
        = some d0 := by
      cases h0 : s.devices.find? (sameEndpoint userId (endpointOf info.pushSubscription)) with
      | none =>
        have := List.find?_eq_none.mp h0 d hd
        exact absurd hsel this
      | some d0 => exact ⟨d0, rfl⟩
    obtain ⟨d0, hd0⟩ := hfind
    have hd0m : d0 ∈ s.devices := List.mem_of_find?_eq_some hd0
    have hd0s : sameEndpoint userId (endpointOf info.pushSubscription) d0 = true :=
      List.find?_some hd0
    obtain ⟨e, he, hem, heid⟩ := find_by_id_of_mem s.devices d0 hd0m
    rw [registerDevice_unfold]
    simp only [ht, if_true, abUserDevice_findFirst, hf, Bool.false_eq_true, if_false, hd0,
      abUserDevice_update, hu, he]
    refine ⟨_, rfl, rfl, rfl, rfl, ⟨d0, hd0m, heid.symm, hd0s⟩, ?_, ?_, ?_⟩
    · refine List.mem_map.mpr ⟨e, hem, ?_⟩
      simp [heid]
    · rw [List.map_map]
      apply List.map_congr_left
      intro x _
      simp only [Function.comp]
      split <;> rfl
    · simp
  · intro h
    have hnone : (if truthy (endpointOf info.pushSubscription) then
          abUserDevice_findFirst oc.findThrows s
            (sameEndpoint userId (endpointOf info.pushSubscription))
        else .ok none) = .ok none := by
      rcases h with h | h
      · simp [h]
      · have : s.devices.find? (sameEndpoint userId (endpointOf info.pushSubscription))
            = none := by
          rw [List.find?_eq_none]
          intro x hx
          simp [h x hx]
        simp [abUserDevice_findFirst, hf, this]
    rw [registerDevice_unfold, hnone]
    simp only [abUserDevice_create, hc, Bool.false_eq_true, if_false]
    exact ⟨_, rfl, rfl, rfl, rfl, rfl, rfl, rfl⟩

/-- C14 (as amended): `sendViaWebSocket` does not consult any record of open connections. Its
result is false exactly when the service has no Socket.IO instance or `emit` throws, and is the
same for every socket id; so for a device that is flagged online with a truthy socket id,
`sendToDevice` reports success through `websocket` and does not call the push provider,
whether or not that socket id still belongs to an open connection, and the row of the device
is `delivered` with a timestamp when the store accepts the status update and still `sent`
when it rejects it. -/
theorem C14_realtime_send_ignores_connection_state (socket emitThrows : Bool)
    (socketId : String) (n : Notification) :
    (sendViaWebSocket socket emitThrows socketId n).1 = (socket && !emitThrows) ∧
      (∀ other, (sendViaWebSocket socket emitThrows other n).1
        = (sendViaWebSocket socket emitThrows socketId n).1) ∧
      (∀ (o : DeviceOutcome) (s : Store) (d : Device),
        o.createThrows = false → realtimeSent socket o d = true →
        (sendToDevice socket o s d n).effects.filter Effect.isWebPush = [] ∧
        (sendToDevice socket o s d n).result =
          .ok { success := true, method := some "websocket", error := none }) ∧
      (∀ (o : DeviceOutcome) (s : Store) (d : Device), s.Fresh →
        o.createThrows = false → realtimeSent socket o d = true →
        (sendToDevice socket o s d n).store.deliveryStatuses =
          s.deliveryStatuses ++
            [if o.updateThrows then
                { id := s.nextId, notificationId := n.id, deviceId := d.id,
                  deliveryStatus := "sent", errorMessage := none,
                  deliveredAt := none, clickedAt := none }
              else
                { id := s.nextId, notificationId := n.id, deviceId := d.id,
                  deliveryStatus := "delivered", errorMessage := none,
                  deliveredAt := some o.now, clickedAt := none }]) := by
  refine ⟨?_, ?_, ?_, ?_⟩
  · cases socket <;> cases emitThrows <;> rfl
  · intro other
    cases socket <;> cases emitThrows <;> rfl
  · intro o s d hc hw
    simp only [sendToDevice, sendToDeviceTry_websocket socket o s d n hc hw]
    simp [Effect.isWebPush]
  · intro o s d hs hc hw
    rw [sendToDevice_websocket socket o s d n hs hc hw]
    cases o.updateThrows <;> simp [Store.withRow, newRow]

/-! ## The registry and read-state claims at the concrete scenario -/

/-- C11 at the scenario: notification 4, read at time 100, is still there and read after
another send, a second `markAsRead`, a `markAllAsRead`, a click and two status updates. -/
theorem C11_witness :
    readStore.NotificationsFresh ∧ readNotification ∈ readStore.notifications ∧
    (∀ m ∈ readStore.notifications, m.id = readNotification.id → m.isRead = true) ∧
    (∃ m ∈ (runService true readStore
        [ServiceOp.send calmSend "u1" payload0, ServiceOp.read (calmRead 120) 4 none,
          ServiceOp.readAll (calmReadAll 130) "u1", ServiceOp.clicked calmClick 4 1,
          ServiceOp.delivered false 70 5, ServiceOp.failed false 6 none]).notifications,
      m.id = readNotification.id) ∧
    (∀ m ∈ (runService true readStore
        [ServiceOp.send calmSend "u1" payload0, ServiceOp.read (calmRead 120) 4 none,
          ServiceOp.readAll (calmReadAll 130) "u1", ServiceOp.clicked calmClick 4 1,
          ServiceOp.delivered false 70 5, ServiceOp.failed false 6 none]).notifications,
      m.id = readNotification.id → m.isRead = true) :=
  ⟨by decide, by decide, by decide,
    (C11_read_flag_is_monotonic true
      [ServiceOp.send calmSend "u1" payload0, ServiceOp.read (calmRead 120) 4 none,
        ServiceOp.readAll (calmReadAll 130) "u1", ServiceOp.clicked calmClick 4 1,
        ServiceOp.delivered false 70 5, ServiceOp.failed false 6 none]
      readStore readNotification (by decide) (by decide) (by decide)).1,
    (C11_read_flag_is_monotonic true
      [ServiceOp.send calmSend "u1" payload0, ServiceOp.read (calmRead 120) 4 none,
        ServiceOp.readAll (calmReadAll 130) "u1", ServiceOp.clicked calmClick 4 1,
        ServiceOp.delivered false 70 5, ServiceOp.failed false 6 none]
      readStore readNotification (by decide) (by decide) (by decide)).2.1⟩

/-- C12 at the scenario: user `u1` has one unread notification in `sentStore`. -/
theorem C12_witness :
    getUnreadCount false sentStore "u1" = .ok 1 ∧
    ∃ count, (markAllAsRead true (calmReadAll 90) sentStore "u1").result = .ok count ∧
      getUnreadCount false sentStore "u1" = .ok count ∧
      getUnreadCount false (markAllAsRead true (calmReadAll 90) sentStore "u1").store "u1"
        = .ok 0 ∧
      ∀ limit,
        getUnreadNotifications false
          (markAllAsRead true (calmReadAll 90) sentStore "u1").store "u1" limit = .ok [] :=
  ⟨rfl, C12_markAllAsRead_leaves_none_unread true (calmReadAll 90) sentStore "u1" rfl⟩

/-- C14, the claim as stated fails: device `deviceStale` is flagged online with the socket id
of a connection that is gone. `emit` to such an id does not throw, so `sendViaWebSocket` returns
true, `sendToDevice` marks the row `delivered`, reports success through `websocket` and never
calls the push provider, although the device has a push subscription. -/
theorem C14_counterexample_stale_socket_id_is_reported_sent :
    (sendViaWebSocket true false "c-stale" notification0).1 = true ∧
    deviceStale.webSocketId = some "c-stale" ∧ deviceStale.pushSubscription.isSome = true ∧
    (sendToDevice true calm store0 deviceStale notification0).effects
      = [Effect.emit "c-stale" "notification:new" 4] ∧
    (sendToDevice true calm store0 deviceStale notification0).effects.filter Effect.isWebPush
      = [] ∧
    (sendToDevice true calm store0 deviceStale notification0).store.deliveryStatuses.map
      (fun r => (r.deviceId, r.deliveryStatus)) = [(9, "delivered")] ∧
    (sendToDevice true calm store0 deviceStale notification0).result.toOption
      = some { success := true, method := some "websocket", error := none } := by
  decide

/-- C14 (as amended) for the stale device of the scenario. -/
theorem C14_witness :
    calm.createThrows = false ∧ realtimeSent true calm deviceStale = true ∧ store0.Fresh ∧
    ((sendToDevice true calm store0 deviceStale notification0).effects.filter Effect.isWebPush
      = [] ∧
    (sendToDevice true calm store0 deviceStale notification0).result =
      .ok { success := true, method := some "websocket", error := none }) ∧
    (sendToDevice true calm store0 deviceStale notification0).store.deliveryStatuses =
      store0.deliveryStatuses ++
        [if calm.updateThrows then
            { id := store0.nextId, notificationId := notification0.id,
              deviceId := deviceStale.id,
              deliveryStatus := "sent", errorMessage := none,
              deliveredAt := none, clickedAt := none }
          else
            { id := store0.nextId, notificationId := notification0.id,
              deviceId := deviceStale.id,
              deliveryStatus := "delivered", errorMessage := none,
              deliveredAt := some calm.now, clickedAt := none }] :=
  ⟨rfl, rfl, by decide,
    (C14_realtime_send_ignores_connection_state true false "c-stale" notification0).2.2.1
      calm store0 deviceStale rfl rfl,
    (C14_realtime_send_ignores_connection_state true false "c-stale" notification0).2.2.2
      calm store0 deviceStale (by decide) rfl rfl⟩

/-- C15, the claim as stated fails: device B of user `u1` is registered with the endpoint of
`infoB`; registering `infoB` for user `u2` does not update device B but adds a fourth device
with the new id 4. -/
theorem C15_counterexample_same_endpoint_other_user :
    deviceB ∈ store0.devices ∧
    endpointOf deviceB.pushSubscription = endpointOf infoB.pushSubscription ∧
    store0.devices.length = 3 ∧
    (registerDevice calmRegister store0 "u2" infoB).store.devices.length = 4 ∧
    (registerDevice calmRegister store0 "u2" infoB).result.toOption.map (fun d => d.id)
      = some 4 ∧
    deviceB ∈ (registerDevice calmRegister store0 "u2" infoB).store.devices := by
  decide

/-- C15 (as amended) at the scenario: `infoB` for user `u1` updates device B, and a
registration without a subscription appends a device. -/
theorem C15_witness :
    (truthy (endpointOf infoB.pushSubscription) = true ∧
      ∃ d ∈ store0.devices, sameEndpoint "u1" (endpointOf infoB.pushSubscription) d = true) ∧
    truthy (endpointOf infoPlain.pushSubscription) = false ∧
    (∃ v, (registerDevice calmRegister store0 "u1" infoB).result = .ok v ∧
      v.isOnline = true ∧ v.lastSeen = calmRegister.now ∧
      v.pushSubscription = infoB.pushSubscription ∧
      (∃ d ∈ store0.devices, d.id = v.id ∧
        sameEndpoint "u1" (endpointOf infoB.pushSubscription) d = true) ∧
      v ∈ (registerDevice calmRegister store0 "u1" infoB).store.devices ∧
      (registerDevice calmRegister store0 "u1" infoB).store.devices.map (fun d => d.id)
        = store0.devices.map (fun d => d.id) ∧
      (registerDevice calmRegister store0 "u1" infoB).store.devices.length
        = store0.devices.length) ∧
    (∃ v, (registerDevice calmRegister store0 "u1" infoPlain).result = .ok v ∧
      v.isOnline = true ∧ v.lastSeen = calmRegister.now ∧ v.id = store0.nextId ∧
      v.userId = "u1" ∧ v.pushSubscription = infoPlain.pushSubscription ∧
      (registerDevice calmRegister store0 "u1" infoPlain).store.devices
        = store0.devices ++ [v]) :=
  ⟨⟨by decide, by decide⟩, by decide,
    (C15_register_upserts_within_user calmRegister store0 "u1" infoB rfl rfl rfl).1
      ⟨by decide, by decide⟩,
    (C15_register_upserts_within_user calmRegister store0 "u1" infoPlain rfl rfl rfl).2
      (Or.inl (by decide))⟩

/-- C16, the claim as stated fails: unregistering id 99, which no device has, rejects and the
handler answers 500; and after device 2 was unregistered a second `unregisterDevice(2)`
rejects too. -/
theorem C16_counterexample_unknown_id_rejects :
    (∀ d ∈ store0.devices, d.id ≠ 99) ∧
    (unregisterDevice false store0 99).toBool = false ∧
    (unsubscribeDevice false store0 (some 99)).2.status = 500 ∧
    (unsubscribeDevice false store0 (some 99)).2.success = false ∧
    (unsubscribeDevice false store0 (some 2)).2.status = 200 ∧
    (unregisterDevice false (unsubscribeDevice false store0 (some 2)).1 2).toBool = false := by
  decide

/-- C16 (as amended) at the scenario: device 2 is removed, the others stay, the second call
and a call for the unknown id 99 reject. -/
theorem C16_witness :
    (∃ d ∈ store0.devices, d.id = 2) ∧ (∀ d ∈ store0.devices, d.id ≠ 99) ∧
    unregisterDevice false store0 2
      = .ok { store0 with devices := store0.devices.filter (fun x => x.id != 2) } ∧
    unregisterDevice false
        { store0 with devices := store0.devices.filter (fun x => x.id != 2) } 2
      = .error "record to delete does not exist" ∧
    unregisterDevice false store0 99 = .error "record to delete does not exist" ∧
    unsubscribeDevice false store0 (some 99)
      = (store0,
          { status := 500, success := false, message := "Failed to unregister device" }) :=
  ⟨by decide, by decide,
    ((C16_unregister_removes_then_rejects store0 2).1 (by decide)).1,
    ((C16_unregister_removes_then_rejects store0 2).1 (by decide)).2.2.2,
    ((C16_unregister_removes_then_rejects store0 99).2 (by decide)).1,
    ((C16_unregister_removes_then_rejects store0 99).2 (by decide)).2⟩

/-- C17: device A is stored online on connection `c1`. Connection `c1` disconnects and
`markDeviceOffline("c1")` finds device A by the socket id; before its update is applied the
device authenticates on the new connection `c2` (`updateDeviceStatus(1, true, "c2")`), so it is
stored online on `c2`; the update of `markDeviceOffline`, keyed by the device id alone, then
sets device A offline with no socket id, and no device is stored with `c2`. When the
authenticate completes before the disconnect is handled, `markDeviceOffline("c1")` finds no
device and device A stays online on `c2`. -/
theorem C17_reauthentication_between_lookup_and_update_is_cleared :
    store0.devices.map (fun d => (d.id, d.isOnline, d.webSocketId))
      = [(1, true, some "c1"), (2, false, none), (3, false, none)] ∧
    (reauthenticate store0).devices.map (fun d => (d.id, d.isOnline, d.webSocketId))
      = [(1, true, some "c2"), (2, false, none), (3, false, none)] ∧
    (markDeviceOfflineBetween calmOffline reauthenticate store0 "c1").result.toOption
      = some (some deviceA) ∧
    (markDeviceOfflineBetween calmOffline reauthenticate store0 "c1").store.devices.map
      (fun d => (d.id, d.isOnline, d.webSocketId))
      = [(1, false, none), (2, false, none), (3, false, none)] ∧
    (getDeviceBySocketId false
      (markDeviceOfflineBetween calmOffline reauthenticate store0 "c1").store "c2").toOption
      = some none ∧
    (markDeviceOffline calmOffline (reauthenticate store0) "c1").store.devices.map
      (fun d => (d.id, d.isOnline, d.webSocketId))
      = [(1, true, some "c2"), (2, false, none), (3, false, none)] := by
  decide

/-- C18 at the scenario: notification 4 of `readStore` is read and was created at time 40; a
cleanup with a cutoff of 50 removes it and returns 1. -/
theorem C18_witness :
    plainDays 86400050 1 = some 50 ∧
    ∃ count, (cleanupOldNotifications false plainDays 86400050 readStore 1).result = .ok count ∧
      (cleanupOldNotifications false plainDays 86400050 readStore 1).store.notifications =
        readStore.notifications.filter (fun n => !oldAndRead 50 n) ∧
      count = (readStore.notifications.filter (oldAndRead 50)).length ∧
      count +
          (cleanupOldNotifications false plainDays 86400050 readStore 1).store.notifications.length
        = readStore.notifications.length ∧
      (∀ n ∈ readStore.notifications,
        n ∈ (cleanupOldNotifications false plainDays 86400050 readStore 1).store.notifications ↔
          ¬ ((n.createdAt : Int) < 50 ∧ n.isRead = true)) ∧
      (∀ n ∈ readStore.notifications, n.isRead = false →
        n ∈ (cleanupOldNotifications false plainDays 86400050 readStore 1).store.notifications) ∧
      (∀ n ∈ readStore.notifications, (50 : Int) ≤ (n.createdAt : Int) →
        n ∈ (cleanupOldNotifications false plainDays 86400050 readStore 1).store.notifications) :=
  ⟨by decide,
    C18_cleanup_removes_old_read_only plainDays 86400050 readStore 1 50 (by decide)⟩

/-- C19 at the scenario: with a cutoff of 15, device A (last seen at 20) is kept and devices
B and C (last seen at 10 and 5) are deleted. -/
theorem C19_witness :
    plainDays 86400015 1 = some 15 ∧
    (removeInactiveDevices false plainDays 86400015 store0 1).store.devices = [deviceA] ∧
    ∃ count, (removeInactiveDevices false plainDays 86400015 store0 1).result = .ok count ∧
      (removeInactiveDevices false plainDays 86400015 store0 1).store =
        { store0 with devices := store0.devices.filter (fun d => !inactive 15 d) } ∧
      count = (store0.devices.filter (inactive 15)).length ∧
      count + (removeInactiveDevices false plainDays 86400015 store0 1).store.devices.length
        = store0.devices.length ∧
      (∀ d ∈ store0.devices,
        d ∈ (removeInactiveDevices false plainDays 86400015 store0 1).store.devices ↔
          ¬ ((d.lastSeen : Int) < 15)) :=
  ⟨by decide, by decide,
    C19_sweep_removes_inactive_devices plainDays 86400015 store0 1 15 (by decide)⟩

/-- The uninterrupted `markDeviceOffline` at the scenario: the disconnect of `c1` sets device A
offline and leaves devices B and C alone; the disconnect of the unknown `c0` changes nothing. -/
theorem markDeviceOffline_uninterrupted_at_scenario :
    (store0.devices.map (fun d => d.id)).Nodup ∧
    store0.devices.find? (fun x => x.webSocketId == some "c1") = some deviceA ∧
    (∀ d ∈ store0.devices, d.webSocketId ≠ some "c0") ∧
    (markDeviceOffline calmOffline store0 "c0").store = store0 ∧
    (markDeviceOffline calmOffline store0 "c1").result = .ok (some deviceA) ∧
    { deviceA with isOnline := false, webSocketId := none, lastSeen := calmOffline.now }
      ∈ (markDeviceOffline calmOffline store0 "c1").store.devices ∧
    deviceB ∈ (markDeviceOffline calmOffline store0 "c1").store.devices :=
  ⟨by decide, by decide, by decide,
    ((markDeviceOffline_uninterrupted calmOffline store0 "c0" (by decide) rfl rfl).1
      (by decide)).1,
    ((markDeviceOffline_uninterrupted calmOffline store0 "c1" (by decide) rfl rfl).2.1
      deviceA (by decide)).1,
    ((markDeviceOffline_uninterrupted calmOffline store0 "c1" (by decide) rfl rfl).2.1
      deviceA (by decide)).2.2,
    (markDeviceOffline_uninterrupted calmOffline store0 "c1" (by decide) rfl rfl).2.2
      deviceB (by decide) (by decide)⟩

/-- C20, the claim as stated fails: in `failedStore` the row of (notification 4, device B) is
`failed` and notification 4 is unread. A click whose `updateMany` the store rejects resolves
and leaves the row `failed` without a clicked timestamp and the notification unread; a click
whose notification update the store rejects resolves with the row `clicked` and the
notification still unread. -/
theorem C20_counterexample_rejected_writes_are_swallowed :
    (markAsClicked true deafClick failedStore 4 2).result.toOption = some () ∧
    ((markAsClicked true deafClick failedStore 4 2).store.rowsOfPair 4 2).map
      (fun r => (r.deliveryStatus, r.clickedAt)) = [("failed", none)] ∧
    (markAsClicked true deafClick failedStore 4 2).store.notifications.map
      (fun n => (n.id, n.isRead)) = [(4, false)] ∧
    (markAsClicked true halfClick failedStore 4 2).result.toOption = some () ∧
    ((markAsClicked true halfClick failedStore 4 2).store.rowsOfPair 4 2).map
      (fun r => (r.deliveryStatus, r.clickedAt)) = [("clicked", some 60)] ∧
    (markAsClicked true halfClick failedStore 4 2).store.notifications.map
      (fun n => (n.id, n.isRead)) = [(4, false)] := by
  decide

/-- C20 (as amended) at the scenario: a click on notification 4 from device B in
`failedStore`, with both writes accepted. -/
theorem C20_witness :
    calmClick.updateManyThrows = false ∧ calmClick.read.updateThrows = false ∧
    (∀ r ∈ (markAsClicked true calmClick failedStore 4 2).store.rowsOfPair 4 2,
      r.deliveryStatus = "clicked" ∧ r.clickedAt = some calmClick.now) ∧
    ((markAsClicked true calmClick failedStore 4 2).store.rowsOfPair 4 2).length
      = (failedStore.rowsOfPair 4 2).length ∧
    (∀ r ∈ failedStore.deliveryStatuses, ¬ (r.notificationId = 4 ∧ r.deviceId = 2) →
      r ∈ (markAsClicked true calmClick failedStore 4 2).store.deliveryStatuses) ∧
    (∀ n ∈ (markAsClicked true calmClick failedStore 4 2).store.notifications, n.id = 4 →
      n.isRead = true) :=
  ⟨rfl, rfl,
    ((C20_click_marks_pair_and_parent_if_accepted true calmClick failedStore 4 2).2.1 rfl).2.1,
    ((C20_click_marks_pair_and_parent_if_accepted true calmClick failedStore 4 2).2.1
      rfl).2.2.1,
    ((C20_click_marks_pair_and_parent_if_accepted true calmClick failedStore 4 2).2.1
      rfl).2.2.2,
    ((C20_click_marks_pair_and_parent_if_accepted true calmClick failedStore 4 2).2.2.1
      rfl rfl).1⟩

/-! ## HTTP handlers -/

theorem truthy_false_cases (x : Option String) (h : truthy x = false) :
    x = none ∨ x = some "" := by
  cases x with
  | none => exact Or.inl rfl
  | some v =>
    right
    simp only [truthy, bne_eq_false_iff_eq] at h
    rw [h]

theorem isSome_false_cases {α : Type} (x : Option α) (h : x.isSome = false) : x = none := by
  cases x with
  | none => rfl
  | some v => simp at h

/-- C22: for every handler mounted by the router and every request that lacks one of the
identifiers the route requires (a user id that is absent or empty, an absent device id,
notification id, device info or settings), whatever the environment would decide: the response
has status 400 and `success: false`, the store is as it was, nothing is emitted, and no
operation of the device manager or of the notification service was invoked. -/
theorem C22_missing_identifier_gets_400 (socket : Bool) (env : HandlerOutcome) (s : Store)
    (req : Request) (h : Handler) (f : Field) (hf : f ∈ h.required)
    (hlack : req.has f = false) :
    (handle socket env s req h).response.status = 400 ∧
      (handle socket env s req h).response.success = false ∧
      (handle socket env s req h).store = s ∧
      (handle socket env s req h).effects = [] ∧
      (handle socket env s req h).calls = [] := by
  obtain ⟨userId, deviceId, notificationId, deviceInfo, settings, limit, offset, type⟩ := req
  cases h <;> simp only [Handler.required, List.mem_cons, List.mem_singleton,
    List.not_mem_nil, or_false] at hf
  case subscribe =>
    rcases hf with rfl | rfl
    · simp only [Request.has] at hlack
      rcases truthy_false_cases _ hlack with rfl | rfl <;>
        simp [handle, Controller.subscribeDevice, truthy]
    · have hnone := isSome_false_cases _ hlack
      subst hnone
      cases ht : truthy userId <;> cases userId <;>
        simp [handle, Controller.subscribeDevice, ht]
  case unsubscribe =>
    subst hf
    have hnone := isSome_false_cases _ hlack
    subst hnone
    simp [handle, Controller.unsubscribeDevice]
  case devices =>
    subst hf
    simp only [Request.has] at hlack
    rcases truthy_false_cases _ hlack with rfl | rfl <;>
      simp [handle, Controller.getUserDevices, truthy]
  case deleteDevice =>
    subst hf
    have hnone := isSome_false_cases _ hlack
    subst hnone
    simp [handle, Controller.deleteDevice]
  case pending =>
    subst hf
    simp only [Request.has] at hlack
    rcases truthy_false_cases _ hlack with rfl | rfl <;>
      simp [handle, Controller.getPendingNotifications, truthy]
  case markRead =>
    subst hf
    have hnone := isSome_false_cases _ hlack
    subst hnone
    simp [handle, Controller.markAsRead]
  case markAllRead =>
    subst hf
    simp only [Request.has] at hlack
    rcases truthy_false_cases _ hlack with rfl | rfl <;>
      simp [handle, Controller.markAllAsRead, truthy]
  case history =>
    subst hf
    simp only [Request.has] at hlack
    rcases truthy_false_cases _ hlack with rfl | rfl <;>
      simp [handle, Controller.getHistory, truthy]
  case unreadCount =>
    subst hf
    simp only [Request.has] at hlack
    rcases truthy_false_cases _ hlack with rfl | rfl <;>
      simp [handle, Controller.getUnreadCount, truthy]
  case getSettings =>
    subst hf
    have hnone := isSome_false_cases _ hlack
    subst hnone
    simp [handle, Controller.getNotificationSettings]
  case putSettings =>
    rcases hf with rfl | rfl
    · have hnone := isSome_false_cases _ hlack
      subst hnone
      simp [handle, Controller.updateNotificationSettings]
    · have hnone := isSome_false_cases _ hlack
      subst hnone
      cases deviceId <;> simp [handle, Controller.updateNotificationSettings]
  case test =>
    subst hf
    simp only [Request.has] at hlack
    rcases truthy_false_cases _ hlack with rfl | rfl <;>
      simp [handle, Controller.sendTestNotification, truthy]
/-! ## Badge count, non-atomic send, foreign mark-read, device status -/

theorem updateBadgeCount_unfold (socket : Bool) (oc : BadgeOutcome) (s : Store) (userId : String)
    (hc : oc.countThrows = false) (hf : oc.findThrows = false) :
    updateBadgeCount socket oc s userId =
      (if (oc.emitThrows && !((abUserDevice_findMany s
            (fun d => d.userId == userId && (!true || d.isOnline))).filter
              (fun d => truthy d.webSocketId && socket)).isEmpty) = true
        then ⟨s, [], .ok none⟩
        else
          ⟨s, ((abUserDevice_findMany s
              (fun d => d.userId == userId && (!true || d.isOnline))).filter
                (fun d => truthy d.webSocketId && socket)).map (fun d =>
              Effect.emit (d.webSocketId.getD "") "notification:badge-update"
                (abNotification_count s (fun n => n.userId == userId && !n.isRead))),
            .ok (some (abNotification_count s (fun n => n.userId == userId && !n.isRead)))⟩) := by
  simp only [updateBadgeCount, getUnreadCount, getUserDevices, hc, hf, Bool.false_eq_true,
    if_false]

theorem updateBadgeCount_effects_count (socket : Bool) (oc : BadgeOutcome) (s : Store)
    (userId : String) :
    ∀ e ∈ (updateBadgeCount socket oc s userId).effects, ∃ sid,
      e = Effect.emit sid "notification:badge-update"
        (abNotification_count s (fun n => n.userId == userId && !n.isRead)) := by
  intro e he
  cases hc : oc.countThrows
  · cases hf : oc.findThrows
    · rw [updateBadgeCount_unfold socket oc s userId hc hf] at he
      split at he
      · simp at he
      · obtain ⟨d, -, rfl⟩ := List.mem_map.mp he
        exact ⟨_, rfl⟩
    · simp [updateBadgeCount, getUnreadCount, getUserDevices, hc, hf] at he
  · simp [updateBadgeCount, getUnreadCount, hc] at he

/-- C21 (as amended): `updateBadgeCount(userId)` never rejects and never changes the store.
On a service that has its Socket.IO instance, when the count query and the device fetch are
accepted and `emit` does not throw, it returns the unread count `getUnreadCount` gives for the
user and emits `notification:badge-update` with that count once for each device
`getUserDevices(userId, true)` lists that has a truthy socket id, and for no other; these are
exactly the devices of the table that belong to the user, are online and have a truthy socket
id. Without a Socket.IO instance it returns the count and emits nothing. When the count query
or the device fetch is rejected, or `emit` throws for a device, it returns nothing and emits
nothing. Every badge update emitted by `markAllAsRead` carries the count 0, and with nothing
failing it reaches the same devices. -/
theorem C21_badge_update_reaches_online_devices_or_nobody (socket : Bool) (oc : BadgeOutcome)
    (s : Store) (userId : String) :
    ∃ count devices,
      getUnreadCount false s userId = .ok count ∧
      getUserDevices false s userId true = .ok devices ∧
      (∀ d, d ∈ devices.filter (fun d => truthy d.webSocketId) ↔
        d ∈ s.devices ∧ d.userId = userId ∧ d.isOnline = true ∧ truthy d.webSocketId = true) ∧
      (updateBadgeCount socket oc s userId).store = s ∧
      (∃ v, (updateBadgeCount socket oc s userId).result = .ok v) ∧
      (socket = true → oc.countThrows = false → oc.findThrows = false →
        oc.emitThrows = false →
        (updateBadgeCount socket oc s userId).result = .ok (some count) ∧
        (updateBadgeCount socket oc s userId).effects =
          (devices.filter (fun d => truthy d.webSocketId)).map (fun d =>
            Effect.emit (d.webSocketId.getD "") "notification:badge-update" count)) ∧
      (socket = false → oc.countThrows = false → oc.findThrows = false →
        (updateBadgeCount socket oc s userId).result = .ok (some count) ∧
        (updateBadgeCount socket oc s userId).effects = []) ∧
      (oc.countThrows = true ∨ oc.findThrows = true →
        (updateBadgeCount socket oc s userId).result = .ok none ∧
        (updateBadgeCount socket oc s userId).effects = []) ∧
      (socket = true → oc.emitThrows = true →
        devices.filter (fun d => truthy d.webSocketId) ≠ [] →
        (updateBadgeCount socket oc s userId).result = .ok none ∧
        (updateBadgeCount socket oc s userId).effects = []) ∧
      (∀ ra : ReadAllOutcome, ra.badge = oc →
        ∀ e ∈ (markAllAsRead socket ra s userId).effects,
          ∃ sid, e = Effect.emit sid "notification:badge-update" 0) ∧
      (socket = true → oc.countThrows = false → oc.findThrows = false →
        oc.emitThrows = false →
        ∀ ra : ReadAllOutcome, ra.updateManyThrows = false → ra.badge = oc →
          (markAllAsRead socket ra s userId).effects =
            (devices.filter (fun d => truthy d.webSocketId)).map (fun d =>
              Effect.emit (d.webSocketId.getD "") "notification:badge-update" 0)) := by
  refine ⟨abNotification_count s (fun n => n.userId == userId && !n.isRead),
    abUserDevice_findMany s (fun d => d.userId == userId && (!true || d.isOnline)),
    by simp [getUnreadCount], by simp [getUserDevices], ?_,
    updateBadgeCount_store socket oc s userId, ?_, ?_, ?_, ?_, ?_, ?_, ?_⟩
  · intro d
    have hperm := getUserDevices_ok s userId true
      (abUserDevice_findMany s (fun d => d.userId == userId && (!true || d.isOnline)))
      (by simp [getUserDevices])
    rw [List.mem_filter, hperm.mem_iff, List.mem_filter]
    simp
    tauto
  · unfold updateBadgeCount
    split
    · exact ⟨_, rfl⟩
    · split
      · exact ⟨_, rfl⟩
      · simp only
        split <;> exact ⟨_, rfl⟩
  · intro hs hc hf he
    subst hs
    rw [updateBadgeCount_unfold true oc s userId hc hf]
    simp [he]
  · intro hs hc hf
    subst hs
    rw [updateBadgeCount_unfold false oc s userId hc hf]
    simp
  · intro h
    cases hc : oc.countThrows
    · have hf : oc.findThrows = true := by
        rcases h with h | h
        · rw [hc] at h; exact Bool.noConfusion h
        · exact h
      simp [updateBadgeCount, getUnreadCount, getUserDevices, hc, hf]
    · simp [updateBadgeCount, getUnreadCount, hc]
  · intro hs he hne
    subst hs
    cases hc : oc.countThrows
    · cases hf : oc.findThrows
      · rw [updateBadgeCount_unfold true oc s userId hc hf]
        have : ((abUserDevice_findMany s
            (fun d => d.userId == userId && (!true || d.isOnline))).filter
              (fun d => truthy d.webSocketId && true)).isEmpty = false := by
          simp only [Bool.and_true]
          cases hl : (abUserDevice_findMany s
            (fun d => d.userId == userId && (!true || d.isOnline))).filter
              (fun d => truthy d.webSocketId) with
          | nil => exact absurd hl hne
          | cons a l => rfl
        rw [if_pos (by rw [he, this]; rfl)]
        exact ⟨rfl, rfl⟩
      · simp [updateBadgeCount, getUnreadCount, getUserDevices, hc, hf]
    · simp [updateBadgeCount, getUnreadCount, hc]
  · intro ra hb e he
    subst hb
    unfold markAllAsRead abNotification_updateMany at he
    cases hu : ra.updateManyThrows
    · simp only [hu, Bool.false_eq_true, if_false] at he
      obtain ⟨sid, hsid⟩ := updateBadgeCount_effects_count socket ra.badge _ userId e he
      refine ⟨sid, ?_⟩
      rw [hsid]
      simp only [abNotification_count, unread_after_readAll, List.length_nil]
    · simp [hu] at he
  · intro hs hc hf he ra hra hb
    subst hs
    subst hb
    simp only [markAllAsRead, abNotification_updateMany, hra, Bool.false_eq_true, if_false]
    rw [updateBadgeCount_unfold true ra.badge _ userId hc hf]
    simp only [he, Bool.false_and, Bool.false_eq_true, if_false, Bool.and_true,
      abNotification_count, unread_after_readAll, List.length_nil]
    rfl

/-- C25: when the notification create is accepted and the device fetch is rejected,
`sendNotification` rejects, and the store it leaves is the old one plus the new notification:
the notification is in the table, unread, counted by `getUnreadCount` of its user (one more
than before); the delivery-status table is as it was and has no row for the new notification;
nothing was emitted. -/
theorem C25_send_not_atomic_on_fetch_failure (socket : Bool) (oc : SendOutcome) (s : Store)
    (userId : String) (nd : NotificationData) (hwf : s.WF)
    (hc : oc.createThrows = false) (hf : oc.findThrows = true) :
    (sendNotification socket oc s userId nd).result = .error "store error" ∧
      (sendNotification socket oc s userId nd).store
        = s.withNotification (persisted oc.now s userId nd) ∧
      persisted oc.now s userId nd ∈ (sendNotification socket oc s userId nd).store.notifications ∧
      (persisted oc.now s userId nd).isRead = false ∧
      (∀ count, getUnreadCount false s userId = .ok count →
        getUnreadCount false (sendNotification socket oc s userId nd).store userId
          = .ok (count + 1)) ∧
      (sendNotification socket oc s userId nd).store.deliveryStatuses = s.deliveryStatuses ∧
      (sendNotification socket oc s userId nd).store.rowsOf (persisted oc.now s userId nd).id
        = [] ∧
      (sendNotification socket oc s userId nd).effects = [] := by
  have h : sendNotification socket oc s userId nd =
      ⟨s.withNotification (persisted oc.now s userId nd), [], .error "store error"⟩ := by
    simp [sendNotification, abNotification_create, getUserDevices, hc, hf,
      Store.withNotification, persisted]
  rw [h]
  refine ⟨rfl, rfl, by simp [Store.withNotification], rfl, ?_, rfl, ?_, rfl⟩
  · intro count hcount
    simp only [getUnreadCount, abNotification_count, Bool.false_eq_true, if_false,
      Except.ok.injEq] at hcount ⊢
    subst hcount
    simp [Store.withNotification, persisted, List.filter_append]
  · simp only [Store.rowsOf, Store.withNotification]
    rw [List.filter_eq_nil_iff]
    intro r hr
    have := (hwf.1 r hr).2
    simp only [persisted, beq_iff_eq]
    omega

/-- C27: `markAsRead(notificationId, userId)` with a non-empty user id that owns no
notification with that id rejects, whatever the environment decides; the store is exactly as
it was (read flag and read timestamp of the notification included) and nothing is emitted. The
socket handler of `notification:mark-read` then emits no `notification:read-sync` either and
leaves the store as it was. -/
theorem C27_foreign_user_cannot_mark_read (socket : Bool) (oc : ReadOutcome) (s : Store)
    (nid : Nat) (uid : String) (hne : uid ≠ "")
    (hown : ∀ n ∈ s.notifications, n.id = nid → n.userId ≠ uid) :
    (markAsRead socket oc s nid (some uid)).result.toBool = false ∧
      (markAsRead socket oc s nid (some uid)).store = s ∧
      (markAsRead socket oc s nid (some uid)).effects = [] ∧
      (∀ socketId, (onMarkRead oc s socketId (some uid) nid).1 = s ∧
        (onMarkRead oc s socketId (some uid) nid).2.filter Effect.isReadSync = []) := by
  have hfind : s.notifications.find?
      (fun n => n.id == nid && (!truthy (some uid) || some n.userId == some uid)) = none := by
    rw [List.find?_eq_none]
    intro n hn
    have ht : truthy (some uid) = true := by simp [truthy, hne]
    by_cases hid : n.id = nid
    · have := hown n hn hid
      simp [ht, this]
    · simp [hid]
  have key : ∀ sock, ∃ e, markAsRead sock oc s nid (some uid) = ⟨s, [], .error e⟩ := by
    intro sock
    cases hu : oc.updateThrows
    · exact ⟨"record to update not found", by
        simp only [markAsRead, abNotification_update, hu, Bool.false_eq_true, if_false, hfind]⟩
    · exact ⟨"store error", by simp [markAsRead, abNotification_update, hu]⟩
  obtain ⟨e, he⟩ := key socket
  refine ⟨by rw [he]; rfl, by rw [he], by rw [he], ?_⟩
  intro socketId
  obtain ⟨e2, he2⟩ := key true
  have ht : truthy (some uid) = true := by simp [truthy, hne]
  simp [onMarkRead, ht, he2, Effect.isReadSync]

/-- C28: when the store accepts the update of a registered device, `updateDeviceStatus` with a
`null` socket id sets the online flag and last-seen of the devices with that id and leaves
their socket id, and every other column and device, as they were, so after
`updateDeviceStatus(id, false)` the device is offline and still carries its socket id; with a
socket id that is not `null` the stored socket id becomes that value. -/
theorem C28_status_update_keeps_socket_id_on_null (now : Nat) (s : Store) (deviceId : Nat)
    (isOnline : Bool) (d : Device)
    (hd : s.devices.find? (fun x => x.id == deviceId) = some d) :
    (updateDeviceStatus false now s deviceId isOnline none).result =
        .ok { d with isOnline := isOnline, lastSeen := now } ∧
      (updateDeviceStatus false now s deviceId isOnline none).store =
        { s with devices := s.devices.map (fun x =>
            if x.id = deviceId then { x with isOnline := isOnline, lastSeen := now } else x) } ∧
      { d with isOnline := false, lastSeen := now }
        ∈ (updateDeviceStatus false now s deviceId false none).store.devices ∧
      (∀ w,
        (updateDeviceStatus false now s deviceId isOnline (some w)).result =
          .ok { d with isOnline := isOnline, lastSeen := now, webSocketId := some w } ∧
        (updateDeviceStatus false now s deviceId isOnline (some w)).store =
          { s with devices := s.devices.map (fun x =>
              if x.id = deviceId then
                { x with isOnline := isOnline, lastSeen := now, webSocketId := some w }
              else x) }) := by
  have hmem : d ∈ s.devices := List.mem_of_find?_eq_some hd
  have hid : d.id = deviceId := by simpa using List.find?_some hd
  refine ⟨?_, ?_, ?_, ?_⟩
  · simp [updateDeviceStatus, abUserDevice_update, hd]
  · simp [updateDeviceStatus, abUserDevice_update, hd]
  · simp only [updateDeviceStatus, abUserDevice_update, hd, Bool.false_eq_true, if_false]
    refine List.mem_map.mpr ⟨d, hmem, ?_⟩
    simp [hid]
  · intro w
    constructor <;> simp [updateDeviceStatus, abUserDevice_update, hd]
/-! ## What the result of `sendToDevice` says about the row -/

/-- C23 (as amended): the result of `sendToDevice` follows the transport, the row follows the
store. With `success: true` the one new row is `delivered` with the delivered timestamp if the
store accepted the status update, and is still `sent` without a timestamp if it rejected it
(`markAsDelivered` logs the error and goes on). After a rejected push the result has
`success: false`, and the new row is `failed` with the message if the store accepted the update
and still `sent` if it rejected it. -/
theorem C23_row_follows_the_status_update (socket : Bool) (o : DeviceOutcome) (s : Store)
    (d : Device) (n : Notification) (hs : s.Fresh) :
    (∀ v, (sendToDevice socket o s d n).result = .ok v → v.success = true →
      (sendToDevice socket o s d n).store.deliveryStatuses =
        s.deliveryStatuses ++
          [if o.updateThrows then newRow s n d
            else { newRow s n d with deliveryStatus := "delivered",
                                     deliveredAt := some o.now }]) ∧
    (∀ sub code msg, o.createThrows = false → realtimeSent socket o d = false →
      d.pushSubscription = some sub → o.push = .rejected code msg →
      (∃ v, (sendToDevice socket o s d n).result = .ok v ∧ v.success = false) ∧
      (sendToDevice socket o s d n).store.deliveryStatuses =
        s.deliveryStatuses ++
          [if o.updateThrows then newRow s n d
            else { newRow s n d with deliveryStatus := "failed",
                                     errorMessage := some msg }]) := by
  have hD := markAsDelivered_own s hs (newRow s n d) rfl o.updateThrows o.now
  have gone : ∀ sub msg, o.createThrows = false → realtimeSent socket o d = false →
      d.pushSubscription = some sub → o.push = .rejected (some 410) msg →
      (∃ v, (sendToDevice socket o s d n).result = .ok v ∧ v.success = false) ∧
      (sendToDevice socket o s d n).store.deliveryStatuses =
        s.deliveryStatuses ++
          [if o.updateThrows then newRow s n d
            else { newRow s n d with deliveryStatus := "failed",
                                     errorMessage := some msg }] := by
    intro sub msg hc hw hp ho
    have hF := markAsFailed_own s hs (newRow s n d) rfl o.updateThrows msg
    have hg := sendToDeviceTry_push_gone socket o s d n sub msg hc hw hp ho
    rw [hF] at hg
    cases hun : unregisterDevice o.deleteThrows
        (s.withRow (if o.updateThrows = true then newRow s n d else
          { newRow s n d with deliveryStatus := "failed", errorMessage := some msg })) d.id with
    | error e =>
      rw [hun] at hg
      simp only [sendToDevice, hg]
      exact ⟨⟨_, rfl, rfl⟩, by simp [Store.withRow]⟩
    | ok s3 =>
      rw [hun] at hg
      have h3 := unregisterDevice_store _ _ _ _ hun
      subst h3
      simp only [sendToDevice, hg]
      exact ⟨⟨_, rfl, rfl⟩, by simp [Store.withRow]⟩
  have other : ∀ sub code msg, code ≠ some 410 → o.createThrows = false →
      realtimeSent socket o d = false →
      d.pushSubscription = some sub → o.push = .rejected code msg →
      (∃ v, (sendToDevice socket o s d n).result = .ok v ∧ v.success = false) ∧
      (sendToDevice socket o s d n).store.deliveryStatuses =
        s.deliveryStatuses ++
          [if o.updateThrows then newRow s n d
            else { newRow s n d with deliveryStatus := "failed",
                                     errorMessage := some msg }] := by
    intro sub code msg h410 hc hw hp ho
    have hF := markAsFailed_own s hs (newRow s n d) rfl o.updateThrows msg
    simp only [sendToDevice,
      sendToDeviceTry_push_failed socket o s d n sub code msg hc hw hp ho h410, hF]
    exact ⟨⟨_, rfl, rfl⟩, by simp [Store.withRow]⟩
  constructor
  · intro v hv hsucc
    cases hc : o.createThrows
    · cases hw : realtimeSent socket o d
      · cases hp : d.pushSubscription with
        | none =>
          have hres : (sendToDevice socket o s d n).result =
              .ok { success := false, method := some "none", error := none } := by
            simp [sendToDevice, sendToDeviceTry_no_channel socket o s d n hc hw hp]
          rw [hres] at hv
          simp only [Except.ok.injEq] at hv
          rw [← hv] at hsucc
          simp at hsucc
        | some sub =>
          cases ho : o.push with
          | resolved code =>
            simp only [sendToDevice,
              sendToDeviceTry_push_ok socket o s d n sub code hc hw hp ho, hD]
            simp [Store.withRow]
          | rejected code msg =>
            by_cases h410 : code = some 410
            · subst h410
              obtain ⟨⟨w, hw1, hw2⟩, -⟩ := gone sub msg hc hw hp ho
              rw [hw1] at hv
              simp only [Except.ok.injEq] at hv
              rw [← hv, hw2] at hsucc
              simp at hsucc
            · obtain ⟨⟨w, hw1, hw2⟩, -⟩ := other sub code msg h410 hc hw hp ho
              rw [hw1] at hv
              simp only [Except.ok.injEq] at hv
              rw [← hv, hw2] at hsucc
              simp at hsucc
      · simp only [sendToDevice, sendToDeviceTry_websocket socket o s d n hc hw, hD]
        simp [Store.withRow]
    · rw [sendToDevice_create_throws socket o s d n hc] at hv
      simp only [Except.ok.injEq] at hv
      rw [← hv] at hsucc
      simp at hsucc
  · intro sub code msg hc hw hp ho
    by_cases h410 : code = some 410
    · subst h410
      exact gone sub msg hc hw hp ho
    · exact other sub code msg h410 hc hw hp ho
/-! ## The handler, payload and liveness claims at the concrete scenario -/

/-- C21, the claim as stated fails: user `u1` has one unread notification in `sentStore` and
device A online on `c1`. When the count query is rejected, `updateBadgeCount` resolves with
nothing and emits nothing; on a service without a Socket.IO instance it returns the count 1
and emits nothing. With nothing failing, `c1` gets the count 1. -/
theorem C21_counterexample_no_count_and_no_emit :
    (getUnreadCount false sentStore "u1").toOption = some 1 ∧
    (updateBadgeCount true blindBadge sentStore "u1").result.toOption = some none ∧
    (updateBadgeCount true blindBadge sentStore "u1").effects = [] ∧
    (updateBadgeCount false calmBadge sentStore "u1").result.toOption = some (some 1) ∧
    (updateBadgeCount false calmBadge sentStore "u1").effects = [] ∧
    (updateBadgeCount true calmBadge sentStore "u1").effects
      = [Effect.emit "c1" "notification:badge-update" 1] := by
  decide

/-- C21 (as amended) at the scenario: with nothing failing the one online device of `u1` gets
the count 1, and the count 0 after `markAllAsRead`. -/
theorem C21_witness :
    calmBadge.countThrows = false ∧ calmBadge.findThrows = false ∧
    calmBadge.emitThrows = false ∧
    (markAllAsRead true (calmReadAll 90) sentStore "u1").effects
      = [Effect.emit "c1" "notification:badge-update" 0] ∧
    ∃ count devices,
      getUnreadCount false sentStore "u1" = .ok count ∧
      getUserDevices false sentStore "u1" true = .ok devices ∧
      (updateBadgeCount true calmBadge sentStore "u1").store = sentStore ∧
      (updateBadgeCount true calmBadge sentStore "u1").result = .ok (some count) ∧
      (updateBadgeCount true calmBadge sentStore "u1").effects =
        (devices.filter (fun d => truthy d.webSocketId)).map (fun d =>
          Effect.emit (d.webSocketId.getD "") "notification:badge-update" count) ∧
      (∀ e ∈ (markAllAsRead true (calmReadAll 90) sentStore "u1").effects,
        ∃ sid, e = Effect.emit sid "notification:badge-update" 0) ∧
      (markAllAsRead true (calmReadAll 90) sentStore "u1").effects =
        (devices.filter (fun d => truthy d.webSocketId)).map (fun d =>
          Effect.emit (d.webSocketId.getD "") "notification:badge-update" 0) :=
  ⟨rfl, rfl, rfl, by decide,
    match C21_badge_update_reaches_online_devices_or_nobody true calmBadge sentStore "u1" with
    | ⟨count, devices, h1, h2, _, h4, _, h6, _, _, _, h10, h11⟩ =>
      ⟨count, devices, h1, h2, h4, (h6 rfl rfl rfl rfl).1, (h6 rfl rfl rfl rfl).2,
        h10 (calmReadAll 90) rfl, h11 rfl rfl rfl rfl (calmReadAll 90) rfl rfl⟩⟩

/-- C22 at the scenario: a subscribe request that carries nothing. -/
theorem C22_witness :
    Field.userId ∈ Handler.subscribe.required ∧ emptyRequest.has Field.userId = false ∧
    (handle true calmEnv store0 emptyRequest Handler.subscribe).response.status = 400 ∧
    (handle true calmEnv store0 emptyRequest Handler.subscribe).response.success = false ∧
    (handle true calmEnv store0 emptyRequest Handler.subscribe).store = store0 ∧
    (handle true calmEnv store0 emptyRequest Handler.subscribe).effects = [] ∧
    (handle true calmEnv store0 emptyRequest Handler.subscribe).calls = [] :=
  ⟨by decide, by decide,
    C22_missing_identifier_gets_400 true calmEnv store0 emptyRequest Handler.subscribe
      Field.userId (by decide) (by decide)⟩

/-- C23, the claim as stated fails: the realtime send to device A succeeds but the store
rejects the status update; `sendToDevice` resolves with `success: true` through `websocket`
while the row it created is still `sent` with no delivered timestamp. Likewise a rejected push
to device B with a rejected status update leaves the row `sent`, not `failed`. -/
theorem C23_counterexample_success_with_row_still_sent :
    (sendToDevice true deaf store0 deviceA notification0).result.toOption
      = some { success := true, method := some "websocket", error := none } ∧
    (sendToDevice true deaf store0 deviceA notification0).store.deliveryStatuses.map
      (fun r => (r.deviceId, r.deliveryStatus, r.deliveredAt)) = [(1, "sent", none)] ∧
    (sendToDevice true { busy with updateThrows := true } store0 deviceB
        notification0).result.toOption
      = some { success := false, method := some "none", error := none } ∧
    (sendToDevice true { busy with updateThrows := true } store0 deviceB
        notification0).store.deliveryStatuses.map
      (fun r => (r.deviceId, r.deliveryStatus)) = [(2, "sent")] := by
  decide

/-- C23 (as amended) at the scenario: device A live with the update accepted, device B with a
503 from the provider. -/
theorem C23_witness :
    store0.Fresh ∧
    (sendToDevice true calm store0 deviceA notification0).result
      = .ok { success := true, method := some "websocket", error := none } ∧
    (sendToDevice true calm store0 deviceA notification0).store.deliveryStatuses =
      store0.deliveryStatuses ++
        [if calm.updateThrows then newRow store0 notification0 deviceA
          else { newRow store0 notification0 deviceA with
                 deliveryStatus := "delivered", deliveredAt := some calm.now }] ∧
    (sendToDevice true busy store0 deviceB notification0).store.deliveryStatuses =
      store0.deliveryStatuses ++
        [if busy.updateThrows then newRow store0 notification0 deviceB
          else { newRow store0 notification0 deviceB with
                 deliveryStatus := "failed", errorMessage := some "service unavailable" }] :=
  ⟨by decide, rfl,
    (C23_row_follows_the_status_update true calm store0 deviceA notification0 (by decide)).1
      { success := true, method := some "websocket", error := none } rfl rfl,
    ((C23_row_follows_the_status_update true busy store0 deviceB notification0 (by decide)).2
      { endpoint := some "https://push.example/b", keys := "kb" } (some 503)
      "service unavailable" rfl rfl rfl rfl).2⟩

/-- C24, the code at the failing input: connection `c9` authenticated for device 1 and then
for device 2, so both are stored with socket id `c9`. After `markDeviceOffline("c9")` only
device 1 is cleared: device 2 is still online with socket id `c9`, and
`getDeviceBySocketId("c9")` returns it. -/
theorem C24_second_device_keeps_the_socket_id :
    sharedStore.devices.map (fun d => (d.id, d.isOnline, d.webSocketId))
      = [(1, true, some "c9"), (2, true, some "c9"), (3, false, none)] ∧
    (markDeviceOffline calmOffline sharedStore "c9").store.devices.map
      (fun d => (d.id, d.isOnline, d.webSocketId))
      = [(1, false, none), (2, true, some "c9"), (3, false, none)] ∧
    (getDeviceBySocketId false (markDeviceOffline calmOffline sharedStore "c9").store
      "c9").toOption.map (fun found => found.map (fun d => d.id)) = some (some 2) := by
  decide

/-- C25 at the scenario: the device fetch of the send for user `u1` is rejected. -/
theorem C25_witness :
    store0.WF ∧ blindSend.createThrows = false ∧ blindSend.findThrows = true ∧
    (sendNotification true blindSend store0 "u1" payload0).result = .error "store error" ∧
    (sendNotification true blindSend store0 "u1" payload0).store
      = store0.withNotification (persisted blindSend.now store0 "u1" payload0) ∧
    (sendNotification true blindSend store0 "u1" payload0).store.rowsOf
      (persisted blindSend.now store0 "u1" payload0).id = [] ∧
    getUnreadCount false (sendNotification true blindSend store0 "u1" payload0).store "u1"
      = .ok (0 + 1) :=
  ⟨by decide, rfl, rfl,
    (C25_send_not_atomic_on_fetch_failure true blindSend store0 "u1" payload0 (by decide)
      rfl rfl).1,
    (C25_send_not_atomic_on_fetch_failure true blindSend store0 "u1" payload0 (by decide)
      rfl rfl).2.1,
    (C25_send_not_atomic_on_fetch_failure true blindSend store0 "u1" payload0 (by decide)
      rfl rfl).2.2.2.2.2.2.1,
    (C25_send_not_atomic_on_fetch_failure true blindSend store0 "u1" payload0 (by decide)
      rfl rfl).2.2.2.2.1 0 rfl⟩

/-- C26, the code at the failing input: the data of the notification has the keys `type`,
`notificationId` and `targetUrl`. They are spread after the fixed keys of the payload, so the
payload carries the values of the data, not the type, id and target URL of the notification;
without such keys it carries those of the notification. -/
theorem C26_payload_keys_overwritten_by_data :
    clashing.id = 4 ∧ clashing.type = "order_assigned" ∧
    clashing.targetUrl = some "/orders/17" ∧
    objectGet (buildPushPayload clashing).data "notificationId" = some (JsonValue.str "999") ∧
    objectGet (buildPushPayload clashing).data "type" = some (JsonValue.str "promo") ∧
    objectGet (buildPushPayload clashing).data "targetUrl"
      = some (JsonValue.str "/elsewhere") ∧
    objectGet (buildPushPayload notification0).data "notificationId"
      = some (JsonValue.num 4) ∧
    objectGet (buildPushPayload notification0).data "type"
      = some (JsonValue.str "order_assigned") ∧
    objectGet (buildPushPayload notification0).data "targetUrl"
      = some (JsonValue.str "/orders/17") := by
  decide

/-- C27 at the scenario: user `u2` tries to mark notification 4 of user `u1` read. -/
theorem C27_witness :
    ("u2" : String) ≠ "" ∧ (∀ n ∈ sentStore.notifications, n.id = 4 → n.userId ≠ "u2") ∧
    (markAsRead true (calmRead 100) sentStore 4 (some "u2")).result.toBool = false ∧
    (markAsRead true (calmRead 100) sentStore 4 (some "u2")).store = sentStore ∧
    (markAsRead true (calmRead 100) sentStore 4 (some "u2")).effects = [] ∧
    (∀ socketId, (onMarkRead (calmRead 100) sentStore socketId (some "u2") 4).1 = sentStore ∧
      (onMarkRead (calmRead 100) sentStore socketId (some "u2") 4).2.filter
        Effect.isReadSync = []) :=
  ⟨by decide, by decide,
    C27_foreign_user_cannot_mark_read true (calmRead 100) sentStore 4 "u2" (by decide)
      (by decide)⟩

/-- C28 at the scenario: device A is set offline without a socket id argument and keeps
`c1`; with the socket id `c2` it is stored with `c2`. -/
theorem C28_witness :
    store0.devices.find? (fun x => x.id == 1) = some deviceA ∧
    (updateDeviceStatus false 60 store0 1 false none).result =
      .ok { deviceA with isOnline := false, lastSeen := 60 } ∧
    ({ deviceA with isOnline := false, lastSeen := 60 } : Device).webSocketId = some "c1" ∧
    { deviceA with isOnline := false, lastSeen := 60 }
      ∈ (updateDeviceStatus false 60 store0 1 false none).store.devices ∧
    (updateDeviceStatus false 60 store0 1 true (some "c2")).result =
      .ok { deviceA with isOnline := true, lastSeen := 60, webSocketId := some "c2" } :=
  ⟨by decide,
    (C28_status_update_keeps_socket_id_on_null 60 store0 1 false deviceA (by decide)).1,
    by decide,
    (C28_status_update_keeps_socket_id_on_null 60 store0 1 false deviceA (by decide)).2.2.1,
    ((C28_status_update_keeps_socket_id_on_null 60 store0 1 true deviceA (by decide)).2.2.2
      "c2").1⟩

end NotificationBeb
